import Mathlib

/-! VFDVault: settings persistence in one flash sector

A shallow embedding of `src/settings.h`, `src/settings.c` and `src/flash_utils.c`.

Conventions of the embedding.

* A byte is a `Nat` below 256, a `uint16_t` a `Nat` below `2^16`, a `uint32_t` a `Nat`
  below `2^32`.  RAM buffers are `List Nat`; `buf.getD i 0` is the C read `buf[i]`.
* `settings_t` is declared under `#pragma pack(push, 1)`, so an object of that type is
  exactly its 374 bytes, laid out in declaration order without padding.  The target
  (RP2040, Cortex-M0+) is little-endian.  A record is therefore modelled by its object
  representation and every field is read from, or written to, its byte range.  With
  this choice `memcpy(temp, cfg, sizeof(settings_t))` and the cast
  `(const uint8_t *)cfg` are the identity.
* The memory-mapped flash (`XIP_BASE + offset`) is a function from offsets to bytes.
* The Pico SDK (`hardware/flash.h`, `hardware/sync.h`) and `config.h` are not part of the
  repository: the values they provide are fields of `Build`, the two SDK flash
  primitives are fields of `FlashDevice`.
* Pointer arguments are non-null unless the parameter is an `Option`; logging is not
  modelled.
-/

namespace VFDVault

/-! ## Constants of `settings.h` -/

/-- SETTINGS_MAGIC of settings.h. -/
def SETTINGS_MAGIC : Nat := 0xCAFE0000
/-- SETTINGS_VERSION of settings.h. -/
def SETTINGS_VERSION : Nat := 0x0100
/-- NTP_MAX_SERVERS of settings.h. -/
def NTP_MAX_SERVERS : Nat := 4
/-- WIFI_SSID_MAX_LEN of settings.h. -/
def WIFI_SSID_MAX_LEN : Nat := 32
/-- WIFI_PASS_MAX_LEN of settings.h. -/
def WIFI_PASS_MAX_LEN : Nat := 64
/-- NTP_SERVER_MAX_LEN of settings.h. -/
def NTP_SERVER_MAX_LEN : Nat := 64
/-- BRIGHTNESS_MAX of settings.h. -/
def BRIGHTNESS_MAX : Nat := 100
/-- HOUR_MAX of settings.h. -/
def HOUR_MAX : Nat := 23
/-- CRC32_ERROR of settings.h. -/
def CRC32_ERROR : Nat := 0xFFFFFFFF
/-- FLAG_ADAPTIVE_BRIGHTNESS of settings.h. -/
def FLAG_ADAPTIVE_BRIGHTNESS : Nat := 0x01
/-- FLAG_NIGHT_MODE of settings.h. -/
def FLAG_NIGHT_MODE : Nat := 0x02
/-- FLAG_SETTINGS_ENCRYPTED of settings.h. -/
def FLAG_SETTINGS_ENCRYPTED : Nat := 0x04

/-- Values supplied from outside the repository: `ENCRYPT_WIFI_PASS` is the compile-time
switch of `config.h` (true when the symbol is defined), `FLASH_SECTOR_SIZE` and
`PICO_FLASH_SIZE_BYTES` come from the Pico SDK. -/
structure Build where
  /-- True when the preprocessor symbol ENCRYPT_WIFI_PASS is defined. -/
  ENCRYPT_WIFI_PASS : Bool
  /-- Size in bytes of one erasable flash sector. -/
  FLASH_SECTOR_SIZE : Nat
  /-- Size in bytes of the flash device. -/
  PICO_FLASH_SIZE_BYTES : Nat
  /-- The string literal DEFAULT_SSID of config.h, without its terminator. -/
  DEFAULT_SSID : List Nat
  /-- The string literal DEFAULT_PASS of config.h, without its terminator. -/
  DEFAULT_PASS : List Nat
  /-- The string literal DEFAULT_NTP_SERVER of config.h, without its terminator. -/
  DEFAULT_NTP_SERVER : List Nat

/-! ## Byte-level helpers -/

/-- The first `n` bytes of a RAM buffer, `buf[0] .. buf[n-1]`. -/
def mem_read (buf : List Nat) (n : Nat) : List Nat :=
  (List.range n).map (fun i => buf.getD i 0)

/-- The `n` bytes `buf[off] .. buf[off+n-1]`: the contents of a `char[n]` member. -/
def mem_slice (buf : List Nat) (off n : Nat) : List Nat :=
  (List.range n).map (fun i => buf.getD (off + i) 0)

/-- The effect of `memcpy(buf + off, src, src.length)` on `buf`. -/
def mem_write (buf : List Nat) (off : Nat) (src : List Nat) : List Nat :=
  (List.range buf.length).map
    (fun i => if off ≤ i ∧ i < off + src.length then src.getD (i - off) 0 else buf.getD i 0)

/-- Little-endian load of a `uint16_t` at byte offset `off`. -/
def rd16 (buf : List Nat) (off : Nat) : Nat :=
  buf.getD off 0 + 256 * buf.getD (off + 1) 0

/-- Little-endian load of a `uint32_t` at byte offset `off`. -/
def rd32 (buf : List Nat) (off : Nat) : Nat :=
  buf.getD off 0 + 256 * buf.getD (off + 1) 0 + 65536 * buf.getD (off + 2) 0
    + 16777216 * buf.getD (off + 3) 0

/-- Little-endian object representation of a `uint16_t`. -/
def le16 (x : Nat) : List Nat := [x % 256, x / 256 % 256]

/-- Little-endian object representation of a `uint32_t`. -/
def le32 (x : Nat) : List Nat :=
  [x % 256, x / 256 % 256, x / 65536 % 256, x / 16777216 % 256]

/-- C `strlen` on the bytes that start at the pointer: the number of bytes before the
first NUL.  The list holds the memory from the pointer to the end of the enclosing
object; when it holds no NUL the scan leaves the object and the model returns the number
of bytes scanned inside it. -/
def strlen : List Nat → Nat
  | [] => 0
  | c :: cs => if c = 0 then 0 else strlen cs + 1

/-- C `strnlen(s, maxlen)`: the scan of `strlen` stopped after `maxlen` bytes. -/
def strnlen (s : List Nat) (maxlen : Nat) : Nat :=
  strlen (s.take maxlen)

/-! ## The packed record `settings_t` -/

/-- An object of type `settings_t`, given by its object representation. -/
structure settings_t where
  /-- The bytes of the object, `sizeof(settings_t)` of them. -/
  bytes : List Nat
deriving DecidableEq

namespace settings_t

/-- Byte offset of `magic` (uint32_t). -/
def off_magic : Nat := 0
/-- Byte offset of `version` (uint16_t). -/
def off_version : Nat := off_magic + 4
/-- Byte offset of `size` (uint16_t). -/
def off_size : Nat := off_version + 2
/-- Byte offset of `wifi_ssid` (char[WIFI_SSID_MAX_LEN]). -/
def off_wifi_ssid : Nat := off_size + 2
/-- Byte offset of `wifi_pass` (char[WIFI_PASS_MAX_LEN]). -/
def off_wifi_pass : Nat := off_wifi_ssid + WIFI_SSID_MAX_LEN
/-- Byte offset of `brightness` (uint8_t). -/
def off_brightness : Nat := off_wifi_pass + WIFI_PASS_MAX_LEN
/-- Byte offset of `flags` (uint8_t). -/
def off_flags : Nat := off_brightness + 1
/-- Byte offset of `night_off_hour` (uint8_t). -/
def off_night_off_hour : Nat := off_flags + 1
/-- Byte offset of `night_on_hour` (uint8_t). -/
def off_night_on_hour : Nat := off_night_off_hour + 1
/-- Byte offset of `anim_flags` (uint16_t). -/
def off_anim_flags : Nat := off_night_on_hour + 1
/-- Byte offset of `anim_lags_period_s` (uint16_t). -/
def off_anim_lags_period_s : Nat := off_anim_flags + 2
/-- Byte offset of `ntp_servers` (char[NTP_MAX_SERVERS][NTP_SERVER_MAX_LEN]). -/
def off_ntp_servers : Nat := off_anim_lags_period_s + 2
/-- Byte offset of `ntp_sync_period_minutes` (uint16_t). -/
def off_ntp_sync_period_minutes : Nat := off_ntp_servers + NTP_MAX_SERVERS * NTP_SERVER_MAX_LEN
/-- Byte offset of `crc32` (uint32_t). -/
def off_crc32 : Nat := off_ntp_sync_period_minutes + 2

/-- Field `magic`. -/
def magic (c : settings_t) : Nat := rd32 c.bytes off_magic
/-- Field `version`. -/
def version (c : settings_t) : Nat := rd16 c.bytes off_version
/-- Field `size`. -/
def size (c : settings_t) : Nat := rd16 c.bytes off_size
/-- Field `wifi_ssid`, all `WIFI_SSID_MAX_LEN` bytes of the array. -/
def wifi_ssid (c : settings_t) : List Nat := mem_slice c.bytes off_wifi_ssid WIFI_SSID_MAX_LEN
/-- Field `wifi_pass`, all `WIFI_PASS_MAX_LEN` bytes of the array. -/
def wifi_pass (c : settings_t) : List Nat := mem_slice c.bytes off_wifi_pass WIFI_PASS_MAX_LEN
/-- Field `brightness`. -/
def brightness (c : settings_t) : Nat := c.bytes.getD off_brightness 0
/-- Field `flags`. -/
def flags (c : settings_t) : Nat := c.bytes.getD off_flags 0
/-- Field `night_off_hour`. -/
def night_off_hour (c : settings_t) : Nat := c.bytes.getD off_night_off_hour 0
/-- Field `night_on_hour`. -/
def night_on_hour (c : settings_t) : Nat := c.bytes.getD off_night_on_hour 0
/-- Field `anim_flags`. -/
def anim_flags (c : settings_t) : Nat := rd16 c.bytes off_anim_flags
/-- Field `anim_lags_period_s`. -/
def anim_lags_period_s (c : settings_t) : Nat := rd16 c.bytes off_anim_lags_period_s
/-- Field `ntp_servers[i]`, all `NTP_SERVER_MAX_LEN` bytes of the array. -/
def ntp_servers (c : settings_t) (i : Nat) : List Nat :=
  mem_slice c.bytes (off_ntp_servers + i * NTP_SERVER_MAX_LEN) NTP_SERVER_MAX_LEN
/-- Field `ntp_sync_period_minutes`. -/
def ntp_sync_period_minutes (c : settings_t) : Nat := rd16 c.bytes off_ntp_sync_period_minutes
/-- Field `crc32`. -/
def crc32 (c : settings_t) : Nat := rd32 c.bytes off_crc32

/-- The pointer `c->wifi_ssid` as a `char *`: the memory from the field to the end of the
object. -/
def wifi_ssid_ptr (c : settings_t) : List Nat := c.bytes.drop off_wifi_ssid
/-- The pointer `c->wifi_pass` as a `char *`. -/
def wifi_pass_ptr (c : settings_t) : List Nat := c.bytes.drop off_wifi_pass
/-- The pointer `c->ntp_servers[i]` as a `char *`. -/
def ntp_servers_ptr (c : settings_t) (i : Nat) : List Nat :=
  c.bytes.drop (off_ntp_servers + i * NTP_SERVER_MAX_LEN)

/-- Assignment to the array `wifi_pass` (the in-place result of `xor_wifi_pass`). -/
def set_wifi_pass (c : settings_t) (p : List Nat) : settings_t :=
  ⟨mem_write c.bytes off_wifi_pass p⟩
/-- Assignment to the array `wifi_ssid`. -/
def set_wifi_ssid (c : settings_t) (s : List Nat) : settings_t :=
  ⟨mem_write c.bytes off_wifi_ssid s⟩
/-- Assignment `c->crc32 = v`. -/
def set_crc32 (c : settings_t) (v : Nat) : settings_t :=
  ⟨mem_write c.bytes off_crc32 (le32 v)⟩
/-- Assignment `c->magic = v`. -/
def set_magic (c : settings_t) (v : Nat) : settings_t :=
  ⟨mem_write c.bytes off_magic (le32 v)⟩
/-- Assignment `c->version = v`. -/
def set_version (c : settings_t) (v : Nat) : settings_t :=
  ⟨mem_write c.bytes off_version (le16 v)⟩
/-- Assignment `c->size = v`. -/
def set_size (c : settings_t) (v : Nat) : settings_t :=
  ⟨mem_write c.bytes off_size (le16 v)⟩
/-- Assignment `c->brightness = v`. -/
def set_brightness (c : settings_t) (v : Nat) : settings_t :=
  ⟨mem_write c.bytes off_brightness [v % 256]⟩
/-- Assignment `c->flags = v`. -/
def set_flags (c : settings_t) (v : Nat) : settings_t :=
  ⟨mem_write c.bytes off_flags [v % 256]⟩
/-- Assignment `c->night_off_hour = v`. -/
def set_night_off_hour (c : settings_t) (v : Nat) : settings_t :=
  ⟨mem_write c.bytes off_night_off_hour [v % 256]⟩
/-- Assignment `c->night_on_hour = v`. -/
def set_night_on_hour (c : settings_t) (v : Nat) : settings_t :=
  ⟨mem_write c.bytes off_night_on_hour [v % 256]⟩
/-- Assignment `c->anim_flags = v`. -/
def set_anim_flags (c : settings_t) (v : Nat) : settings_t :=
  ⟨mem_write c.bytes off_anim_flags (le16 v)⟩
/-- Assignment `c->anim_lags_period_s = v`. -/
def set_anim_lags_period_s (c : settings_t) (v : Nat) : settings_t :=
  ⟨mem_write c.bytes off_anim_lags_period_s (le16 v)⟩
/-- Assignment to the array `ntp_servers[i]`. -/
def set_ntp_server (c : settings_t) (i : Nat) (s : List Nat) : settings_t :=
  ⟨mem_write c.bytes (off_ntp_servers + i * NTP_SERVER_MAX_LEN) s⟩
/-- Assignment `c->ntp_sync_period_minutes = v`. -/
def set_ntp_sync_period_minutes (c : settings_t) (v : Nat) : settings_t :=
  ⟨mem_write c.bytes off_ntp_sync_period_minutes (le16 v)⟩

end settings_t

/-- The value of `sizeof(settings_t)`: the packed sum of the member sizes. -/
def sizeof_settings_t : Nat := settings_t.off_crc32 + 4

/-- Well-formed object: `sizeof(settings_t)` bytes, each a byte. -/
def settings_t.WF (c : settings_t) : Prop :=
  c.bytes.length = sizeof_settings_t ∧ ∀ b ∈ c.bytes, b < 256

instance (c : settings_t) : Decidable c.WF := by
  unfold settings_t.WF; infer_instance

/-! ## `settings.c` -/

/-- The key byte used at index `i`: `(SETTINGS_MAGIC >> (i % 32)) & 0xFF`. -/
def xor_key (i : Nat) : Nat := (SETTINGS_MAGIC >>> (i % 32)) &&& 0xFF

/-- Function `xor_wifi_pass` of settings.c on the array `pass`; returns the array after the
call.  The statement `pass[i] ^= k` stores the low eight bits of `pass[i] ^ k`. -/
def xor_wifi_pass (B : Build) (pass : List Nat) (len : Nat) : List Nat :=
  if B.ENCRYPT_WIFI_PASS then
    let real_len := strnlen pass len
    (List.range (min real_len WIFI_PASS_MAX_LEN)).foldl
      (fun pass i => pass.set i ((pass.getD i 0 ^^^ xor_key i) % 256)) pass
  else
    pass

/-- One pass of the inner loop of `calculate_crc32`:
`crc = (crc >> 1) ^ (0xEDB88320 & -(crc & 1))` on `uint32_t`. -/
def crc32_bit (crc : Nat) : Nat :=
  (crc >>> 1) ^^^ (0xEDB88320 &&& ((2 ^ 32 - (crc &&& 1)) % 2 ^ 32))

/-- One pass of the outer loop of `calculate_crc32`: `crc ^= data[i]`, then eight passes of
the inner loop. -/
def crc32_byte (crc : Nat) (b : Nat) : Nat :=
  (List.range 8).foldl (fun crc _ => crc32_bit crc) (crc ^^^ b)

/-- Function `calculate_crc32` of settings.c; `none` is the null pointer. -/
def calculate_crc32 (data : Option (List Nat)) (len : Nat) : Nat :=
  match data with
  | none => CRC32_ERROR
  | some data =>
    if len = 0 then CRC32_ERROR
    else
      let crc := (List.range len).foldl (fun crc i => crc32_byte crc (data.getD i 0)) 0xFFFFFFFF
      crc ^^^ 0xFFFFFFFF

/-- What `snprintf(dst, n, "%s", s)` stores at `dst`: the characters of `s` before its first
NUL, cut to `n - 1` of them, and a terminator. -/
def snprintf_s (n : Nat) (s : List Nat) : List Nat :=
  s.take (min (strlen s) (n - 1)) ++ [0]

/-- Function `settings_init_default` of settings.c; returns the record left in `*cfg`. -/
def settings_init_default (B : Build) : settings_t :=
  let cfg : settings_t := ⟨List.replicate sizeof_settings_t 0⟩
  let cfg := cfg.set_magic SETTINGS_MAGIC
  let cfg := cfg.set_version SETTINGS_VERSION
  let cfg := cfg.set_size sizeof_settings_t
  let cfg := cfg.set_wifi_ssid (snprintf_s WIFI_SSID_MAX_LEN B.DEFAULT_SSID)
  let cfg := cfg.set_wifi_pass (snprintf_s WIFI_PASS_MAX_LEN B.DEFAULT_PASS)
  let cfg := cfg.set_brightness 50
  let cfg := cfg.set_night_off_hour 22
  let cfg := cfg.set_night_on_hour 6
  let cfg := cfg.set_anim_lags_period_s 5
  let cfg := cfg.set_ntp_server 0 (snprintf_s NTP_SERVER_MAX_LEN B.DEFAULT_NTP_SERVER)
  let cfg := cfg.set_ntp_sync_period_minutes 60
  let cfg :=
    if B.ENCRYPT_WIFI_PASS then
      if cfg.flags &&& FLAG_SETTINGS_ENCRYPTED = 0 then
        cfg.set_flags (cfg.flags ||| FLAG_SETTINGS_ENCRYPTED)
      else cfg
    else
      if cfg.flags &&& FLAG_SETTINGS_ENCRYPTED ≠ 0 then
        cfg.set_flags (cfg.flags &&& (0xFF - FLAG_SETTINGS_ENCRYPTED))
      else cfg
  cfg.set_crc32 (calculate_crc32 (some cfg.bytes) (sizeof_settings_t - 4))

/-! ## The flash device and `flash_utils.c` -/

/-- Contents of the memory-mapped flash: the byte at each offset from `XIP_BASE`. -/
abbrev Flash := Nat → Nat

/-- The two flash primitives of the Pico SDK, as state transformers:
`flash_range_erase(offset, count)` and `flash_range_program(offset, data, count)`. -/
structure FlashDevice where
  /-- SDK call flash_range_erase(offset, count). -/
  flash_range_erase : Nat → Nat → Flash → Flash
  /-- SDK call flash_range_program(offset, data, count). -/
  flash_range_program : Nat → List Nat → Nat → Flash → Flash

/-- Modelled from the spec: the SDK flash primitives are not in the repository; section 4.1
describes them: erase resets the range to all-ones, program clears bits only (the new
byte is the old byte AND the data byte). -/
def nor_flash : FlashDevice where
  flash_range_erase := fun offset count flash a =>
    if offset ≤ a ∧ a < offset + count then 0xFF else flash a
  flash_range_program := fun offset data count flash a =>
    if offset ≤ a ∧ a < offset + count then flash a &&& data.getD (a - offset) 0xFF else flash a

/-- The `n` bytes read through `(const uint8_t *)(XIP_BASE + offset)`. -/
def flash_read (flash : Flash) (offset n : Nat) : List Nat :=
  (List.range n).map (fun i => flash (offset + i))

/-- Function `write_flash_sector` of flash_utils.c; returns the result and the flash
contents after the call. -/
def write_flash_sector (B : Build) (dev : FlashDevice) (offset : Nat) (data : List Nat)
    (len : Nat) (flash : Flash) : Bool × Flash :=
  if offset % B.FLASH_SECTOR_SIZE ≠ 0 ∨ offset ≥ B.PICO_FLASH_SIZE_BYTES then
    (false, flash)
  else if len > B.FLASH_SECTOR_SIZE then
    (false, flash)
  else
    let flash := dev.flash_range_erase offset B.FLASH_SECTOR_SIZE flash
    let flash := dev.flash_range_program offset data B.FLASH_SECTOR_SIZE flash
    if flash_read flash offset len ≠ mem_read data len then
      (false, flash)
    else
      (true, flash)

/-- Function `erase_flash_sector` of flash_utils.c. -/
def erase_flash_sector (B : Build) (dev : FlashDevice) (flash_offset : Nat) (flash : Flash) :
    Bool × Flash :=
  let flash_buffer := List.replicate B.FLASH_SECTOR_SIZE 0xFF
  write_flash_sector B dev flash_offset flash_buffer B.FLASH_SECTOR_SIZE flash

/-! ## `settings_load` and `settings_save` -/

/-- Function `settings_load` of settings.c; `cfg` is the caller's record before the call,
the result is the return value and the caller's record after the call. -/
def settings_load (B : Build) (cfg : settings_t) (flash_offset : Nat) (flash : Flash) :
    Bool × settings_t :=
  if flash_offset % B.FLASH_SECTOR_SIZE ≠ 0 ∨ flash_offset ≥ B.PICO_FLASH_SIZE_BYTES then
    (false, cfg)
  else
    let blank := List.replicate sizeof_settings_t 0xFF
    if flash_read flash flash_offset sizeof_settings_t = blank then
      (false, cfg)
    else
      let cfg : settings_t := ⟨flash_read flash flash_offset sizeof_settings_t⟩
      if cfg.magic ≠ SETTINGS_MAGIC then (false, cfg)
      else if cfg.version ≠ SETTINGS_VERSION then (false, cfg)
      else if cfg.size ≠ sizeof_settings_t then (false, cfg)
      else
        let computed_crc := calculate_crc32 (some cfg.bytes) (sizeof_settings_t - 4)
        if computed_crc ≠ cfg.crc32 then (false, cfg)
        else
          let cfg :=
            if cfg.flags &&& FLAG_SETTINGS_ENCRYPTED ≠ 0 then
              cfg.set_wifi_pass (xor_wifi_pass B cfg.wifi_pass WIFI_PASS_MAX_LEN)
            else cfg
          (true, cfg)

/-- Function `settings_save` of settings.c; returns the result and the flash contents after
the call.  The caller's record is passed by value (`const settings_t *`).  `temp` is the
start of `flash_buffer`, so the buffer passed on is the 0xFF fill with `temp` written at
offset 0. -/
def settings_save (B : Build) (dev : FlashDevice) (cfg : settings_t) (flash_offset : Nat)
    (flash : Flash) : Bool × Flash :=
  if cfg.magic ≠ SETTINGS_MAGIC ∨ cfg.version ≠ SETTINGS_VERSION then (false, flash)
  else if cfg.size ≠ sizeof_settings_t then (false, flash)
  else if cfg.brightness > BRIGHTNESS_MAX then (false, flash)
  else if cfg.night_off_hour > HOUR_MAX ∨ cfg.night_on_hour > HOUR_MAX then (false, flash)
  else if strlen cfg.wifi_ssid_ptr ≥ WIFI_SSID_MAX_LEN then (false, flash)
  else if strlen cfg.wifi_pass_ptr ≥ WIFI_PASS_MAX_LEN then (false, flash)
  else if (List.range NTP_MAX_SERVERS).any
      (fun i => decide (strlen (cfg.ntp_servers_ptr i) ≥ NTP_SERVER_MAX_LEN)) then (false, flash)
  else
    let flash_buffer := List.replicate B.FLASH_SECTOR_SIZE 0xFF
    let temp : settings_t := cfg
    let temp :=
      if temp.flags &&& FLAG_SETTINGS_ENCRYPTED ≠ 0 then
        temp.set_wifi_pass (xor_wifi_pass B temp.wifi_pass WIFI_PASS_MAX_LEN)
      else temp
    let temp := temp.set_crc32 (calculate_crc32 (some temp.bytes) (sizeof_settings_t - 4))
    let flash_buffer := mem_write flash_buffer 0 temp.bytes
    let written := write_flash_sector B dev flash_offset flash_buffer B.FLASH_SECTOR_SIZE flash
    if written.1 = false then
      (false, written.2)
    else
      (true, written.2)

/-! ## The parts of `settings_save`

The three definitions below name the parts of `settings_save`; the lemma
`settings_save_eq` shows that the function is their composition. -/

/-- The checks of `settings_save` (settings.c lines 133-163) that precede the use of the
flash buffer: `true` when none of them returns. -/
def settings_save_checks (cfg : settings_t) : Bool :=
  if cfg.magic ≠ SETTINGS_MAGIC ∨ cfg.version ≠ SETTINGS_VERSION then false
  else if cfg.size ≠ sizeof_settings_t then false
  else if cfg.brightness > BRIGHTNESS_MAX then false
  else if cfg.night_off_hour > HOUR_MAX ∨ cfg.night_on_hour > HOUR_MAX then false
  else if strlen cfg.wifi_ssid_ptr ≥ WIFI_SSID_MAX_LEN then false
  else if strlen cfg.wifi_pass_ptr ≥ WIFI_PASS_MAX_LEN then false
  else if (List.range NTP_MAX_SERVERS).any
      (fun i => decide (strlen (cfg.ntp_servers_ptr i) ≥ NTP_SERVER_MAX_LEN)) then false
  else true

/-- The record `temp` that `settings_save` builds at the start of `flash_buffer`
(settings.c lines 166-172): the copy of `*cfg`, its password filtered when the flag is
set, its checksum recomputed. -/
def settings_save_temp (B : Build) (cfg : settings_t) : settings_t :=
  let temp : settings_t := cfg
  let temp :=
    if temp.flags &&& FLAG_SETTINGS_ENCRYPTED ≠ 0 then
      temp.set_wifi_pass (xor_wifi_pass B temp.wifi_pass WIFI_PASS_MAX_LEN)
    else temp
  temp.set_crc32 (calculate_crc32 (some temp.bytes) (sizeof_settings_t - 4))

/-- The contents of `flash_buffer` that `settings_save` passes to `write_flash_sector`
(settings.c lines 165-172): `FLASH_SECTOR_SIZE` bytes 0xFF with `temp` at the start. -/
def settings_save_buffer (B : Build) (cfg : settings_t) : List Nat :=
  mem_write (List.replicate B.FLASH_SECTOR_SIZE 0xFF) 0 (settings_save_temp B cfg).bytes

/-! ## Specification-side definitions -/

/-- Reference CRC-32, one message bit: the register is shifted right by one place and the
reflected polynomial 0xEDB88320 is added when the bit shifted out differs from the
message bit. -/
def crc32_reference_bit (crc bit : Nat) : Nat :=
  if (crc ^^^ bit) % 2 = 1 then (crc / 2) ^^^ 0xEDB88320 else crc / 2

/-- Reference CRC-32, one message byte: its eight bits, least significant first. -/
def crc32_reference_byte (crc byte : Nat) : Nat :=
  (List.range 8).foldl (fun crc k => crc32_reference_bit crc (byte / 2 ^ k % 2)) crc

/-- Reference CRC-32 in the words of the specification (section 4.3): reflected, polynomial
0xEDB88320, initial value all-ones, final XOR all-ones, the message taken byte by byte
and bit by bit. -/
def crc32_reference (msg : List Nat) : Nat :=
  msg.foldl crc32_reference_byte 0xFFFFFFFF ^^^ 0xFFFFFFFF

/-- A flash device without faults, as far as `write_flash_sector` uses it: after the erase
of a sector and the programming of one sector of bytes, the sector reads back as the
bytes programmed. -/
def FaultFree (B : Build) (dev : FlashDevice) : Prop :=
  ∀ (offset : Nat) (data : List Nat) (flash : Flash),
    data.length = B.FLASH_SECTOR_SIZE → (∀ b ∈ data, b < 256) →
    ∀ i, i < B.FLASH_SECTOR_SIZE →
      dev.flash_range_program offset data B.FLASH_SECTOR_SIZE
        (dev.flash_range_erase offset B.FLASH_SECTOR_SIZE flash) (offset + i) = data.getD i 0

/-- Two records agree in every member other than `wifi_pass` and `crc32`. -/
def settings_t.same_other_fields (x y : settings_t) : Prop :=
  x.magic = y.magic ∧ x.version = y.version ∧ x.size = y.size ∧ x.wifi_ssid = y.wifi_ssid
    ∧ x.brightness = y.brightness ∧ x.flags = y.flags
    ∧ x.night_off_hour = y.night_off_hour ∧ x.night_on_hour = y.night_on_hour
    ∧ x.anim_flags = y.anim_flags ∧ x.anim_lags_period_s = y.anim_lags_period_s
    ∧ (∀ i, i < NTP_MAX_SERVERS → x.ntp_servers i = y.ntp_servers i)
    ∧ x.ntp_sync_period_minutes = y.ntp_sync_period_minutes

/-- The flash contents after the byte at offset `a` was combined with `mask` by XOR. -/
def flash_xor_byte (flash : Flash) (a mask : Nat) : Flash :=
  fun x => if x = a then flash x ^^^ mask else flash x

/-- The flash contents after the bytes of `src` were put at offset `a`. -/
def flash_put (flash : Flash) (a : Nat) (src : List Nat) : Flash :=
  fun x => if a ≤ x ∧ x < a + src.length then src.getD (x - a) 0 else flash x

/-! ## Concrete inputs -/

/-- A C string constant in an array of `n` bytes: the characters, then NUL bytes. -/
def c_string (n : Nat) (s : List Nat) : List Nat :=
  s ++ List.replicate (n - s.length) 0

/-- A record given member by member, in declaration order. -/
def settings_t.of_fields (magic version size : Nat) (wifi_ssid wifi_pass : List Nat)
    (brightness flags night_off_hour night_on_hour anim_flags anim_lags_period_s : Nat)
    (ntp0 ntp1 ntp2 ntp3 : List Nat) (ntp_sync_period_minutes crc32 : Nat) : settings_t :=
  ⟨le32 magic ++ le16 version ++ le16 size
    ++ c_string WIFI_SSID_MAX_LEN wifi_ssid ++ c_string WIFI_PASS_MAX_LEN wifi_pass
    ++ [brightness, flags, night_off_hour, night_on_hour]
    ++ le16 anim_flags ++ le16 anim_lags_period_s
    ++ c_string NTP_SERVER_MAX_LEN ntp0 ++ c_string NTP_SERVER_MAX_LEN ntp1
    ++ c_string NTP_SERVER_MAX_LEN ntp2 ++ c_string NTP_SERVER_MAX_LEN ntp3
    ++ le16 ntp_sync_period_minutes ++ le32 crc32⟩

/-- The characters of "VFDClock". -/
def ascii_VFDClock : List Nat := [86, 70, 68, 67, 108, 111, 99, 107]
/-- The characters of "password". -/
def ascii_password : List Nat := [112, 97, 115, 115, 119, 111, 114, 100]
/-- The characters of "pool.ntp.org". -/
def ascii_pool_ntp_org : List Nat := [112, 111, 111, 108, 46, 110, 116, 112, 46, 111, 114, 103]
/-- The characters of "123456789". -/
def ascii_digits : List Nat := [49, 50, 51, 52, 53, 54, 55, 56, 57]

/-- A build for a board with 4096-byte sectors and 2 MiB of flash. -/
def pico_build (encrypt : Bool) : Build :=
  ⟨encrypt, 4096, 2097152, ascii_VFDClock, ascii_password, ascii_pool_ntp_org⟩

/-- The offset the test program uses: `PICO_FLASH_SIZE_BYTES - FLASH_SECTOR_SIZE`. -/
def FLASH_OFFSET : Nat := 2097152 - 4096

/-- The record `settings_init_default` leaves with the filter enabled, member by member. -/
def default_record : settings_t :=
  settings_t.of_fields 0xCAFE0000 0x0100 374 ascii_VFDClock ascii_password 50 4 22 6 0 5
    ascii_pool_ntp_org [] [] [] 60 0x4157F8E9

/-- The record `settings_init_default` leaves with the filter disabled, member by member. -/
def default_record_plain : settings_t :=
  settings_t.of_fields 0xCAFE0000 0x0100 374 ascii_VFDClock ascii_password 50 0 22 6 0 5
    ascii_pool_ntp_org [] [] [] 60 0x57B2C62B

/-- An erased flash: every byte 0xFF. -/
def blank_flash : Flash := fun _ => 0xFF

/-- A device that destroys the whole flash whenever it is called. -/
def wiping_device : FlashDevice where
  flash_range_erase := fun _ _ _ _ => 0
  flash_range_program := fun _ _ _ _ _ => 0

/-- An erased flash whose sector at `FLASH_OFFSET` holds the bytes of `default_record`. -/
def default_flash : Flash := flash_put blank_flash FLASH_OFFSET default_record.bytes

/-- The characters of "SuperLongSSID1234567890123456789" that fit an array of 32 bytes
(test 2): the first 31. -/
def ascii_long_ssid : List Nat :=
  [83, 117, 112, 101, 114, 76, 111, 110, 103, 83, 83, 73, 68, 49, 50, 51, 52, 53, 54, 55, 56, 57,
    48, 49, 50, 51, 52, 53, 54, 55, 56]

/-- The default record with the 31-character SSID of test 2. -/
def record_ssid31 : settings_t :=
  settings_t.of_fields 0xCAFE0000 0x0100 374 ascii_long_ssid ascii_password 50 4 22 6 0 5
    ascii_pool_ntp_org [] [] [] 60 0x4157F8E9

/-- The record of test 5: `strncpy` put 33 letters 'A' at `wifi_ssid` of the default record,
the last of them in `wifi_pass[0]`. -/
def record_ssid_overflow : settings_t :=
  settings_t.of_fields 0xCAFE0000 0x0100 374 (List.replicate 32 65)
    [65, 97, 115, 115, 119, 111, 114, 100] 50 4 22 6 0 5 ascii_pool_ntp_org [] [] [] 60 0x4157F8E9

/-- The characters of the 63-character password of test 2. -/
def ascii_long_pass : List Nat :=
  [84, 104, 105, 115, 73, 115, 65, 86, 101, 114, 121, 76, 111, 110, 103, 80, 97, 115, 115, 119, 111, 114, 100, 87, 105, 116, 104, 76, 111, 116, 115, 79, 102, 67, 104, 97, 114, 115, 84, 111, 84, 101, 115, 116, 84, 104, 101, 76, 105, 109, 105, 116, 115, 49, 50, 51, 52, 53, 54, 55, 56, 57, 48]
/-- The characters of "time.google.com". -/
def ascii_time_google_com : List Nat := [116, 105, 109, 101, 46, 103, 111, 111, 103, 108, 101, 46, 99, 111, 109]
/-- The characters of "ntp.ubuntu.com". -/
def ascii_ntp_ubuntu_com : List Nat := [110, 116, 112, 46, 117, 98, 117, 110, 116, 117, 46, 99, 111, 109]
/-- The characters of "tick.usno.navy.mil". -/
def ascii_tick_usno_navy_mil : List Nat := [116, 105, 99, 107, 46, 117, 115, 110, 111, 46, 110, 97, 118, 121, 46, 109, 105, 108]
/-- The characters of "MyHomeNetworkPassphrase-Secret2024"; the character at index 25 is 'e',
which is the key byte `xor_key 25`. -/
def ascii_passphrase : List Nat := [77, 121, 72, 111, 109, 101, 78, 101, 116, 119, 111, 114, 107, 80, 97, 115, 115, 112, 104, 114, 97, 115, 101, 45, 83, 101, 99, 114, 101, 116, 50, 48, 50, 52]

/-- The record of test 2, with `crc32` computed by the caller over the record as it is in
memory. -/
def record_edge_case : settings_t :=
  settings_t.of_fields 0xCAFE0000 0x0100 374 ascii_long_ssid ascii_long_pass 100 7 23 0 0x1F 65535
    ascii_pool_ntp_org ascii_time_google_com ascii_ntp_ubuntu_com ascii_tick_usno_navy_mil 1440
    0xF2CE79B1

/-- The default record of a build without the filter after the application set the
brightness to 80; `crc32` is still the checksum of the default record. -/
def record_stale_crc : settings_t :=
  settings_t.of_fields 0xCAFE0000 0x0100 374 ascii_VFDClock ascii_password 80 0 22 6 0 5
    ascii_pool_ntp_org [] [] [] 60 0x57B2C62B

/-- The default record of a build with the filter after `snprintf` put the password
"MyHomeNetworkPassphrase-Secret2024" into `wifi_pass` (the steps of test 6). -/
def record_passphrase : settings_t :=
  settings_t.of_fields 0xCAFE0000 0x0100 374 ascii_VFDClock ascii_passphrase 50 4 22 6 0 5
    ascii_pool_ntp_org [] [] [] 60 0x4157F8E9

/-- The C string held by a character array: the bytes before the first NUL. -/
def c_str (s : List Nat) : List Nat := s.take (strlen s)

/-- The 32 key bytes of the filter: `(SETTINGS_MAGIC >> j) & 0xFF` for `j = 0 .. 31`. -/
def xor_key_table : List Nat :=
  (List.range 32).map (fun j => (SETTINGS_MAGIC >>> j) &&& 0xFF)

/-! ## The parts of `settings_init_default`

The two definitions below name the parts of `settings_init_default`; the lemma
`settings_init_default_eq` shows that the function is their composition. -/

/-- The record after the assignments of `settings_init_default` that precede the flag and
the checksum (settings.c lines 54-65), for given contents of the three `snprintf` calls. -/
def init_chain (ssid pass ntp : List Nat) : settings_t :=
  let cfg : settings_t := ⟨List.replicate sizeof_settings_t 0⟩
  let cfg := cfg.set_magic SETTINGS_MAGIC
  let cfg := cfg.set_version SETTINGS_VERSION
  let cfg := cfg.set_size sizeof_settings_t
  let cfg := cfg.set_wifi_ssid ssid
  let cfg := cfg.set_wifi_pass pass
  let cfg := cfg.set_brightness 50
  let cfg := cfg.set_night_off_hour 22
  let cfg := cfg.set_night_on_hour 6
  let cfg := cfg.set_anim_lags_period_s 5
  let cfg := cfg.set_ntp_server 0 ntp
  cfg.set_ntp_sync_period_minutes 60

/-- The flag step of `settings_init_default` (settings.c lines 66-76). -/
def init_flag (B : Build) (cfg : settings_t) : settings_t :=
  if B.ENCRYPT_WIFI_PASS then
    if cfg.flags &&& FLAG_SETTINGS_ENCRYPTED = 0 then
      cfg.set_flags (cfg.flags ||| FLAG_SETTINGS_ENCRYPTED)
    else cfg
  else
    if cfg.flags &&& FLAG_SETTINGS_ENCRYPTED ≠ 0 then
      cfg.set_flags (cfg.flags &&& (0xFF - FLAG_SETTINGS_ENCRYPTED))
    else cfg

/-! ## A build with a longer default password -/

/-- The characters of "SecretPass123", the password of test 6. -/
def ascii_SecretPass123 : List Nat := [83, 101, 99, 114, 101, 116, 80, 97, 115, 115, 49, 50, 51]

/-- A build with the filter enabled whose default password is "SecretPass123". -/
def secret_build : Build :=
  ⟨true, 4096, 2097152, ascii_VFDClock, ascii_SecretPass123, ascii_pool_ntp_org⟩

/-- The record `settings_init_default` leaves in `secret_build`, member by member. -/
def default_record_secret : settings_t :=
  settings_t.of_fields 0xCAFE0000 0x0100 374 ascii_VFDClock ascii_SecretPass123 50 4 22 6 0 5
    ascii_pool_ntp_org [] [] [] 60 0xD1710AB0

/-! ## The device of section 4.1 and a record out of range -/

/-- Modelled from the spec: a flash device as section 4.1 describes it, given by what its
two primitives do to each byte: erase sets every byte of the range to 0xFF, program
replaces every byte of the range by the old byte AND the data byte, and neither touches a
byte outside the range. -/
def NorDevice (dev : FlashDevice) : Prop :=
  (∀ (offset count : Nat) (flash : Flash) (a : Nat),
      dev.flash_range_erase offset count flash a
        = if offset ≤ a ∧ a < offset + count then 0xFF else flash a)
    ∧ (∀ (offset : Nat) (data : List Nat) (count : Nat) (flash : Flash) (a : Nat),
      dev.flash_range_program offset data count flash a
        = if offset ≤ a ∧ a < offset + count then flash a &&& data.getD (a - offset) 0xFF
          else flash a)

/-- The default record of a build without the filter with the brightness 255, which
`settings_save` rejects; `crc32` is left zero. -/
def record_brightness_255 : settings_t :=
  settings_t.of_fields 0xCAFE0000 0x0100 374 ascii_VFDClock ascii_password 255 0 22 6 0 5
    ascii_pool_ntp_org [] [] [] 60 0

/-! ## `settings_save` is the composition of its parts -/

theorem bool_pair_eta (w : Bool × Flash) :
    (if w.1 = false then (false, w.2) else (true, w.2)) = w := by
  obtain ⟨b, f⟩ := w
  cases b <;> rfl

theorem settings_save_eq (B : Build) (dev : FlashDevice) (cfg : settings_t) (flash_offset : Nat)
    (flash : Flash) :
    settings_save B dev cfg flash_offset flash
      = if settings_save_checks cfg = true then
          write_flash_sector B dev flash_offset (settings_save_buffer B cfg)
            B.FLASH_SECTOR_SIZE flash
        else (false, flash) := by
  unfold settings_save settings_save_checks
  split_ifs
  all_goals first
    | rfl
    | exact bool_pair_eta _
    | contradiction

/-! ## Lemmas on buffers -/

theorem getD_map_range (n : Nat) (f : Nat → Nat) (i d : Nat) :
    ((List.range n).map f).getD i d = if i < n then f i else d := by
  by_cases h : i < n
  · simp [List.getD_eq_getElem?_getD, List.getElem?_map, List.getElem?_range, h]
  · have hn : (List.range n)[i]? = none := List.getElem?_eq_none (by simpa using Nat.le_of_not_lt h)
    simp [List.getD_eq_getElem?_getD, List.getElem?_map, h, hn]

theorem length_mem_write (buf : List Nat) (off : Nat) (src : List Nat) :
    (mem_write buf off src).length = buf.length := by
  simp [mem_write]

theorem getD_mem_write (buf : List Nat) (off : Nat) (src : List Nat) (i : Nat) :
    (mem_write buf off src).getD i 0 =
      if off ≤ i ∧ i < off + src.length ∧ i < buf.length then src.getD (i - off) 0
      else buf.getD i 0 := by
  unfold mem_write
  rw [getD_map_range]
  by_cases h : i < buf.length
  · simp [h]
  · have hn : buf[i]? = none := List.getElem?_eq_none (Nat.le_of_not_lt h)
    simp [h, List.getD_eq_getElem?_getD, hn]

theorem length_mem_slice (buf : List Nat) (off n : Nat) : (mem_slice buf off n).length = n := by
  simp [mem_slice]

theorem length_mem_read (buf : List Nat) (n : Nat) : (mem_read buf n).length = n := by
  simp [mem_read]

theorem length_flash_read (flash : Flash) (off n : Nat) : (flash_read flash off n).length = n := by
  simp [flash_read]

theorem getD_mem_slice (buf : List Nat) (off n i : Nat) :
    (mem_slice buf off n).getD i 0 = if i < n then buf.getD (off + i) 0 else 0 := by
  unfold mem_slice; rw [getD_map_range]

theorem getD_flash_read (flash : Flash) (off n i : Nat) :
    (flash_read flash off n).getD i 0 = if i < n then flash (off + i) else 0 := by
  unfold flash_read; rw [getD_map_range]

theorem mem_read_self (l : List Nat) : mem_read l l.length = l := by
  apply List.ext_getElem
  · simp [mem_read]
  · intro i h1 h2
    simp [mem_read, List.getD_eq_getElem?_getD, List.getElem?_eq_getElem h2]

/-! ## Lemmas on the checksum -/

theorem crc32_bit_eq (c : Nat) :
    crc32_bit c = if c % 2 = 1 then (c / 2) ^^^ 0xEDB88320 else c / 2 := by
  unfold crc32_bit
  rw [Nat.and_one_is_mod, Nat.shiftRight_one]
  rcases Nat.mod_two_eq_zero_or_one c with h | h
  · simp [h]
  · have hm : (3988292384 : Nat) &&& 4294967295 = 3988292384 := by decide
    simp [h, hm]

theorem crc32_bit_lt (c : Nat) (h : c < 2 ^ 32) : crc32_bit c < 2 ^ 32 := by
  rw [crc32_bit_eq]
  have h2 : c / 2 < 2 ^ 32 := by omega
  split
  · exact Nat.xor_lt_two_pow h2 (by norm_num)
  · exact h2

theorem xor_poly_ge (x : Nat) (h : x < 2 ^ 31) : 2 ^ 31 ≤ x ^^^ 0xEDB88320 := by
  have hb : (x ^^^ 0xEDB88320).testBit 31 = true := by
    rw [Nat.testBit_xor, Nat.testBit_lt_two_pow h]
    decide
  exact Nat.testBit_implies_ge hb

theorem crc32_bit_inj (c d : Nat) (hc : c < 2 ^ 32) (hd : d < 2 ^ 32)
    (h : crc32_bit c = crc32_bit d) : c = d := by
  rw [crc32_bit_eq, crc32_bit_eq] at h
  have hc2 : c / 2 < 2 ^ 31 := by omega
  have hd2 : d / 2 < 2 ^ 31 := by omega
  by_cases h1 : c % 2 = 1 <;> by_cases h2 : d % 2 = 1
  · simp only [h1, h2, if_true] at h
    have := Nat.xor_left_injective h
    omega
  · simp only [h1, h2, if_true, if_false] at h
    have := xor_poly_ge (c / 2) hc2
    omega
  · simp only [h1, h2, if_true, if_false] at h
    have := xor_poly_ge (d / 2) hd2
    omega
  · simp only [h1, h2, if_false] at h
    omega


theorem crc32_bits_lt (l : List Nat) (c : Nat) (h : c < 2 ^ 32) :
    l.foldl (fun crc _ => crc32_bit crc) c < 2 ^ 32 := by
  induction l generalizing c with
  | nil => simpa using h
  | cons x xs ih => exact ih _ (crc32_bit_lt c h)

theorem crc32_bits_inj (l : List Nat) (c d : Nat) (hc : c < 2 ^ 32) (hd : d < 2 ^ 32)
    (h : l.foldl (fun crc _ => crc32_bit crc) c = l.foldl (fun crc _ => crc32_bit crc) d) :
    c = d := by
  induction l generalizing c d with
  | nil => simpa using h
  | cons x xs ih =>
    exact crc32_bit_inj c d hc hd (ih _ _ (crc32_bit_lt c hc) (crc32_bit_lt d hd) h)

theorem xor_byte_lt (c b : Nat) (hc : c < 2 ^ 32) (hb : b < 256) : c ^^^ b < 2 ^ 32 :=
  Nat.xor_lt_two_pow hc (by omega)

theorem crc32_byte_lt (c b : Nat) (hc : c < 2 ^ 32) (hb : b < 256) :
    crc32_byte c b < 2 ^ 32 :=
  crc32_bits_lt _ _ (xor_byte_lt c b hc hb)

theorem crc32_byte_inj_state (c d b : Nat) (hc : c < 2 ^ 32) (hd : d < 2 ^ 32) (hb : b < 256)
    (h : crc32_byte c b = crc32_byte d b) : c = d :=
  Nat.xor_left_injective
    (crc32_bits_inj _ _ _ (xor_byte_lt c b hc hb) (xor_byte_lt d b hd hb) h)

theorem crc32_byte_inj_byte (c a b : Nat) (hc : c < 2 ^ 32) (ha : a < 256) (hb : b < 256)
    (h : crc32_byte c a = crc32_byte c b) : a = b :=
  Nat.xor_right_injective
    (crc32_bits_inj _ _ _ (xor_byte_lt c a hc ha) (xor_byte_lt c b hc hb) h)

theorem crc32_fold_lt (l : List Nat) (c : Nat) (hc : c < 2 ^ 32) (hl : ∀ b ∈ l, b < 256) :
    l.foldl crc32_byte c < 2 ^ 32 := by
  induction l generalizing c with
  | nil => simpa using hc
  | cons x xs ih =>
    exact ih _ (crc32_byte_lt c x hc (hl x (List.mem_cons_self x xs)))
      (fun b hb => hl b (List.mem_cons_of_mem x hb))

theorem crc32_fold_inj (l : List Nat) (c d : Nat) (hc : c < 2 ^ 32) (hd : d < 2 ^ 32)
    (hl : ∀ b ∈ l, b < 256) (h : l.foldl crc32_byte c = l.foldl crc32_byte d) : c = d := by
  induction l generalizing c d with
  | nil => simpa using h
  | cons x xs ih =>
    have hx : x < 256 := hl x (List.mem_cons_self x xs)
    exact crc32_byte_inj_state c d x hc hd hx
      (ih _ _ (crc32_byte_lt c x hc hx) (crc32_byte_lt d x hd hx)
        (fun b hb => hl b (List.mem_cons_of_mem x hb)) h)

/-- A change of one byte of the message changes the register at the end of the message. -/
theorem crc32_fold_sensitive (pre post : List Nat) (a b c : Nat) (hc : c < 2 ^ 32)
    (hpre : ∀ x ∈ pre, x < 256) (hpost : ∀ x ∈ post, x < 256) (ha : a < 256) (hb : b < 256)
    (hab : a ≠ b) :
    (pre ++ a :: post).foldl crc32_byte c ≠ (pre ++ b :: post).foldl crc32_byte c := by
  intro h
  rw [List.foldl_append, List.foldl_append, List.foldl_cons, List.foldl_cons] at h
  have hs : pre.foldl crc32_byte c < 2 ^ 32 := crc32_fold_lt pre c hc hpre
  have h1 := crc32_fold_inj post _ _ (crc32_byte_lt _ a hs ha) (crc32_byte_lt _ b hs hb) hpost h
  exact hab (crc32_byte_inj_byte _ a b hs ha hb h1)

theorem calculate_crc32_eq (data : List Nat) (len : Nat) (h : len ≠ 0) :
    calculate_crc32 (some data) len
      = (mem_read data len).foldl crc32_byte 0xFFFFFFFF ^^^ 0xFFFFFFFF := by
  simp only [calculate_crc32, h, if_false, mem_read, List.foldl_map]

theorem calculate_crc32_lt (data : List Nat) (len : Nat) (hd : ∀ b ∈ data, b < 256) :
    calculate_crc32 (some data) len < 2 ^ 32 := by
  by_cases h : len = 0
  · simp [calculate_crc32, h, CRC32_ERROR]
  · rw [calculate_crc32_eq data len h]
    refine Nat.xor_lt_two_pow (crc32_fold_lt _ _ (by norm_num) ?_) (by norm_num)
    intro b hb
    simp only [mem_read, List.mem_map, List.mem_range] at hb
    obtain ⟨i, _, rfl⟩ := hb
    rw [List.getD_eq_getElem?_getD]
    cases hi : data[i]? with
    | none => simp
    | some v => simpa using hd v (List.getElem?_mem hi)

theorem crc32_bit_xor (s r : Nat) :
    crc32_bit (s ^^^ r) = crc32_reference_bit s (r % 2) ^^^ (r / 2) := by
  rw [crc32_bit_eq, crc32_reference_bit, Nat.xor_div_two]
  have hc : ((s ^^^ r) % 2 = 1) ↔ ((s ^^^ r % 2) % 2 = 1) := by
    rw [Nat.xor_mod_two_eq, Nat.xor_mod_two_eq]; omega
  by_cases h : (s ^^^ r) % 2 = 1
  · rw [if_pos h, if_pos (hc.mp h), Nat.xor_assoc, Nat.xor_comm (r / 2), ← Nat.xor_assoc]
  · rw [if_neg h, if_neg (fun h' => h (hc.mpr h'))]

theorem crc32_bits_xor (n s r : Nat) :
    (List.range n).foldl (fun crc _ => crc32_bit crc) (s ^^^ r)
      = (List.range n).foldl (fun crc k => crc32_reference_bit crc (r / 2 ^ k % 2)) s
          ^^^ (r / 2 ^ n) := by
  induction n with
  | zero => simp
  | succ n ih =>
    rw [List.range_succ, List.foldl_append, List.foldl_append, ih]
    simp only [List.foldl_cons, List.foldl_nil]
    rw [crc32_bit_xor, Nat.div_div_eq_div_mul, ← Nat.pow_succ]

theorem crc32_byte_eq_reference (c b : Nat) (hb : b < 256) :
    crc32_byte c b = crc32_reference_byte c b := by
  unfold crc32_byte crc32_reference_byte
  rw [crc32_bits_xor]
  have e8 : b / 2 ^ 8 = 0 := by norm_num; omega
  rw [e8, Nat.xor_zero]

theorem crc32_fold_eq_reference (l : List Nat) (c : Nat) (hl : ∀ b ∈ l, b < 256) :
    l.foldl crc32_byte c = l.foldl crc32_reference_byte c := by
  induction l generalizing c with
  | nil => rfl
  | cons x xs ih =>
    rw [List.foldl_cons, List.foldl_cons, crc32_byte_eq_reference c x (hl x (List.mem_cons_self x xs))]
    exact ih _ (fun b hb => hl b (List.mem_cons_of_mem x hb))

/-! ## Lemmas on the flash and on `settings_load` -/

theorem flash_read_blank (flash : Flash) (off n : Nat) (h : ∀ i, i < n → flash (off + i) = 0xFF) :
    flash_read flash off n = List.replicate n 0xFF := by
  apply List.ext_getElem
  · simp [flash_read]
  · intro i h1 h2
    have hi : i < n := by simpa [flash_read] using h1
    simp [flash_read, h i hi]

theorem flash_read_blank_iff (flash : Flash) (off n : Nat) :
    flash_read flash off n = List.replicate n 0xFF ↔ ∀ i, i < n → flash (off + i) = 0xFF := by
  constructor
  · intro h i hi
    have h1 := getD_flash_read flash off n i
    rw [h, if_pos hi] at h1
    rw [← h1]
    simp [List.getD_eq_getElem?_getD, List.getElem?_replicate, hi]
  · exact flash_read_blank flash off n

theorem settings_load_fst_iff (B : Build) (cfg : settings_t) (flash_offset : Nat) (flash : Flash) :
    (settings_load B cfg flash_offset flash).1 = true ↔
      (flash_offset % B.FLASH_SECTOR_SIZE = 0 ∧ flash_offset < B.PICO_FLASH_SIZE_BYTES
        ∧ flash_read flash flash_offset sizeof_settings_t ≠ List.replicate sizeof_settings_t 0xFF
        ∧ rd32 (flash_read flash flash_offset sizeof_settings_t) 0 = SETTINGS_MAGIC
        ∧ rd16 (flash_read flash flash_offset sizeof_settings_t) 4 = SETTINGS_VERSION
        ∧ rd16 (flash_read flash flash_offset sizeof_settings_t) 6 = sizeof_settings_t
        ∧ calculate_crc32 (some (flash_read flash flash_offset sizeof_settings_t))
            (sizeof_settings_t - 4)
          = rd32 (flash_read flash flash_offset sizeof_settings_t) 370) := by
  unfold settings_load
  simp only [settings_t.magic, settings_t.version, settings_t.size, settings_t.crc32,
    settings_t.off_magic, settings_t.off_version, settings_t.off_size, settings_t.off_crc32,
    settings_t.off_ntp_sync_period_minutes, settings_t.off_ntp_servers,
    settings_t.off_anim_lags_period_s, settings_t.off_anim_flags, settings_t.off_night_on_hour,
    settings_t.off_night_off_hour, settings_t.off_flags, settings_t.off_brightness,
    settings_t.off_wifi_pass, settings_t.off_wifi_ssid, NTP_MAX_SERVERS, NTP_SERVER_MAX_LEN,
    WIFI_PASS_MAX_LEN, WIFI_SSID_MAX_LEN]
  split_ifs with h1 h2 h3 h4 h5 h6
  all_goals simp_all
  all_goals omega

theorem flash_read_congr (F G : Flash) (off n : Nat) (h : ∀ i, i < n → F (off + i) = G (off + i)) :
    flash_read F off n = flash_read G off n := by
  unfold flash_read
  apply List.map_congr_left
  intro i hi
  exact h i (List.mem_range.mp hi)

theorem mem_read_flash_read (F : Flash) (off n m : Nat) (h : m ≤ n) :
    mem_read (flash_read F off n) m = flash_read F off m := by
  unfold mem_read
  conv_rhs => unfold flash_read
  apply List.map_congr_left
  intro i hi
  have hi' : i < m := List.mem_range.mp hi
  rw [getD_flash_read, if_pos (by omega)]

theorem flash_read_split (F : Flash) (off n m : Nat) :
    flash_read F off (n + (1 + m))
      = flash_read F off n ++ F (off + n) :: flash_read F (off + n + 1) m := by
  unfold flash_read
  rw [List.range_add, List.map_append, List.map_map, List.range_add, List.map_append,
    List.map_map]
  have h1 : List.range 1 = [0] := rfl
  simp [Function.comp_def, Nat.add_assoc, h1]

theorem mem_flash_read_lt (F : Flash) (off n : Nat) (h : ∀ i, i < n → F (off + i) < 256) :
    ∀ b ∈ flash_read F off n, b < 256 := by
  intro b hb
  simp only [flash_read, List.mem_map, List.mem_range] at hb
  obtain ⟨i, hi, rfl⟩ := hb
  exact h i hi

theorem rd32_flash_read (F : Flash) (off n k : Nat) (h : k + 4 ≤ n) :
    rd32 (flash_read F off n) k
      = F (off + k) + 256 * F (off + (k + 1)) + 65536 * F (off + (k + 2))
          + 16777216 * F (off + (k + 3)) := by
  unfold rd32
  rw [getD_flash_read, getD_flash_read, getD_flash_read, getD_flash_read,
    if_pos (by omega), if_pos (by omega), if_pos (by omega), if_pos (by omega)]

theorem rd16_flash_read (F : Flash) (off n k : Nat) (h : k + 2 ≤ n) :
    rd16 (flash_read F off n) k = F (off + k) + 256 * F (off + (k + 1)) := by
  unfold rd16
  rw [getD_flash_read, getD_flash_read, if_pos (by omega), if_pos (by omega)]

theorem calculate_crc32_congr (l l' : List Nat) (n : Nat) (h : mem_read l n = mem_read l' n) :
    calculate_crc32 (some l) n = calculate_crc32 (some l') n := by
  by_cases hn : n = 0
  · simp [calculate_crc32, hn]
  · rw [calculate_crc32_eq l n hn, calculate_crc32_eq l' n hn, h]

theorem xor_mask_ne (a mask : Nat) (h : 0 < mask) : a ≠ a ^^^ mask := by
  intro h'
  have h2 : a ^^^ 0 = a ^^^ mask := by rw [Nat.xor_zero]; exact h'
  have := Nat.xor_right_injective h2
  omega

theorem mem_read_eq_take (l : List Nat) (n : Nat) (h : n ≤ l.length) : mem_read l n = l.take n := by
  apply List.ext_getElem
  · simp [mem_read, h]
  · intro i h1 h2
    have hi : i < n := by simpa [mem_read] using h1
    have hl : i < l.length := by omega
    simp [mem_read, List.getD_eq_getElem?_getD, List.getElem?_eq_getElem hl]

theorem calculate_crc32_eq_take (l : List Nat) (n : Nat) (hn : n ≠ 0) (h : n ≤ l.length) :
    calculate_crc32 (some l) n = (l.take n).foldl crc32_byte 0xFFFFFFFF ^^^ 0xFFFFFFFF := by
  rw [calculate_crc32_eq l n hn, mem_read_eq_take l n h]

theorem flash_read_flash_put (F : Flash) (a : Nat) (src : List Nat) :
    flash_read (flash_put F a src) a src.length = src := by
  apply List.ext_getElem
  · simp [flash_read]
  · intro i h1 h2
    simp [flash_read, flash_put, h2, List.getD_eq_getElem?_getD, List.getElem?_eq_getElem h2]


theorem getD_lt_256 (l : List Nat) (i : Nat) (h : ∀ b ∈ l, b < 256) : l.getD i 0 < 256 := by
  rw [List.getD_eq_getElem?_getD]
  cases hi : l[i]? with
  | none => simp
  | some v => simpa using h v (List.getElem?_mem hi)

/-! ## Lemmas on strings and on the checks of `settings_save` -/

theorem strlen_le_length (l : List Nat) : strlen l ≤ l.length := by
  induction l with
  | nil => simp [strlen]
  | cons c cs ih =>
    simp only [strlen, List.length_cons]
    split <;> omega

theorem strlen_take (l : List Nat) (n : Nat) : strlen (l.take n) = min (strlen l) n := by
  induction l generalizing n with
  | nil => simp [strlen]
  | cons c cs ih =>
    cases n with
    | zero => simp [strlen]
    | succ n =>
      simp only [List.take_succ_cons, strlen]
      split
      · simp
      · rw [ih]; omega

theorem mem_slice_eq_take_drop (l : List Nat) (off n : Nat) (h : off + n ≤ l.length) :
    mem_slice l off n = (l.drop off).take n := by
  apply List.ext_getElem
  · simp [mem_slice]; omega
  · intro i h1 h2
    have hi : i < n := by simpa [mem_slice] using h1
    have hl : off + i < l.length := by omega
    simp [mem_slice, List.getD_eq_getElem?_getD, List.getElem?_eq_getElem hl]

theorem strlen_ptr_lt_iff (l : List Nat) (off n : Nat) (h : off + n ≤ l.length) :
    strlen (l.drop off) < n ↔ strlen (mem_slice l off n) < n := by
  rw [mem_slice_eq_take_drop l off n h, strlen_take]
  omega

theorem strlen_append_nul (s t : List Nat) (h : ∀ c ∈ s, c ≠ 0) :
    strlen (s ++ 0 :: t) = s.length := by
  induction s with
  | nil => simp [strlen]
  | cons c cs ih =>
    have hc : c ≠ 0 := h c (List.mem_cons_self c cs)
    have ih' := ih (fun x hx => h x (List.mem_cons_of_mem c hx))
    rw [List.cons_append]
    simp only [strlen, hc, if_false, List.length_cons, ih']

theorem strlen_no_nul (s : List Nat) (h : ∀ c ∈ s, c ≠ 0) : strlen s = s.length := by
  induction s with
  | nil => simp [strlen]
  | cons c cs ih =>
    have hc : c ≠ 0 := h c (List.mem_cons_self c cs)
    simp only [strlen, hc, if_false, List.length_cons]
    rw [ih (fun x hx => h x (List.mem_cons_of_mem c hx))]

/-- The checks of `settings_save` in terms of the members of the record. -/
theorem settings_save_checks_iff (cfg : settings_t) (hlen : cfg.bytes.length = sizeof_settings_t) :
    settings_save_checks cfg = true ↔
      (cfg.magic = SETTINGS_MAGIC ∧ cfg.version = SETTINGS_VERSION ∧ cfg.size = sizeof_settings_t
        ∧ cfg.brightness ≤ BRIGHTNESS_MAX ∧ cfg.night_off_hour ≤ HOUR_MAX
        ∧ cfg.night_on_hour ≤ HOUR_MAX
        ∧ strlen cfg.wifi_ssid < WIFI_SSID_MAX_LEN ∧ strlen cfg.wifi_pass < WIFI_PASS_MAX_LEN
        ∧ ∀ i, i < NTP_MAX_SERVERS → strlen (cfg.ntp_servers i) < NTP_SERVER_MAX_LEN) := by
  have hlen' : cfg.bytes.length = 374 := hlen
  have hs : strlen cfg.wifi_ssid_ptr < WIFI_SSID_MAX_LEN ↔ strlen cfg.wifi_ssid < WIFI_SSID_MAX_LEN :=
    strlen_ptr_lt_iff _ _ _ (by rw [hlen']; decide)
  have hp : strlen cfg.wifi_pass_ptr < WIFI_PASS_MAX_LEN ↔ strlen cfg.wifi_pass < WIFI_PASS_MAX_LEN :=
    strlen_ptr_lt_iff _ _ _ (by rw [hlen']; decide)
  have hn : ∀ i, i < NTP_MAX_SERVERS →
      (strlen (cfg.ntp_servers_ptr i) < NTP_SERVER_MAX_LEN
        ↔ strlen (cfg.ntp_servers i) < NTP_SERVER_MAX_LEN) := by
    intro i hi
    apply strlen_ptr_lt_iff
    rw [hlen']
    simp only [NTP_MAX_SERVERS] at hi
    simp only [settings_t.off_ntp_servers, settings_t.off_anim_lags_period_s,
      settings_t.off_anim_flags, settings_t.off_night_on_hour, settings_t.off_night_off_hour,
      settings_t.off_flags, settings_t.off_brightness, settings_t.off_wifi_pass,
      settings_t.off_wifi_ssid, settings_t.off_size, settings_t.off_version,
      settings_t.off_magic, NTP_SERVER_MAX_LEN, WIFI_PASS_MAX_LEN, WIFI_SSID_MAX_LEN]
    omega
  unfold settings_save_checks
  rw [← hs, ← hp]
  have hany : ((List.range NTP_MAX_SERVERS).any
      (fun i => decide (strlen (cfg.ntp_servers_ptr i) ≥ NTP_SERVER_MAX_LEN))) = true
      ↔ ¬ ∀ i, i < NTP_MAX_SERVERS → strlen (cfg.ntp_servers i) < NTP_SERVER_MAX_LEN := by
    simp only [List.any_eq_true, List.mem_range, decide_eq_true_eq, not_forall]
    constructor
    · rintro ⟨i, hi, h⟩
      exact ⟨i, hi, fun h' => by have := (hn i hi).mpr h'; omega⟩
    · rintro ⟨i, hi, h⟩
      exact ⟨i, hi, by have := (hn i hi).not.mpr h; omega⟩
  split_ifs with h1 h2 h3 h4 h5 h6 h7
  all_goals simp only [Bool.false_eq_true, false_iff, true_iff, not_and, not_or, not_not] at *
  · intro hm hv; omega
  · intro _ _ hz; omega
  · intro _ _ _ hb; omega
  · intro _ _ _ _ ho hn'; omega
  · intro _ _ _ _ _ _ hss; omega
  · intro _ _ _ _ _ _ _ hpp; omega
  · intro _ _ _ _ _ _ _ _; exact hany.mp h7
  · refine ⟨h1.1, h1.2, h2, by omega, by omega, by omega, by omega, by omega, ?_⟩
    by_contra hc
    exact h7 (hany.mpr hc)

/-! ## Frame lemmas for `mem_write` -/

theorem getD_mem_write_of_lt (buf : List Nat) (off : Nat) (src : List Nat) (i : Nat) (h : i < off) :
    (mem_write buf off src).getD i 0 = buf.getD i 0 := by
  rw [getD_mem_write, if_neg (by omega)]

theorem getD_mem_write_of_ge (buf : List Nat) (off : Nat) (src : List Nat) (i : Nat)
    (h : off + src.length ≤ i) : (mem_write buf off src).getD i 0 = buf.getD i 0 := by
  rw [getD_mem_write, if_neg (by omega)]

theorem getD_mem_write_of_mem (buf : List Nat) (off : Nat) (src : List Nat) (i : Nat)
    (h1 : off ≤ i) (h2 : i < off + src.length) (h3 : i < buf.length) :
    (mem_write buf off src).getD i 0 = src.getD (i - off) 0 := by
  rw [getD_mem_write, if_pos ⟨h1, h2, h3⟩]

theorem getD_mem_write_disjoint (buf : List Nat) (off : Nat) (src : List Nat) (i : Nat)
    (h : i < off ∨ off + src.length ≤ i) : (mem_write buf off src).getD i 0 = buf.getD i 0 := by
  rcases h with h | h
  · exact getD_mem_write_of_lt buf off src i h
  · exact getD_mem_write_of_ge buf off src i h

theorem mem_slice_mem_write_disjoint (buf : List Nat) (off : Nat) (src : List Nat) (o n : Nat)
    (h : o + n ≤ off ∨ off + src.length ≤ o) :
    mem_slice (mem_write buf off src) o n = mem_slice buf o n := by
  unfold mem_slice
  apply List.map_congr_left
  intro i hi
  have hi' : i < n := List.mem_range.mp hi
  exact getD_mem_write_disjoint buf off src (o + i) (by omega)

theorem mem_slice_mem_write_self (buf : List Nat) (off : Nat) (src : List Nat)
    (h : off + src.length ≤ buf.length) :
    mem_slice (mem_write buf off src) off src.length = src := by
  apply List.ext_getElem
  · simp [mem_slice]
  · intro i h1 h2
    have e : (mem_slice (mem_write buf off src) off src.length)[i]
        = (mem_slice (mem_write buf off src) off src.length).getD i 0 := by
      rw [List.getD_eq_getElem?_getD, List.getElem?_eq_getElem h1]; rfl
    rw [e, getD_mem_slice, if_pos h2, getD_mem_write_of_mem _ _ _ _ (by omega) (by omega) (by omega)]
    rw [List.getD_eq_getElem?_getD, Nat.add_sub_cancel_left, List.getElem?_eq_getElem h2]; rfl

theorem mem_read_mem_write_of_le (buf : List Nat) (off : Nat) (src : List Nat) (n : Nat)
    (h : n ≤ off) : mem_read (mem_write buf off src) n = mem_read buf n := by
  unfold mem_read
  apply List.map_congr_left
  intro i hi
  have hi' : i < n := List.mem_range.mp hi
  exact getD_mem_write_of_lt buf off src i (by omega)

theorem rd16_mem_write_disjoint (buf : List Nat) (off : Nat) (src : List Nat) (o : Nat)
    (h : o + 2 ≤ off ∨ off + src.length ≤ o) :
    rd16 (mem_write buf off src) o = rd16 buf o := by
  unfold rd16
  rw [getD_mem_write_disjoint _ _ _ o (by omega), getD_mem_write_disjoint _ _ _ (o + 1) (by omega)]

theorem rd32_mem_write_disjoint (buf : List Nat) (off : Nat) (src : List Nat) (o : Nat)
    (h : o + 4 ≤ off ∨ off + src.length ≤ o) :
    rd32 (mem_write buf off src) o = rd32 buf o := by
  unfold rd32
  rw [getD_mem_write_disjoint _ _ _ o (by omega), getD_mem_write_disjoint _ _ _ (o + 1) (by omega),
    getD_mem_write_disjoint _ _ _ (o + 2) (by omega),
    getD_mem_write_disjoint _ _ _ (o + 3) (by omega)]

theorem rd32_mem_write_le32 (buf : List Nat) (off v : Nat) (h : off + 4 ≤ buf.length)
    (hv : v < 2 ^ 32) : rd32 (mem_write buf off (le32 v)) off = v := by
  have hl : (le32 v).length = 4 := rfl
  unfold rd32
  rw [getD_mem_write_of_mem _ _ _ off (by omega) (by omega) (by omega),
    getD_mem_write_of_mem _ _ _ (off + 1) (by omega) (by omega) (by omega),
    getD_mem_write_of_mem _ _ _ (off + 2) (by omega) (by omega) (by omega),
    getD_mem_write_of_mem _ _ _ (off + 3) (by omega) (by omega) (by omega)]
  have e0 : off - off = 0 := by omega
  have e1 : off + 1 - off = 1 := by omega
  have e2 : off + 2 - off = 2 := by omega
  have e3 : off + 3 - off = 3 := by omega
  rw [e0, e1, e2, e3]
  simp only [le32, List.getD_cons_zero, List.getD_cons_succ]
  omega

theorem mem_mem_write_lt (buf : List Nat) (off : Nat) (src : List Nat)
    (hb : ∀ b ∈ buf, b < 256) (hs : ∀ b ∈ src, b < 256) :
    ∀ b ∈ mem_write buf off src, b < 256 := by
  intro b hb'
  simp only [mem_write, List.mem_map, List.mem_range] at hb'
  obtain ⟨i, _, rfl⟩ := hb'
  split
  · exact getD_lt_256 src _ hs
  · exact getD_lt_256 buf _ hb

theorem mem_le32_lt (v : Nat) : ∀ b ∈ le32 v, b < 256 := by
  intro b hb
  simp only [le32, List.mem_cons, List.mem_singleton, List.not_mem_nil, or_false] at hb
  omega

/-! ## Lemmas on `xor_wifi_pass` -/

theorem getD_set (l : List Nat) (i j v : Nat) :
    (l.set i v).getD j 0 = if i = j ∧ i < l.length then v else l.getD j 0 := by
  rw [List.getD_eq_getElem?_getD, List.getD_eq_getElem?_getD, List.getElem?_set]
  by_cases h : i = j
  · subst h
    by_cases h2 : i < l.length
    · simp [h2]
    · have hn : l[i]? = none := List.getElem?_eq_none (Nat.le_of_not_lt h2)
      simp [h2, hn]
  · simp [h]

/-- The loop of `xor_wifi_pass`, index by index. -/
theorem xor_loop_length (g : Nat → Nat → Nat) (n : Nat) (p : List Nat) :
    ((List.range n).foldl (fun pass i => pass.set i (g (pass.getD i 0) i)) p).length
      = p.length := by
  induction n with
  | zero => simp
  | succ n ih =>
    rw [List.range_succ, List.foldl_append]
    simp only [List.foldl_cons, List.foldl_nil, List.length_set]
    exact ih

theorem xor_loop_getD (g : Nat → Nat → Nat) (n : Nat) (p : List Nat) (j : Nat) :
    ((List.range n).foldl (fun pass i => pass.set i (g (pass.getD i 0) i)) p).getD j 0
      = if j < n ∧ j < p.length then g (p.getD j 0) j else p.getD j 0 := by
  induction n generalizing j with
  | zero => simp
  | succ n ih =>
    rw [List.range_succ, List.foldl_append]
    simp only [List.foldl_cons, List.foldl_nil]
    rw [getD_set, xor_loop_length, ih, ih]
    by_cases h1 : n = j
    · subst h1
      by_cases h2 : n < p.length
      · simp [h2]
      · simp [h2]
    · by_cases h3 : j < n
      · have : j < n + 1 := by omega
        simp [h1, h3, this]
      · have : ¬ j < n + 1 := by omega
        simp [h1, h3, this]

theorem length_xor_wifi_pass (B : Build) (p : List Nat) (len : Nat) :
    (xor_wifi_pass B p len).length = p.length := by
  unfold xor_wifi_pass
  split
  · exact xor_loop_length (fun c i => (c ^^^ xor_key i) % 256) _ p
  · rfl

theorem getD_xor_wifi_pass (B : Build) (p : List Nat) (len : Nat) (j : Nat) :
    (xor_wifi_pass B p len).getD j 0
      = if B.ENCRYPT_WIFI_PASS = true ∧ j < strnlen p len ∧ j < WIFI_PASS_MAX_LEN then
          (p.getD j 0 ^^^ xor_key j) % 256
        else p.getD j 0 := by
  unfold xor_wifi_pass
  by_cases hB : B.ENCRYPT_WIFI_PASS = true
  · simp only [hB, if_true, true_and]
    rw [xor_loop_getD (fun c i => (c ^^^ xor_key i) % 256)]
    have hle : strnlen p len ≤ p.length := by
      unfold strnlen
      exact Nat.le_trans (strlen_le_length _) (by simp)
    by_cases h : j < strnlen p len ∧ j < WIFI_PASS_MAX_LEN
    · rw [if_pos ⟨by omega, by omega⟩, if_pos h]
    · rw [if_neg (by omega), if_neg h]
  · simp [hB]

theorem mem_xor_wifi_pass_lt (B : Build) (p : List Nat) (len : Nat) (hp : ∀ b ∈ p, b < 256) :
    ∀ b ∈ xor_wifi_pass B p len, b < 256 := by
  intro b hb
  obtain ⟨j, hj, rfl⟩ := List.getElem_of_mem hb
  have e : (xor_wifi_pass B p len)[j] = (xor_wifi_pass B p len).getD j 0 := by
    rw [List.getD_eq_getElem?_getD, List.getElem?_eq_getElem hj]; rfl
  rw [e, getD_xor_wifi_pass]
  split
  · exact Nat.mod_lt _ (by norm_num)
  · exact getD_lt_256 p j hp

/-! ## Members of a record after an assignment -/

theorem same_other_fields_refl (x : settings_t) : x.same_other_fields x :=
  ⟨rfl, rfl, rfl, rfl, rfl, rfl, rfl, rfl, rfl, rfl, fun _ _ => rfl, rfl⟩

theorem same_other_fields_trans (x y z : settings_t) (h1 : x.same_other_fields y)
    (h2 : y.same_other_fields z) : x.same_other_fields z := by
  obtain ⟨a1, a2, a3, a4, a5, a6, a7, a8, a9, a10, a11, a12⟩ := h1
  obtain ⟨b1, b2, b3, b4, b5, b6, b7, b8, b9, b10, b11, b12⟩ := h2
  exact ⟨a1.trans b1, a2.trans b2, a3.trans b3, a4.trans b4, a5.trans b5, a6.trans b6,
    a7.trans b7, a8.trans b8, a9.trans b9, a10.trans b10,
    fun i hi => (a11 i hi).trans (b11 i hi), a12.trans b12⟩

theorem same_other_fields_set_wifi_pass (x : settings_t) (p : List Nat)
    (hp : p.length = WIFI_PASS_MAX_LEN) : (x.set_wifi_pass p).same_other_fields x := by
  have hp' : p.length = 64 := hp
  refine ⟨?_, ?_, ?_, ?_, ?_, ?_, ?_, ?_, ?_, ?_, ?_, ?_⟩
  · exact rd32_mem_write_disjoint x.bytes 40 p 0 (Or.inl (by decide))
  · exact rd16_mem_write_disjoint x.bytes 40 p 4 (Or.inl (by decide))
  · exact rd16_mem_write_disjoint x.bytes 40 p 6 (Or.inl (by decide))
  · exact mem_slice_mem_write_disjoint x.bytes 40 p 8 32 (Or.inl (by decide))
  · exact getD_mem_write_disjoint x.bytes 40 p 104 (Or.inr (by omega))
  · exact getD_mem_write_disjoint x.bytes 40 p 105 (Or.inr (by omega))
  · exact getD_mem_write_disjoint x.bytes 40 p 106 (Or.inr (by omega))
  · exact getD_mem_write_disjoint x.bytes 40 p 107 (Or.inr (by omega))
  · exact rd16_mem_write_disjoint x.bytes 40 p 108 (Or.inr (by omega))
  · exact rd16_mem_write_disjoint x.bytes 40 p 110 (Or.inr (by omega))
  · intro i _
    exact mem_slice_mem_write_disjoint x.bytes 40 p (112 + i * 64) 64 (Or.inr (by omega))
  · exact rd16_mem_write_disjoint x.bytes 40 p 368 (Or.inr (by omega))

theorem crc32_set_wifi_pass (x : settings_t) (p : List Nat)
    (hp : p.length = WIFI_PASS_MAX_LEN) : (x.set_wifi_pass p).crc32 = x.crc32 := by
  have hp' : p.length = 64 := hp
  exact rd32_mem_write_disjoint x.bytes 40 p 370 (Or.inr (by omega))

theorem wifi_pass_set_wifi_pass (x : settings_t) (p : List Nat)
    (hx : x.bytes.length = sizeof_settings_t) (hp : p.length = WIFI_PASS_MAX_LEN) :
    (x.set_wifi_pass p).wifi_pass = p := by
  have hp' : p.length = 64 := hp
  have hx' : x.bytes.length = 374 := hx
  have h := mem_slice_mem_write_self x.bytes 40 p (by omega)
  rw [hp'] at h
  exact h

theorem same_other_fields_set_crc32 (x : settings_t) (v : Nat) :
    (x.set_crc32 v).same_other_fields x := by
  have hl : (le32 v).length = 4 := rfl
  refine ⟨?_, ?_, ?_, ?_, ?_, ?_, ?_, ?_, ?_, ?_, ?_, ?_⟩
  · exact rd32_mem_write_disjoint x.bytes 370 (le32 v) 0 (Or.inl (by decide))
  · exact rd16_mem_write_disjoint x.bytes 370 (le32 v) 4 (Or.inl (by decide))
  · exact rd16_mem_write_disjoint x.bytes 370 (le32 v) 6 (Or.inl (by decide))
  · exact mem_slice_mem_write_disjoint x.bytes 370 (le32 v) 8 32 (Or.inl (by decide))
  · exact getD_mem_write_disjoint x.bytes 370 (le32 v) 104 (Or.inl (by decide))
  · exact getD_mem_write_disjoint x.bytes 370 (le32 v) 105 (Or.inl (by decide))
  · exact getD_mem_write_disjoint x.bytes 370 (le32 v) 106 (Or.inl (by decide))
  · exact getD_mem_write_disjoint x.bytes 370 (le32 v) 107 (Or.inl (by decide))
  · exact rd16_mem_write_disjoint x.bytes 370 (le32 v) 108 (Or.inl (by decide))
  · exact rd16_mem_write_disjoint x.bytes 370 (le32 v) 110 (Or.inl (by decide))
  · intro i hi
    have hi' : i < 4 := hi
    exact mem_slice_mem_write_disjoint x.bytes 370 (le32 v) (112 + i * 64) 64 (Or.inl (by omega))
  · exact rd16_mem_write_disjoint x.bytes 370 (le32 v) 368 (Or.inl (by decide))

theorem wifi_pass_set_crc32 (x : settings_t) (v : Nat) :
    (x.set_crc32 v).wifi_pass = x.wifi_pass :=
  mem_slice_mem_write_disjoint x.bytes 370 (le32 v) 40 64 (Or.inl (by decide))

theorem crc32_set_crc32 (x : settings_t) (v : Nat) (hx : x.bytes.length = sizeof_settings_t)
    (hv : v < 2 ^ 32) : (x.set_crc32 v).crc32 = v := by
  have hx' : x.bytes.length = 374 := hx
  exact rd32_mem_write_le32 x.bytes 370 v (by omega) hv

theorem mem_read_set_crc32 (x : settings_t) (v : Nat) :
    mem_read (x.set_crc32 v).bytes 370 = mem_read x.bytes 370 :=
  mem_read_mem_write_of_le x.bytes 370 (le32 v) 370 (Nat.le_refl _)

/-! ## The record staged by `settings_save` -/

theorem length_wifi_pass (x : settings_t) : x.wifi_pass.length = WIFI_PASS_MAX_LEN := by
  simp [settings_t.wifi_pass, mem_slice]

theorem mem_mem_slice_lt (l : List Nat) (off n : Nat) (h : ∀ b ∈ l, b < 256) :
    ∀ b ∈ mem_slice l off n, b < 256 := by
  intro b hb
  simp only [mem_slice, List.mem_map, List.mem_range] at hb
  obtain ⟨i, _, rfl⟩ := hb
  exact getD_lt_256 l _ h

/-- The record after the optional filter of `settings_save` and of `settings_load`. -/
theorem filtered_props (B : Build) (x : settings_t) (hwf : x.WF) :
    (if x.flags &&& FLAG_SETTINGS_ENCRYPTED ≠ 0 then
        x.set_wifi_pass (xor_wifi_pass B x.wifi_pass WIFI_PASS_MAX_LEN) else x).WF
    ∧ (if x.flags &&& FLAG_SETTINGS_ENCRYPTED ≠ 0 then
        x.set_wifi_pass (xor_wifi_pass B x.wifi_pass WIFI_PASS_MAX_LEN) else x).same_other_fields x
    ∧ (if x.flags &&& FLAG_SETTINGS_ENCRYPTED ≠ 0 then
        x.set_wifi_pass (xor_wifi_pass B x.wifi_pass WIFI_PASS_MAX_LEN) else x).crc32 = x.crc32
    ∧ (if x.flags &&& FLAG_SETTINGS_ENCRYPTED ≠ 0 then
        x.set_wifi_pass (xor_wifi_pass B x.wifi_pass WIFI_PASS_MAX_LEN) else x).wifi_pass
      = (if x.flags &&& FLAG_SETTINGS_ENCRYPTED ≠ 0 then
          xor_wifi_pass B x.wifi_pass WIFI_PASS_MAX_LEN else x.wifi_pass) := by
  have hlen : (xor_wifi_pass B x.wifi_pass WIFI_PASS_MAX_LEN).length = WIFI_PASS_MAX_LEN := by
    rw [length_xor_wifi_pass, length_wifi_pass]
  split
  · refine ⟨⟨?_, ?_⟩, same_other_fields_set_wifi_pass x _ hlen, crc32_set_wifi_pass x _ hlen,
      wifi_pass_set_wifi_pass x _ hwf.1 hlen⟩
    · simp only [settings_t.set_wifi_pass, length_mem_write]; exact hwf.1
    · exact mem_mem_write_lt _ _ _ hwf.2
        (mem_xor_wifi_pass_lt B _ _ (mem_mem_slice_lt _ _ _ hwf.2))
  · exact ⟨hwf, same_other_fields_refl x, rfl, rfl⟩

theorem settings_save_temp_props (B : Build) (R : settings_t) (hwf : R.WF) :
    (settings_save_temp B R).WF
      ∧ (settings_save_temp B R).same_other_fields R
      ∧ (settings_save_temp B R).crc32
          = calculate_crc32 (some (settings_save_temp B R).bytes) (sizeof_settings_t - 4)
      ∧ (settings_save_temp B R).wifi_pass
          = (if R.flags &&& FLAG_SETTINGS_ENCRYPTED ≠ 0 then
              xor_wifi_pass B R.wifi_pass WIFI_PASS_MAX_LEN else R.wifi_pass) := by
  obtain ⟨hPwf, hPsame, _, hPpass⟩ := filtered_props B R hwf
  unfold settings_save_temp
  simp only []
  generalize (if R.flags &&& FLAG_SETTINGS_ENCRYPTED ≠ 0 then
      R.set_wifi_pass (xor_wifi_pass B R.wifi_pass WIFI_PASS_MAX_LEN) else R) = P at *
  have hv : calculate_crc32 (some P.bytes) (sizeof_settings_t - 4) < 2 ^ 32 :=
    calculate_crc32_lt _ _ hPwf.2
  refine ⟨⟨?_, ?_⟩, ?_, ?_, ?_⟩
  · simp only [settings_t.set_crc32, length_mem_write]; exact hPwf.1
  · exact mem_mem_write_lt _ _ _ hPwf.2 (mem_le32_lt _)
  · exact same_other_fields_trans _ _ _ (same_other_fields_set_crc32 P _) hPsame
  · rw [crc32_set_crc32 P _ hPwf.1 hv]
    exact (calculate_crc32_congr _ _ _ (mem_read_set_crc32 P _)).symm
  · rw [wifi_pass_set_crc32, hPpass]

theorem settings_save_buffer_props (B : Build) (R : settings_t) (hwf : R.WF)
    (hsec : sizeof_settings_t ≤ B.FLASH_SECTOR_SIZE) :
    (settings_save_buffer B R).length = B.FLASH_SECTOR_SIZE
      ∧ (∀ b ∈ settings_save_buffer B R, b < 256)
      ∧ mem_read (settings_save_buffer B R) sizeof_settings_t = (settings_save_temp B R).bytes := by
  obtain ⟨hT, _⟩ := settings_save_temp_props B R hwf
  unfold settings_save_buffer
  refine ⟨by simp [length_mem_write], ?_, ?_⟩
  · apply mem_mem_write_lt _ _ _ _ hT.2
    intro b hb
    rw [List.eq_of_mem_replicate hb]
    decide
  · have h := mem_slice_mem_write_self (List.replicate B.FLASH_SECTOR_SIZE 0xFF) 0
      (settings_save_temp B R).bytes (by rw [hT.1]; simpa using hsec)
    rw [hT.1] at h
    have e : ∀ l n, mem_read l n = mem_slice l 0 n := by
      intro l n
      simp [mem_read, mem_slice]
    rw [e]
    exact h

/-! ## Saving and loading through a device without faults -/

theorem nor_flash_fault_free (B : Build) : FaultFree B nor_flash := by
  intro offset data flash hlen hb i hi
  simp only [nor_flash]
  rw [if_pos ⟨by omega, by omega⟩, if_pos ⟨by omega, by omega⟩, Nat.add_sub_cancel_left]
  have hl : i < data.length := by omega
  have e : data.getD i 0xFF = data.getD i 0 := by
    simp [List.getD_eq_getElem?_getD, List.getElem?_eq_getElem hl]
  rw [e, Nat.and_comm]
  have hd : data.getD i 0 < 256 := getD_lt_256 data i hb
  have h255 : (255 : Nat) = 2 ^ 8 - 1 := by norm_num
  rw [h255, Nat.and_pow_two_sub_one_eq_mod]
  omega

theorem write_flash_sector_fault_free (B : Build) (dev : FlashDevice) (offset : Nat)
    (data : List Nat) (flash : Flash) (hdev : FaultFree B dev)
    (hal : offset % B.FLASH_SECTOR_SIZE = 0) (hin : offset < B.PICO_FLASH_SIZE_BYTES)
    (hlen : data.length = B.FLASH_SECTOR_SIZE) (hb : ∀ b ∈ data, b < 256) :
    (write_flash_sector B dev offset data B.FLASH_SECTOR_SIZE flash).1 = true
      ∧ flash_read (write_flash_sector B dev offset data B.FLASH_SECTOR_SIZE flash).2 offset
          B.FLASH_SECTOR_SIZE = data := by
  have hread : flash_read (dev.flash_range_program offset data B.FLASH_SECTOR_SIZE
      (dev.flash_range_erase offset B.FLASH_SECTOR_SIZE flash)) offset B.FLASH_SECTOR_SIZE
      = mem_read data B.FLASH_SECTOR_SIZE := by
    unfold flash_read mem_read
    apply List.map_congr_left
    intro i hi
    exact hdev offset data flash hlen hb i (List.mem_range.mp hi)
  unfold write_flash_sector
  rw [if_neg (by omega), if_neg (by omega)]
  simp only [hread, ne_eq, not_true_eq_false, if_false, true_and]
  rw [← hlen, mem_read_self]

theorem flash_read_head (F : Flash) (off n m : Nat) (l : List Nat) (h : m ≤ n)
    (hr : flash_read F off n = l) : flash_read F off m = mem_read l m := by
  rw [← hr, mem_read_flash_read F off n m h]

theorem settings_save_fault_free (B : Build) (dev : FlashDevice) (R : settings_t)
    (flash_offset : Nat) (flash : Flash) (hsec : sizeof_settings_t ≤ B.FLASH_SECTOR_SIZE)
    (hdev : FaultFree B dev) (hal : flash_offset % B.FLASH_SECTOR_SIZE = 0)
    (hin : flash_offset < B.PICO_FLASH_SIZE_BYTES) (hwf : R.WF)
    (hval : settings_save_checks R = true) :
    (settings_save B dev R flash_offset flash).1 = true
      ∧ flash_read (settings_save B dev R flash_offset flash).2 flash_offset sizeof_settings_t
          = (settings_save_temp B R).bytes := by
  obtain ⟨hlen, hb, hpre⟩ := settings_save_buffer_props B R hwf hsec
  obtain ⟨hw1, hw2⟩ := write_flash_sector_fault_free B dev flash_offset
    (settings_save_buffer B R) flash hdev hal hin hlen hb
  rw [settings_save_eq, if_pos hval]
  exact ⟨hw1, by rw [flash_read_head _ _ _ _ _ hsec hw2, hpre]⟩

theorem settings_load_of_sector (B : Build) (cfg T : settings_t) (flash_offset : Nat)
    (flash : Flash) (hal : flash_offset % B.FLASH_SECTOR_SIZE = 0)
    (hin : flash_offset < B.PICO_FLASH_SIZE_BYTES)
    (hread : flash_read flash flash_offset sizeof_settings_t = T.bytes)
    (hmagic : T.magic = SETTINGS_MAGIC) (hver : T.version = SETTINGS_VERSION)
    (hsize : T.size = sizeof_settings_t)
    (hcrc : calculate_crc32 (some T.bytes) (sizeof_settings_t - 4) = T.crc32) :
    settings_load B cfg flash_offset flash
      = (true, if T.flags &&& FLAG_SETTINGS_ENCRYPTED ≠ 0 then
          T.set_wifi_pass (xor_wifi_pass B T.wifi_pass WIFI_PASS_MAX_LEN) else T) := by
  have hnb : T.bytes ≠ List.replicate sizeof_settings_t 0xFF := by
    intro h
    have hm : T.magic = 0xFFFFFFFF := by
      unfold settings_t.magic
      rw [h]
      decide
    rw [hm] at hmagic
    exact absurd hmagic (by decide)
  unfold settings_load
  rw [if_neg (by omega), hread]
  simp only [hnb, if_false, hmagic, hver, hsize, hcrc, ne_eq, not_true_eq_false]

/-! ## The filter applied twice -/

theorem strlen_getD_ne_zero (l : List Nat) (i : Nat) (h : i < strlen l) : l.getD i 0 ≠ 0 := by
  induction l generalizing i with
  | nil => simp [strlen] at h
  | cons c cs ih =>
    by_cases hc : c = 0
    · simp [strlen, hc] at h
    · cases i with
      | zero => simpa using hc
      | succ i =>
        simp only [strlen, hc, if_false] at h
        simpa using ih i (by omega)

theorem strlen_getD_eq_zero (l : List Nat) (h : strlen l < l.length) :
    l.getD (strlen l) 0 = 0 := by
  induction l with
  | nil => simp [strlen]
  | cons c cs ih =>
    by_cases hc : c = 0
    · simp [strlen, hc]
    · simp only [strlen, hc, if_false, List.length_cons] at h ⊢
      simpa using ih (by omega)

theorem strlen_eq_of (l : List Nat) (n : Nat) (h1 : ∀ i, i < n → l.getD i 0 ≠ 0)
    (h2 : l.getD n 0 = 0) : strlen l = n := by
  induction l generalizing n with
  | nil =>
    cases n with
    | zero => rfl
    | succ n => exact absurd (by simp) (h1 0 (by omega))
  | cons c cs ih =>
    cases n with
    | zero =>
      have hc : c = 0 := by simpa using h2
      simp [strlen, hc]
    | succ n =>
      have hc : c ≠ 0 := by simpa using h1 0 (by omega)
      simp only [strlen, hc, if_false]
      rw [ih n (fun i hi => by simpa using h1 (i + 1) (by omega)) (by simpa using h2)]

theorem list_ext_getD (l1 l2 : List Nat) (hlen : l1.length = l2.length)
    (h : ∀ i, i < l1.length → l1.getD i 0 = l2.getD i 0) : l1 = l2 := by
  apply List.ext_getElem hlen
  intro i h1 h2
  have := h i h1
  simpa [List.getD_eq_getElem?_getD, List.getElem?_eq_getElem h1, List.getElem?_eq_getElem h2]
    using this

theorem xor_key_lt (i : Nat) : xor_key i < 256 := by
  unfold xor_key
  exact Nat.lt_of_le_of_lt Nat.and_le_right (by norm_num)

theorem xor_byte_mod (c k : Nat) (hc : c < 256) (hk : k < 256) : (c ^^^ k) % 256 = c ^^^ k :=
  Nat.mod_eq_of_lt (Nat.xor_lt_two_pow (n := 8) hc hk)

theorem xor_ne_zero_of_ne (c k : Nat) (h : c ≠ k) : c ^^^ k ≠ 0 := by
  intro h0
  apply h
  have h1 : c ^^^ k = k ^^^ k := by rw [h0, Nat.xor_self]
  exact Nat.xor_left_injective h1

theorem strnlen_full (p : List Nat) (n : Nat) (h : p.length ≤ n) : strnlen p n = strlen p := by
  unfold strnlen
  rw [List.take_of_length_le h]

/-- The filter undoes itself on a password none of whose characters is its own key byte. -/
theorem xor_wifi_pass_twice (B : Build) (p : List Nat) (hlen : p.length = WIFI_PASS_MAX_LEN)
    (hb : ∀ b ∈ p, b < 256) (hstr : strlen p < WIFI_PASS_MAX_LEN)
    (hnc : ∀ i, i < strlen p → p.getD i 0 ≠ xor_key i) :
    xor_wifi_pass B (xor_wifi_pass B p WIFI_PASS_MAX_LEN) WIFI_PASS_MAX_LEN = p := by
  by_cases hB : B.ENCRYPT_WIFI_PASS = true
  · have hE : ∀ j, (xor_wifi_pass B p WIFI_PASS_MAX_LEN).getD j 0
        = if j < strlen p then p.getD j 0 ^^^ xor_key j else p.getD j 0 := by
      intro j
      rw [getD_xor_wifi_pass, strnlen_full p _ (by omega)]
      by_cases hj : j < strlen p
      · rw [if_pos ⟨hB, hj, by omega⟩, if_pos hj,
          xor_byte_mod _ _ (getD_lt_256 p j hb) (xor_key_lt j)]
      · rw [if_neg (fun h => hj h.2.1), if_neg hj]
    have hElen : (xor_wifi_pass B p WIFI_PASS_MAX_LEN).length = WIFI_PASS_MAX_LEN := by
      rw [length_xor_wifi_pass, hlen]
    have hEstr : strlen (xor_wifi_pass B p WIFI_PASS_MAX_LEN) = strlen p := by
      apply strlen_eq_of
      · intro i hi
        rw [hE, if_pos hi]
        exact xor_ne_zero_of_ne _ _ (hnc i hi)
      · rw [hE, if_neg (Nat.lt_irrefl _)]
        exact strlen_getD_eq_zero p (by omega)
    apply list_ext_getD
    · rw [length_xor_wifi_pass, hElen, hlen]
    · intro j _
      rw [getD_xor_wifi_pass, strnlen_full _ _ (by omega), hEstr]
      by_cases hj : j < strlen p
      · rw [if_pos ⟨hB, hj, by omega⟩, hE, if_pos hj, Nat.xor_assoc, Nat.xor_self, Nat.xor_zero]
        exact Nat.mod_eq_of_lt (getD_lt_256 p j hb)
      · rw [if_neg (fun h => hj h.2.1), hE, if_neg hj]
  · have hid : ∀ q, xor_wifi_pass B q WIFI_PASS_MAX_LEN = q := by
      intro q
      simp [xor_wifi_pass, hB]
    rw [hid, hid]

/-- Saving a valid record through a device without faults and loading the sector again:
both calls succeed and the record loaded is the staged record, filtered once more when
its flag is set. -/
theorem settings_save_load (B : Build) (dev : FlashDevice) (R cfg : settings_t)
    (flash_offset : Nat) (flash : Flash) (hsec : sizeof_settings_t ≤ B.FLASH_SECTOR_SIZE)
    (hdev : FaultFree B dev) (hal : flash_offset % B.FLASH_SECTOR_SIZE = 0)
    (hin : flash_offset < B.PICO_FLASH_SIZE_BYTES) (hwf : R.WF)
    (hval : settings_save_checks R = true) :
    (settings_save B dev R flash_offset flash).1 = true
      ∧ flash_read (settings_save B dev R flash_offset flash).2 flash_offset sizeof_settings_t
          = (settings_save_temp B R).bytes
      ∧ settings_load B cfg flash_offset (settings_save B dev R flash_offset flash).2
          = (true,
              if (settings_save_temp B R).flags &&& FLAG_SETTINGS_ENCRYPTED ≠ 0 then
                (settings_save_temp B R).set_wifi_pass
                  (xor_wifi_pass B (settings_save_temp B R).wifi_pass WIFI_PASS_MAX_LEN)
              else settings_save_temp B R) := by
  obtain ⟨hs1, hs2⟩ := settings_save_fault_free B dev R flash_offset flash hsec hdev hal hin
    hwf hval
  obtain ⟨_, hsame, hcrc, _⟩ := settings_save_temp_props B R hwf
  obtain ⟨hm, hv, hz, _⟩ := (settings_save_checks_iff R hwf.1).mp hval
  refine ⟨hs1, hs2, ?_⟩
  exact settings_load_of_sector B cfg (settings_save_temp B R) flash_offset _ hal hin hs2
    (hsame.1.trans hm) (hsame.2.1.trans hv) (hsame.2.2.1.trans hz) hcrc.symm

/-- The members of the record loaded after a save, in terms of the record saved. -/
theorem settings_save_load_fields (B : Build) (dev : FlashDevice) (R cfg : settings_t)
    (flash_offset : Nat) (flash : Flash) (hsec : sizeof_settings_t ≤ B.FLASH_SECTOR_SIZE)
    (hdev : FaultFree B dev) (hal : flash_offset % B.FLASH_SECTOR_SIZE = 0)
    (hin : flash_offset < B.PICO_FLASH_SIZE_BYTES) (hwf : R.WF)
    (hval : settings_save_checks R = true) :
    (settings_save B dev R flash_offset flash).1 = true
      ∧ (settings_load B cfg flash_offset (settings_save B dev R flash_offset flash).2).1 = true
      ∧ (settings_load B cfg flash_offset
          (settings_save B dev R flash_offset flash).2).2.same_other_fields R
      ∧ (settings_load B cfg flash_offset (settings_save B dev R flash_offset flash).2).2.crc32
          = calculate_crc32
              (some (flash_read (settings_save B dev R flash_offset flash).2 flash_offset
                sizeof_settings_t)) (sizeof_settings_t - 4)
      ∧ (settings_load B cfg flash_offset (settings_save B dev R flash_offset flash).2).2.wifi_pass
          = (if R.flags &&& FLAG_SETTINGS_ENCRYPTED ≠ 0 then
              xor_wifi_pass B (xor_wifi_pass B R.wifi_pass WIFI_PASS_MAX_LEN) WIFI_PASS_MAX_LEN
            else R.wifi_pass) := by
  obtain ⟨hs, hread, hl⟩ := settings_save_load B dev R cfg flash_offset flash hsec hdev hal hin
    hwf hval
  obtain ⟨hTwf, hsame, hcrc, hpass⟩ := settings_save_temp_props B R hwf
  obtain ⟨_, hLsame, hLcrc, hLpass⟩ := filtered_props B (settings_save_temp B R) hTwf
  have hflags : (settings_save_temp B R).flags = R.flags := hsame.2.2.2.2.2.1
  rw [hl, hread]
  refine ⟨hs, rfl, same_other_fields_trans _ _ _ hLsame hsame, hLcrc.trans hcrc, ?_⟩
  simp only []
  rw [hLpass, hpass, hflags]
  split <;> rfl

/-! ## The staged buffer, byte by byte -/

theorem settings_t_eta (x : settings_t) : (⟨x.bytes⟩ : settings_t) = x := rfl

theorem getD_mem_read (l : List Nat) (n i : Nat) :
    (mem_read l n).getD i 0 = if i < n then l.getD i 0 else 0 := by
  unfold mem_read; rw [getD_map_range]

theorem mem_read_mem_read (l : List Nat) (n m : Nat) (h : m ≤ n) :
    mem_read (mem_read l n) m = mem_read l m := by
  unfold mem_read
  apply List.map_congr_left
  intro i hi
  have hi' : i < m := List.mem_range.mp hi
  rw [getD_map_range, if_pos (by omega)]

theorem rd32_mem_read (l : List Nat) (n k : Nat) (h : k + 4 ≤ n) :
    rd32 (mem_read l n) k = rd32 l k := by
  unfold rd32
  rw [getD_mem_read, getD_mem_read, getD_mem_read, getD_mem_read, if_pos (by omega),
    if_pos (by omega), if_pos (by omega), if_pos (by omega)]

theorem mem_slice_flash_read (F : Flash) (off m a n : Nat) (h : a + n ≤ m) :
    mem_slice (flash_read F off m) a n = flash_read F (off + a) n := by
  unfold mem_slice
  conv_rhs => unfold flash_read
  apply List.map_congr_left
  intro i hi
  have hi' : i < n := List.mem_range.mp hi
  rw [getD_flash_read, if_pos (by omega), Nat.add_assoc]

theorem mem_write_mem_slice_self (l : List Nat) (off n : Nat) :
    mem_write l off (mem_slice l off n) = l := by
  apply list_ext_getD
  · exact length_mem_write _ _ _
  · intro i hi
    rw [length_mem_write] at hi
    rw [getD_mem_write, length_mem_slice]
    by_cases hc : off ≤ i ∧ i < off + n ∧ i < l.length
    · rw [if_pos hc, getD_mem_slice, if_pos (by omega)]
      congr 1
      omega
    · rw [if_neg hc]

/-- The first 374 bytes of the staged buffer are the staged record. -/
theorem getD_settings_save_buffer (B : Build) (R : settings_t) (hwf : R.WF)
    (hsec : sizeof_settings_t ≤ B.FLASH_SECTOR_SIZE) (i : Nat) (hi : i < 374) :
    (settings_save_buffer B R).getD i 0 = (settings_save_temp B R).bytes.getD i 0 := by
  obtain ⟨_, _, hpre⟩ := settings_save_buffer_props B R hwf hsec
  have hsz : sizeof_settings_t = 374 := rfl
  rw [← hpre, hsz, getD_mem_read, if_pos hi]

/-- The payload bytes of the staged record outside the password array are the caller's. -/
theorem getD_settings_save_temp (B : Build) (R : settings_t) (i : Nat) (hi : i < 370)
    (hout : i < 40 ∨ 104 ≤ i ∨ R.flags &&& FLAG_SETTINGS_ENCRYPTED = 0) :
    (settings_save_temp B R).bytes.getD i 0 = R.bytes.getD i 0 := by
  unfold settings_save_temp
  simp only [settings_t.set_crc32]
  rw [getD_mem_write_of_lt _ _ _ _ (by show i < 370; exact hi)]
  by_cases hf : R.flags &&& FLAG_SETTINGS_ENCRYPTED = 0
  · rw [if_neg (by simpa using hf)]
  · rw [if_pos hf]
    have hl : (xor_wifi_pass B R.wifi_pass WIFI_PASS_MAX_LEN).length = 64 := by
      rw [length_xor_wifi_pass, length_wifi_pass]; rfl
    simp only [settings_t.set_wifi_pass]
    apply getD_mem_write_disjoint
    rw [hl]
    show i < 40 ∨ 40 + 64 ≤ i
    omega

/-! ## The record of `settings_init_default` -/

theorem settings_init_default_eq (B : Build) :
    settings_init_default B
      = (init_flag B (init_chain (snprintf_s WIFI_SSID_MAX_LEN B.DEFAULT_SSID)
            (snprintf_s WIFI_PASS_MAX_LEN B.DEFAULT_PASS)
            (snprintf_s NTP_SERVER_MAX_LEN B.DEFAULT_NTP_SERVER))).set_crc32
          (calculate_crc32
            (some (init_flag B (init_chain (snprintf_s WIFI_SSID_MAX_LEN B.DEFAULT_SSID)
              (snprintf_s WIFI_PASS_MAX_LEN B.DEFAULT_PASS)
              (snprintf_s NTP_SERVER_MAX_LEN B.DEFAULT_NTP_SERVER))).bytes)
            (sizeof_settings_t - 4)) := rfl

theorem mem_slice_replicate_zero (N o n : Nat) :
    mem_slice (List.replicate N 0) o n = List.replicate n 0 := by
  apply List.ext_getElem
  · simp [mem_slice]
  · intro i h1 h2
    simp only [mem_slice, List.getElem_map, List.getElem_range, List.getElem_replicate]
    rw [List.getD_eq_getElem?_getD, List.getElem?_replicate]
    split <;> rfl

theorem mem_slice_zero_len (l : List Nat) (o : Nat) : mem_slice l o 0 = [] := rfl

theorem mem_slice_split (l : List Nat) (a n m : Nat) :
    mem_slice l a (n + m) = mem_slice l a n ++ mem_slice l (a + n) m := by
  unfold mem_slice
  rw [List.range_add, List.map_append, List.map_map]
  simp [Function.comp_def, Nat.add_assoc]

theorem mem_slice_mem_write_head (buf : List Nat) (off : Nat) (src : List Nat) (n : Nat)
    (h1 : src.length ≤ n) (h2 : off + src.length ≤ buf.length) :
    mem_slice (mem_write buf off src) off n
      = src ++ mem_slice buf (off + src.length) (n - src.length) := by
  have e : n = src.length + (n - src.length) := by omega
  conv_lhs => rw [e, mem_slice_split, mem_slice_mem_write_self buf off src h2]
  rw [mem_slice_mem_write_disjoint _ _ _ _ _ (Or.inr (Nat.le_refl _))]

theorem length_le32 (v : Nat) : (le32 v).length = 4 := rfl

theorem length_le16 (v : Nat) : (le16 v).length = 2 := rfl

theorem mem_slice_all (l : List Nat) : mem_slice l 0 l.length = l := by
  have h := mem_read_self l
  unfold mem_read at h
  unfold mem_slice
  simpa using h

/-- A record is the concatenation of its members. -/
theorem record_members (l : List Nat) (h : l.length = 374) :
    l = mem_slice l 0 4 ++ mem_slice l 4 2 ++ mem_slice l 6 2 ++ mem_slice l 8 32
        ++ mem_slice l 40 64
        ++ (mem_slice l 104 1 ++ mem_slice l 105 1 ++ mem_slice l 106 1 ++ mem_slice l 107 1)
        ++ mem_slice l 108 2 ++ mem_slice l 110 2
        ++ mem_slice l 112 64 ++ mem_slice l 176 64 ++ mem_slice l 240 64 ++ mem_slice l 304 64
        ++ mem_slice l 368 2 ++ mem_slice l 370 4 := by
  have e : ∀ a n m, mem_slice l a n ++ mem_slice l (a + n) m = mem_slice l a (n + m) :=
    fun a n m => (mem_slice_split l a n m).symm
  rw [e 0 4 2, e 0 6 2, e 0 8 32, e 0 40 64, e 104 1 1, e 104 2 1, e 104 3 1, e 0 104 4,
    e 0 108 2, e 0 110 2, e 0 112 64, e 0 176 64, e 0 240 64, e 0 304 64, e 0 368 2,
    e 0 370 4]
  have h2 := mem_slice_all l
  rw [h] at h2
  exact h2.symm


theorem getD_replicate_zero (N i : Nat) : (List.replicate N 0).getD i 0 = 0 := by
  rw [List.getD_eq_getElem?_getD, List.getElem?_replicate]
  split <;> rfl

theorem init_chain_flags (ssid pass ntp : List Nat) (hs : ssid.length ≤ 32)
    (hp : pass.length ≤ 64) : (init_chain ssid pass ntp).flags = 0 := by
  simp (disch := first | omega | (simp only [length_mem_write, List.length_replicate,
      length_le32, length_le16, List.length_singleton]; omega)) only [init_chain,
    settings_t.flags, settings_t.set_magic, settings_t.set_version,
    settings_t.set_size, settings_t.set_wifi_ssid, settings_t.set_wifi_pass,
    settings_t.set_brightness, settings_t.set_night_off_hour, settings_t.set_night_on_hour,
    settings_t.set_anim_lags_period_s, settings_t.set_ntp_server,
    settings_t.set_ntp_sync_period_minutes,
    settings_t.off_magic, settings_t.off_version, settings_t.off_size, settings_t.off_wifi_ssid,
    settings_t.off_wifi_pass, settings_t.off_brightness, settings_t.off_flags,
    settings_t.off_night_off_hour, settings_t.off_night_on_hour, settings_t.off_anim_flags,
    settings_t.off_anim_lags_period_s, settings_t.off_ntp_servers,
    settings_t.off_ntp_sync_period_minutes, settings_t.off_crc32, sizeof_settings_t,
    NTP_MAX_SERVERS, NTP_SERVER_MAX_LEN, WIFI_PASS_MAX_LEN, WIFI_SSID_MAX_LEN,
    getD_mem_write_disjoint, getD_replicate_zero,
    Nat.reduceAdd, Nat.reduceMul, Nat.reduceSub, Nat.zero_add]

theorem init_flag_chain (B : Build) (ssid pass ntp : List Nat) (hs : ssid.length ≤ 32)
    (hp : pass.length ≤ 64) :
    init_flag B (init_chain ssid pass ntp)
      = if B.ENCRYPT_WIFI_PASS = true then
          (init_chain ssid pass ntp).set_flags FLAG_SETTINGS_ENCRYPTED
        else init_chain ssid pass ntp := by
  unfold init_flag
  rw [init_chain_flags ssid pass ntp hs hp]
  have h1 : (0 : Nat) &&& FLAG_SETTINGS_ENCRYPTED = 0 := Nat.zero_and _
  have h2 : (0 : Nat) ||| FLAG_SETTINGS_ENCRYPTED = FLAG_SETTINGS_ENCRYPTED := Nat.zero_or _
  rw [h1, h2]
  simp




/-- The members of the record of `settings_init_default` when the flag step sets the flag. -/
theorem init_record_slices_flag (ssid pass ntp : List Nat) (hs : ssid.length ≤ 32)
    (hp : pass.length ≤ 64) (hn : ntp.length ≤ 64) (v : Nat) :
    mem_slice (((init_chain ssid pass ntp).set_flags 4).set_crc32 v).bytes 0 4 = le32 SETTINGS_MAGIC
      ∧ mem_slice (((init_chain ssid pass ntp).set_flags 4).set_crc32 v).bytes 4 2 = le16 SETTINGS_VERSION
      ∧ mem_slice (((init_chain ssid pass ntp).set_flags 4).set_crc32 v).bytes 6 2 = le16 374
      ∧ mem_slice (((init_chain ssid pass ntp).set_flags 4).set_crc32 v).bytes 8 32 = ssid ++ List.replicate (32 - ssid.length) 0
      ∧ mem_slice (((init_chain ssid pass ntp).set_flags 4).set_crc32 v).bytes 40 64 = pass ++ List.replicate (64 - pass.length) 0
      ∧ mem_slice (((init_chain ssid pass ntp).set_flags 4).set_crc32 v).bytes 104 1 = [50]
      ∧ mem_slice (((init_chain ssid pass ntp).set_flags 4).set_crc32 v).bytes 105 1 = [4]
      ∧ mem_slice (((init_chain ssid pass ntp).set_flags 4).set_crc32 v).bytes 106 1 = [22]
      ∧ mem_slice (((init_chain ssid pass ntp).set_flags 4).set_crc32 v).bytes 107 1 = [6]
      ∧ mem_slice (((init_chain ssid pass ntp).set_flags 4).set_crc32 v).bytes 108 2 = List.replicate 2 0
      ∧ mem_slice (((init_chain ssid pass ntp).set_flags 4).set_crc32 v).bytes 110 2 = le16 5
      ∧ mem_slice (((init_chain ssid pass ntp).set_flags 4).set_crc32 v).bytes 112 64 = ntp ++ List.replicate (64 - ntp.length) 0
      ∧ mem_slice (((init_chain ssid pass ntp).set_flags 4).set_crc32 v).bytes 176 64 = List.replicate 64 0
      ∧ mem_slice (((init_chain ssid pass ntp).set_flags 4).set_crc32 v).bytes 240 64 = List.replicate 64 0
      ∧ mem_slice (((init_chain ssid pass ntp).set_flags 4).set_crc32 v).bytes 304 64 = List.replicate 64 0
      ∧ mem_slice (((init_chain ssid pass ntp).set_flags 4).set_crc32 v).bytes 368 2 = le16 60
      ∧ mem_slice (((init_chain ssid pass ntp).set_flags 4).set_crc32 v).bytes 370 4 = le32 v := by
  simp (disch := first | omega | (simp only [length_mem_write, List.length_replicate,
        length_le32, length_le16, List.length_singleton]; omega)) only [init_chain,
      settings_t.set_crc32, settings_t.set_flags,
      settings_t.set_magic, settings_t.set_version,
      settings_t.set_size, settings_t.set_wifi_ssid, settings_t.set_wifi_pass,
      settings_t.set_brightness, settings_t.set_night_off_hour, settings_t.set_night_on_hour,
      settings_t.set_anim_lags_period_s, settings_t.set_ntp_server,
      settings_t.set_ntp_sync_period_minutes,
      settings_t.off_magic, settings_t.off_version, settings_t.off_size,
      settings_t.off_wifi_ssid,
      settings_t.off_wifi_pass, settings_t.off_brightness, settings_t.off_flags,
      settings_t.off_night_off_hour, settings_t.off_night_on_hour, settings_t.off_anim_flags,
      settings_t.off_anim_lags_period_s, settings_t.off_ntp_servers,
      settings_t.off_ntp_sync_period_minutes, settings_t.off_crc32, sizeof_settings_t,
      NTP_MAX_SERVERS, NTP_SERVER_MAX_LEN, WIFI_PASS_MAX_LEN, WIFI_SSID_MAX_LEN,
      mem_slice_mem_write_disjoint, length_le32, length_le16, List.length_singleton,
      length_mem_write, List.length_replicate, mem_slice_mem_write_head,
      mem_slice_replicate_zero, mem_slice_zero_len, List.append_nil, Nat.sub_self,
      Nat.reduceAdd, Nat.reduceMul, Nat.reduceSub, Nat.reduceMod, Nat.zero_add, and_self]

/-- The members of the record of `settings_init_default` when the flag step does nothing. -/
theorem init_record_slices_plain (ssid pass ntp : List Nat) (hs : ssid.length ≤ 32)
    (hp : pass.length ≤ 64) (hn : ntp.length ≤ 64) (v : Nat) :
    mem_slice ((init_chain ssid pass ntp).set_crc32 v).bytes 0 4 = le32 SETTINGS_MAGIC
      ∧ mem_slice ((init_chain ssid pass ntp).set_crc32 v).bytes 4 2 = le16 SETTINGS_VERSION
      ∧ mem_slice ((init_chain ssid pass ntp).set_crc32 v).bytes 6 2 = le16 374
      ∧ mem_slice ((init_chain ssid pass ntp).set_crc32 v).bytes 8 32 = ssid ++ List.replicate (32 - ssid.length) 0
      ∧ mem_slice ((init_chain ssid pass ntp).set_crc32 v).bytes 40 64 = pass ++ List.replicate (64 - pass.length) 0
      ∧ mem_slice ((init_chain ssid pass ntp).set_crc32 v).bytes 104 1 = [50]
      ∧ mem_slice ((init_chain ssid pass ntp).set_crc32 v).bytes 105 1 = List.replicate 1 0
      ∧ mem_slice ((init_chain ssid pass ntp).set_crc32 v).bytes 106 1 = [22]
      ∧ mem_slice ((init_chain ssid pass ntp).set_crc32 v).bytes 107 1 = [6]
      ∧ mem_slice ((init_chain ssid pass ntp).set_crc32 v).bytes 108 2 = List.replicate 2 0
      ∧ mem_slice ((init_chain ssid pass ntp).set_crc32 v).bytes 110 2 = le16 5
      ∧ mem_slice ((init_chain ssid pass ntp).set_crc32 v).bytes 112 64 = ntp ++ List.replicate (64 - ntp.length) 0
      ∧ mem_slice ((init_chain ssid pass ntp).set_crc32 v).bytes 176 64 = List.replicate 64 0
      ∧ mem_slice ((init_chain ssid pass ntp).set_crc32 v).bytes 240 64 = List.replicate 64 0
      ∧ mem_slice ((init_chain ssid pass ntp).set_crc32 v).bytes 304 64 = List.replicate 64 0
      ∧ mem_slice ((init_chain ssid pass ntp).set_crc32 v).bytes 368 2 = le16 60
      ∧ mem_slice ((init_chain ssid pass ntp).set_crc32 v).bytes 370 4 = le32 v := by
  simp (disch := first | omega | (simp only [length_mem_write, List.length_replicate,
        length_le32, length_le16, List.length_singleton]; omega)) only [init_chain,
      settings_t.set_crc32, settings_t.set_flags,
      settings_t.set_magic, settings_t.set_version,
      settings_t.set_size, settings_t.set_wifi_ssid, settings_t.set_wifi_pass,
      settings_t.set_brightness, settings_t.set_night_off_hour, settings_t.set_night_on_hour,
      settings_t.set_anim_lags_period_s, settings_t.set_ntp_server,
      settings_t.set_ntp_sync_period_minutes,
      settings_t.off_magic, settings_t.off_version, settings_t.off_size,
      settings_t.off_wifi_ssid,
      settings_t.off_wifi_pass, settings_t.off_brightness, settings_t.off_flags,
      settings_t.off_night_off_hour, settings_t.off_night_on_hour, settings_t.off_anim_flags,
      settings_t.off_anim_lags_period_s, settings_t.off_ntp_servers,
      settings_t.off_ntp_sync_period_minutes, settings_t.off_crc32, sizeof_settings_t,
      NTP_MAX_SERVERS, NTP_SERVER_MAX_LEN, WIFI_PASS_MAX_LEN, WIFI_SSID_MAX_LEN,
      mem_slice_mem_write_disjoint, length_le32, length_le16, List.length_singleton,
      length_mem_write, List.length_replicate, mem_slice_mem_write_head,
      mem_slice_replicate_zero, mem_slice_zero_len, List.append_nil, Nat.sub_self,
      Nat.reduceAdd, Nat.reduceMul, Nat.reduceSub, Nat.reduceMod, Nat.zero_add, and_self]

theorem length_init_record (x : settings_t) (v : Nat) (h : x.bytes.length = 374) :
    (x.set_crc32 v).bytes.length = 374 := by
  simp only [settings_t.set_crc32, length_mem_write]; exact h

theorem length_init_chain (ssid pass ntp : List Nat) :
    (init_chain ssid pass ntp).bytes.length = 374 := by
  simp only [init_chain, settings_t.set_magic, settings_t.set_version,
    settings_t.set_size, settings_t.set_wifi_ssid, settings_t.set_wifi_pass,
    settings_t.set_brightness, settings_t.set_night_off_hour, settings_t.set_night_on_hour,
    settings_t.set_anim_lags_period_s, settings_t.set_ntp_server,
    settings_t.set_ntp_sync_period_minutes, length_mem_write, List.length_replicate]
  rfl

theorem length_snprintf_s (n : Nat) (s : List Nat) (hn : 1 ≤ n) :
    (snprintf_s n s).length ≤ n := by
  unfold snprintf_s
  simp only [List.length_append, List.length_take, List.length_singleton]
  omega

theorem snprintf_s_eq (n : Nat) (s : List Nat) :
    snprintf_s n s = (c_str s).take (n - 1) ++ [0] := by
  unfold snprintf_s c_str
  rw [List.take_take, Nat.min_comm]

/-- The array after `snprintf` into zeros: the string cut to `n - 1` characters, then NUL
bytes. -/
theorem snprintf_s_padded (n : Nat) (s : List Nat) (hn : 1 ≤ n) :
    snprintf_s n s ++ List.replicate (n - (snprintf_s n s).length) 0
      = c_string n ((c_str s).take (n - 1)) := by
  rw [snprintf_s_eq]
  unfold c_string
  have hl : ((c_str s).take (n - 1)).length ≤ n - 1 := by
    simp only [List.length_take]; omega
  rw [List.append_assoc, List.length_append, List.length_singleton]
  congr 1
  have e : n - ((c_str s).take (n - 1)).length
      = (n - (((c_str s).take (n - 1)).length + 1)) + 1 := by omega
  rw [e, List.replicate_succ]
  rfl

/-- The bytes of the record `settings_init_default` builds, member by member, for given
contents of the three `snprintf` calls and a given checksum. -/
theorem init_record_bytes (B : Build) (ssid pass ntp : List Nat) (hs : ssid.length ≤ 32)
    (hp : pass.length ≤ 64) (hn : ntp.length ≤ 64) (v : Nat) :
    ((init_flag B (init_chain ssid pass ntp)).set_crc32 v).bytes
      = le32 SETTINGS_MAGIC ++ le16 SETTINGS_VERSION ++ le16 374
        ++ (ssid ++ List.replicate (32 - ssid.length) 0)
        ++ (pass ++ List.replicate (64 - pass.length) 0)
        ++ [50, if B.ENCRYPT_WIFI_PASS = true then 4 else 0, 22, 6]
        ++ le16 0 ++ le16 5
        ++ (ntp ++ List.replicate (64 - ntp.length) 0) ++ List.replicate 64 0
        ++ List.replicate 64 0 ++ List.replicate 64 0
        ++ le16 60 ++ le32 v := by
  rw [init_flag_chain B ssid pass ntp hs hp]
  have h4 : FLAG_SETTINGS_ENCRYPTED = 4 := rfl
  have hz : (List.replicate 2 0 : List Nat) = le16 0 := rfl
  by_cases hB : B.ENCRYPT_WIFI_PASS = true
  · rw [if_pos hB, if_pos hB, h4]
    have hl := length_init_record ((init_chain ssid pass ntp).set_flags 4) v
      (by simp only [settings_t.set_flags, length_mem_write]; exact length_init_chain _ _ _)
    obtain ⟨s1, s2, s3, s4, s5, s6, s7, s8, s9, s10, s11, s12, s13, s14, s15, s16, s17⟩ :=
      init_record_slices_flag ssid pass ntp hs hp hn v
    refine (record_members _ hl).trans ?_
    rw [s1, s2, s3, s4, s5, s6, s7, s8, s9, s10, s11, s12, s13, s14, s15, s16, s17, hz]
    rfl
  · rw [if_neg hB, if_neg hB]
    have hl := length_init_record (init_chain ssid pass ntp) v (length_init_chain _ _ _)
    obtain ⟨s1, s2, s3, s4, s5, s6, s7, s8, s9, s10, s11, s12, s13, s14, s15, s16, s17⟩ :=
      init_record_slices_plain ssid pass ntp hs hp hn v
    refine (record_members _ hl).trans ?_
    rw [s1, s2, s3, s4, s5, s6, s7, s8, s9, s10, s11, s12, s13, s14, s15, s16, s17, hz]
    rfl

/-- The record `settings_init_default` builds for a given checksum, member by member. -/
theorem init_record_fields (B : Build) (v : Nat) :
    (init_flag B (init_chain (snprintf_s WIFI_SSID_MAX_LEN B.DEFAULT_SSID)
        (snprintf_s WIFI_PASS_MAX_LEN B.DEFAULT_PASS)
        (snprintf_s NTP_SERVER_MAX_LEN B.DEFAULT_NTP_SERVER))).set_crc32 v
      = settings_t.of_fields SETTINGS_MAGIC SETTINGS_VERSION 374
          ((c_str B.DEFAULT_SSID).take 31) ((c_str B.DEFAULT_PASS).take 63) 50
          (if B.ENCRYPT_WIFI_PASS = true then 4 else 0) 22 6 0 5
          ((c_str B.DEFAULT_NTP_SERVER).take 63) [] [] [] 60 v := by
  have h1 := length_snprintf_s WIFI_SSID_MAX_LEN B.DEFAULT_SSID (by decide)
  have h2 := length_snprintf_s WIFI_PASS_MAX_LEN B.DEFAULT_PASS (by decide)
  have h3 := length_snprintf_s NTP_SERVER_MAX_LEN B.DEFAULT_NTP_SERVER (by decide)
  have hb := init_record_bytes B _ _ _ h1 h2 h3 v
  have p1 := snprintf_s_padded WIFI_SSID_MAX_LEN B.DEFAULT_SSID (by decide)
  have p2 := snprintf_s_padded WIFI_PASS_MAX_LEN B.DEFAULT_PASS (by decide)
  have p3 := snprintf_s_padded NTP_SERVER_MAX_LEN B.DEFAULT_NTP_SERVER (by decide)
  have e32 : WIFI_SSID_MAX_LEN = 32 := rfl
  have e64 : WIFI_PASS_MAX_LEN = 64 := rfl
  have n64 : NTP_SERVER_MAX_LEN = 64 := rfl
  rw [e32] at p1
  rw [e64] at p2
  rw [n64] at p3
  rw [e32, e64, n64] at hb
  rw [p1, p2, p3] at hb
  have hnil : (List.replicate 64 0 : List Nat) = c_string NTP_SERVER_MAX_LEN [] := rfl
  rw [hnil] at hb
  rw [e32, e64, n64]
  generalize (init_flag B (init_chain (snprintf_s 32 B.DEFAULT_SSID)
      (snprintf_s 64 B.DEFAULT_PASS) (snprintf_s 64 B.DEFAULT_NTP_SERVER))).set_crc32 v
      = D at hb ⊢
  cases D with
  | mk bytes =>
    simp only at hb
    rw [hb]
    rfl

/-- The record of `settings_init_default`, member by member. -/
theorem settings_init_default_fields (B : Build) :
    settings_init_default B
      = settings_t.of_fields SETTINGS_MAGIC SETTINGS_VERSION 374
          ((c_str B.DEFAULT_SSID).take 31) ((c_str B.DEFAULT_PASS).take 63) 50
          (if B.ENCRYPT_WIFI_PASS = true then 4 else 0) 22 6 0 5
          ((c_str B.DEFAULT_NTP_SERVER).take 63) [] [] [] 60
          (calculate_crc32
            (some (init_flag B (init_chain (snprintf_s WIFI_SSID_MAX_LEN B.DEFAULT_SSID)
              (snprintf_s WIFI_PASS_MAX_LEN B.DEFAULT_PASS)
              (snprintf_s NTP_SERVER_MAX_LEN B.DEFAULT_NTP_SERVER))).bytes)
            (sizeof_settings_t - 4)) := by
  rw [settings_init_default_eq]
  exact init_record_fields B _

/-- The checksum `settings_init_default` computes is the checksum of the record it
returns. -/
theorem settings_init_default_crc_arg (B : Build) :
    calculate_crc32
        (some (init_flag B (init_chain (snprintf_s WIFI_SSID_MAX_LEN B.DEFAULT_SSID)
          (snprintf_s WIFI_PASS_MAX_LEN B.DEFAULT_PASS)
          (snprintf_s NTP_SERVER_MAX_LEN B.DEFAULT_NTP_SERVER))).bytes)
        (sizeof_settings_t - 4)
      = calculate_crc32 (some (settings_init_default B).bytes) 370 := by
  rw [settings_init_default_eq]
  exact (calculate_crc32_congr _ _ 370 (mem_read_set_crc32 _ _)).symm

/-- The checksum `settings_init_default` computes, from the members alone. -/
theorem settings_init_default_crc_value (B : Build) :
    calculate_crc32 (some (settings_init_default B).bytes) 370
      = calculate_crc32
          (some (settings_t.of_fields SETTINGS_MAGIC SETTINGS_VERSION 374
            ((c_str B.DEFAULT_SSID).take 31) ((c_str B.DEFAULT_PASS).take 63) 50
            (if B.ENCRYPT_WIFI_PASS = true then 4 else 0) 22 6 0 5
            ((c_str B.DEFAULT_NTP_SERVER).take 63) [] [] [] 60 0).bytes) 370 := by
  rw [← settings_init_default_crc_arg, ← init_record_fields B 0]
  exact (calculate_crc32_congr _ _ 370 (mem_read_set_crc32 _ _)).symm

theorem rd32_of_slice (l : List Nat) (o : Nat) : rd32 l o = rd32 (mem_slice l o 4) 0 := by
  unfold rd32
  rw [getD_mem_slice, getD_mem_slice, getD_mem_slice, getD_mem_slice, if_pos (by decide),
    if_pos (by decide), if_pos (by decide), if_pos (by decide)]
  rfl

theorem rd16_of_slice (l : List Nat) (o : Nat) : rd16 l o = rd16 (mem_slice l o 2) 0 := by
  unfold rd16
  rw [getD_mem_slice, getD_mem_slice, if_pos (by decide), if_pos (by decide)]
  rfl

theorem getD_of_slice (l : List Nat) (o : Nat) : l.getD o 0 = (mem_slice l o 1).getD 0 0 := by
  rw [getD_mem_slice, if_pos (by decide)]
  rfl

theorem rd32_le32 (v : Nat) (hv : v < 2 ^ 32) : rd32 (le32 v) 0 = v := by
  simp only [rd32, le32, List.getD_cons_zero, List.getD_cons_succ]
  omega

theorem rd16_le16 (v : Nat) (hv : v < 2 ^ 16) : rd16 (le16 v) 0 = v := by
  simp only [rd16, le16, List.getD_cons_zero, List.getD_cons_succ]
  omega

/-- The members of the record of `settings_init_default`, for either setting of the
switch. -/
theorem init_record_slices (B : Build) (ssid pass ntp : List Nat) (hs : ssid.length ≤ 32)
    (hp : pass.length ≤ 64) (hn : ntp.length ≤ 64) (v : Nat) :
    mem_slice ((init_flag B (init_chain ssid pass ntp)).set_crc32 v).bytes 0 4
        = le32 SETTINGS_MAGIC
      ∧ mem_slice ((init_flag B (init_chain ssid pass ntp)).set_crc32 v).bytes 4 2
        = le16 SETTINGS_VERSION
      ∧ mem_slice ((init_flag B (init_chain ssid pass ntp)).set_crc32 v).bytes 6 2 = le16 374
      ∧ mem_slice ((init_flag B (init_chain ssid pass ntp)).set_crc32 v).bytes 8 32
        = ssid ++ List.replicate (32 - ssid.length) 0
      ∧ mem_slice ((init_flag B (init_chain ssid pass ntp)).set_crc32 v).bytes 40 64
        = pass ++ List.replicate (64 - pass.length) 0
      ∧ mem_slice ((init_flag B (init_chain ssid pass ntp)).set_crc32 v).bytes 104 1 = [50]
      ∧ mem_slice ((init_flag B (init_chain ssid pass ntp)).set_crc32 v).bytes 105 1
        = [if B.ENCRYPT_WIFI_PASS = true then 4 else 0]
      ∧ mem_slice ((init_flag B (init_chain ssid pass ntp)).set_crc32 v).bytes 106 1 = [22]
      ∧ mem_slice ((init_flag B (init_chain ssid pass ntp)).set_crc32 v).bytes 107 1 = [6]
      ∧ mem_slice ((init_flag B (init_chain ssid pass ntp)).set_crc32 v).bytes 108 2
        = List.replicate 2 0
      ∧ mem_slice ((init_flag B (init_chain ssid pass ntp)).set_crc32 v).bytes 110 2 = le16 5
      ∧ mem_slice ((init_flag B (init_chain ssid pass ntp)).set_crc32 v).bytes 112 64
        = ntp ++ List.replicate (64 - ntp.length) 0
      ∧ mem_slice ((init_flag B (init_chain ssid pass ntp)).set_crc32 v).bytes 176 64
        = List.replicate 64 0
      ∧ mem_slice ((init_flag B (init_chain ssid pass ntp)).set_crc32 v).bytes 240 64
        = List.replicate 64 0
      ∧ mem_slice ((init_flag B (init_chain ssid pass ntp)).set_crc32 v).bytes 304 64
        = List.replicate 64 0
      ∧ mem_slice ((init_flag B (init_chain ssid pass ntp)).set_crc32 v).bytes 368 2 = le16 60
      ∧ mem_slice ((init_flag B (init_chain ssid pass ntp)).set_crc32 v).bytes 370 4
        = le32 v := by
  rw [init_flag_chain B ssid pass ntp hs hp]
  have h4 : FLAG_SETTINGS_ENCRYPTED = 4 := rfl
  by_cases hB : B.ENCRYPT_WIFI_PASS = true
  · rw [if_pos hB, if_pos hB, h4]
    exact init_record_slices_flag ssid pass ntp hs hp hn v
  · rw [if_neg hB, if_neg hB]
    exact init_record_slices_plain ssid pass ntp hs hp hn v

theorem mem_le16_lt (v : Nat) : ∀ b ∈ le16 v, b < 256 := by
  intro b hb
  simp only [le16, List.mem_cons, List.mem_singleton, List.not_mem_nil, or_false] at hb
  omega

theorem mem_c_string_lt (n : Nat) (s : List Nat) (hs : ∀ b ∈ s, b < 256) :
    ∀ b ∈ c_string n s, b < 256 := by
  intro b hb
  simp only [c_string, List.mem_append, List.mem_replicate] at hb
  rcases hb with hb | hb
  · exact hs b hb
  · omega

theorem mem_c_str_take_lt (s : List Nat) (k : Nat) (hs : ∀ b ∈ s, b < 256) :
    ∀ b ∈ (c_str s).take k, b < 256 := by
  intro b hb
  exact hs b (List.mem_of_mem_take (List.mem_of_mem_take hb))

theorem strlen_take_no_nul (s : List Nat) : ∀ c ∈ s.take (strlen s), c ≠ 0 := by
  induction s with
  | nil => intro c hc; simp [strlen] at hc
  | cons a as ih =>
    intro c hc
    by_cases ha : a = 0
    · simp [strlen, ha] at hc
    · simp only [strlen, ha, if_false, List.take_succ_cons, List.mem_cons] at hc
      rcases hc with hc | hc
      · rw [hc]; exact ha
      · exact ih c hc

theorem c_str_take_no_nul (s : List Nat) (k : Nat) : ∀ c ∈ (c_str s).take k, c ≠ 0 := by
  intro c hc
  exact strlen_take_no_nul s c (List.mem_of_mem_take hc)

theorem strlen_c_string (n : Nat) (t : List Nat) (ht : ∀ c ∈ t, c ≠ 0) (hl : t.length < n) :
    strlen (c_string n t) = t.length := by
  unfold c_string
  have e : n - t.length = (n - t.length - 1) + 1 := by omega
  rw [e, List.replicate_succ]
  exact strlen_append_nul t _ ht

theorem length_c_string (n : Nat) (t : List Nat) (hl : t.length ≤ n) :
    (c_string n t).length = n := by
  unfold c_string
  rw [List.length_append, List.length_replicate]
  omega

theorem length_init_flag (B : Build) (x : settings_t) :
    (init_flag B x).bytes.length = x.bytes.length := by
  unfold init_flag
  split <;> split <;> simp only [settings_t.set_flags, length_mem_write]

theorem length_settings_init_default (B : Build) :
    (settings_init_default B).bytes.length = 374 := by
  rw [settings_init_default_eq]
  apply length_init_record
  rw [length_init_flag]
  exact length_init_chain _ _ _

/-- The record of `settings_init_default` is a record of bytes when the default strings are
strings of bytes. -/
theorem settings_init_default_WF (B : Build) (hs : ∀ b ∈ B.DEFAULT_SSID, b < 256)
    (hp : ∀ b ∈ B.DEFAULT_PASS, b < 256) (hn : ∀ b ∈ B.DEFAULT_NTP_SERVER, b < 256) :
    (settings_init_default B).WF := by
  refine ⟨length_settings_init_default B, ?_⟩
  rw [settings_init_default_fields]
  intro b hb
  simp only [settings_t.of_fields, List.mem_append] at hb
  rcases hb with ((((((((((((hb | hb) | hb) | hb) | hb) | hb) | hb) | hb) | hb) | hb) | hb) | hb)
    | hb) | hb
  · exact mem_le32_lt _ b hb
  · exact mem_le16_lt _ b hb
  · exact mem_le16_lt _ b hb
  · exact mem_c_string_lt _ _ (mem_c_str_take_lt _ _ hs) b hb
  · exact mem_c_string_lt _ _ (mem_c_str_take_lt _ _ hp) b hb
  · simp only [List.mem_cons, List.mem_singleton, List.not_mem_nil, or_false] at hb
    rcases hb with hb | hb | hb | hb
    · omega
    · rw [hb]; split <;> decide
    · omega
    · omega
  · exact mem_le16_lt _ b hb
  · exact mem_le16_lt _ b hb
  · exact mem_c_string_lt _ _ (mem_c_str_take_lt _ _ hn) b hb
  · exact mem_c_string_lt _ _ (by intro x hx; cases hx) b hb
  · exact mem_c_string_lt _ _ (by intro x hx; cases hx) b hb
  · exact mem_c_string_lt _ _ (by intro x hx; cases hx) b hb
  · exact mem_le16_lt _ b hb
  · exact mem_le32_lt _ b hb

/-- The checksum member of the record of `settings_init_default` is the checksum of its
first 370 bytes. -/
theorem settings_init_default_crc32 (B : Build) (hs : ∀ b ∈ B.DEFAULT_SSID, b < 256)
    (hp : ∀ b ∈ B.DEFAULT_PASS, b < 256) (hn : ∀ b ∈ B.DEFAULT_NTP_SERVER, b < 256) :
    (settings_init_default B).crc32
      = calculate_crc32 (some (settings_init_default B).bytes) 370 := by
  have hwf := settings_init_default_WF B hs hp hn
  have hc : calculate_crc32 (some (settings_init_default B).bytes) 370 < 2 ^ 32 :=
    calculate_crc32_lt _ _ hwf.2
  rw [settings_init_default_eq] at hc ⊢
  have hcg := calculate_crc32_congr _ _ 370 (mem_read_set_crc32
    (init_flag B (init_chain (snprintf_s WIFI_SSID_MAX_LEN B.DEFAULT_SSID)
      (snprintf_s WIFI_PASS_MAX_LEN B.DEFAULT_PASS)
      (snprintf_s NTP_SERVER_MAX_LEN B.DEFAULT_NTP_SERVER)))
    (calculate_crc32
      (some (init_flag B (init_chain (snprintf_s WIFI_SSID_MAX_LEN B.DEFAULT_SSID)
        (snprintf_s WIFI_PASS_MAX_LEN B.DEFAULT_PASS)
        (snprintf_s NTP_SERVER_MAX_LEN B.DEFAULT_NTP_SERVER))).bytes)
      (sizeof_settings_t - 4)))
  rw [hcg] at hc ⊢
  have hl : (init_flag B (init_chain (snprintf_s WIFI_SSID_MAX_LEN B.DEFAULT_SSID)
      (snprintf_s WIFI_PASS_MAX_LEN B.DEFAULT_PASS)
      (snprintf_s NTP_SERVER_MAX_LEN B.DEFAULT_NTP_SERVER))).bytes.length
      = sizeof_settings_t := by
    rw [length_init_flag]; exact length_init_chain _ _ _
  exact crc32_set_crc32 _ _ hl hc

/-- The members of the record of `settings_init_default`, read through the accessors. -/
theorem settings_init_default_members (B : Build) :
    (settings_init_default B).magic = SETTINGS_MAGIC
      ∧ (settings_init_default B).version = SETTINGS_VERSION
      ∧ (settings_init_default B).size = 374
      ∧ (settings_init_default B).wifi_ssid
          = c_string WIFI_SSID_MAX_LEN ((c_str B.DEFAULT_SSID).take (WIFI_SSID_MAX_LEN - 1))
      ∧ (settings_init_default B).wifi_pass
          = c_string WIFI_PASS_MAX_LEN ((c_str B.DEFAULT_PASS).take (WIFI_PASS_MAX_LEN - 1))
      ∧ (settings_init_default B).brightness = 50
      ∧ (settings_init_default B).flags
          = (if B.ENCRYPT_WIFI_PASS = true then FLAG_SETTINGS_ENCRYPTED else 0)
      ∧ (settings_init_default B).night_off_hour = 22
      ∧ (settings_init_default B).night_on_hour = 6
      ∧ (settings_init_default B).anim_flags = 0
      ∧ (settings_init_default B).anim_lags_period_s = 5
      ∧ (settings_init_default B).ntp_servers 0
          = c_string NTP_SERVER_MAX_LEN
              ((c_str B.DEFAULT_NTP_SERVER).take (NTP_SERVER_MAX_LEN - 1))
      ∧ (settings_init_default B).ntp_servers 1 = List.replicate NTP_SERVER_MAX_LEN 0
      ∧ (settings_init_default B).ntp_servers 2 = List.replicate NTP_SERVER_MAX_LEN 0
      ∧ (settings_init_default B).ntp_servers 3 = List.replicate NTP_SERVER_MAX_LEN 0
      ∧ (settings_init_default B).ntp_sync_period_minutes = 60 := by
  have h1 := length_snprintf_s WIFI_SSID_MAX_LEN B.DEFAULT_SSID (by decide)
  have h2 := length_snprintf_s WIFI_PASS_MAX_LEN B.DEFAULT_PASS (by decide)
  have h3 := length_snprintf_s NTP_SERVER_MAX_LEN B.DEFAULT_NTP_SERVER (by decide)
  obtain ⟨s1, s2, s3, s4, s5, s6, s7, s8, s9, s10, s11, s12, s13, s14, s15, s16, _⟩ :=
    init_record_slices B _ _ _ h1 h2 h3
      (calculate_crc32
        (some (init_flag B (init_chain (snprintf_s WIFI_SSID_MAX_LEN B.DEFAULT_SSID)
          (snprintf_s WIFI_PASS_MAX_LEN B.DEFAULT_PASS)
          (snprintf_s NTP_SERVER_MAX_LEN B.DEFAULT_NTP_SERVER))).bytes)
        (sizeof_settings_t - 4))
  rw [← settings_init_default_eq] at s1 s2 s3 s4 s5 s6 s7 s8 s9 s10 s11 s12 s13 s14 s15 s16
  have p1 := snprintf_s_padded WIFI_SSID_MAX_LEN B.DEFAULT_SSID (by decide)
  have p2 := snprintf_s_padded WIFI_PASS_MAX_LEN B.DEFAULT_PASS (by decide)
  have p3 := snprintf_s_padded NTP_SERVER_MAX_LEN B.DEFAULT_NTP_SERVER (by decide)
  refine ⟨?_, ?_, ?_, ?_, ?_, ?_, ?_, ?_, ?_, ?_, ?_, ?_, ?_, ?_, ?_, ?_⟩
  · show rd32 _ 0 = _
    rw [rd32_of_slice, s1]; rfl
  · show rd16 _ 4 = _
    rw [rd16_of_slice, s2]; rfl
  · show rd16 _ 6 = _
    rw [rd16_of_slice, s3]; rfl
  · exact s4.trans p1
  · exact s5.trans p2
  · show List.getD _ 104 0 = _
    rw [getD_of_slice, s6]; rfl
  · show List.getD _ 105 0 = _
    rw [getD_of_slice, s7]; rfl
  · show List.getD _ 106 0 = _
    rw [getD_of_slice, s8]; rfl
  · show List.getD _ 107 0 = _
    rw [getD_of_slice, s9]; rfl
  · show rd16 _ 108 = _
    rw [rd16_of_slice, s10]; rfl
  · show rd16 _ 110 = _
    rw [rd16_of_slice, s11]; rfl
  · exact s12.trans p3
  · exact s13
  · exact s14
  · exact s15
  · show rd16 _ 368 = _
    rw [rd16_of_slice, s16]; rfl

/-- The record of `settings_init_default` passes the checks of `settings_save`. -/
theorem settings_init_default_checks (B : Build) :
    settings_save_checks (settings_init_default B) = true := by
  obtain ⟨m1, m2, m3, m4, m5, m6, _, m8, m9, _, _, m12, m13, m14, m15, _⟩ :=
    settings_init_default_members B
  rw [settings_save_checks_iff _ (length_settings_init_default B)]
  refine ⟨m1, m2, m3, ?_, ?_, ?_, ?_, ?_, ?_⟩
  · rw [m6]; decide
  · rw [m8]; decide
  · rw [m9]; decide
  · rw [m4, strlen_c_string _ _ (c_str_take_no_nul _ _)]
    all_goals simp only [List.length_take, WIFI_SSID_MAX_LEN]; omega
  · rw [m5, strlen_c_string _ _ (c_str_take_no_nul _ _)]
    all_goals simp only [List.length_take, WIFI_PASS_MAX_LEN]; omega
  · intro i hi
    have hi' : i < 4 := hi
    have hz : strlen (List.replicate NTP_SERVER_MAX_LEN 0) < NTP_SERVER_MAX_LEN := by decide
    rcases (by omega : i = 0 ∨ i = 1 ∨ i = 2 ∨ i = 3) with h | h | h | h
    · rw [h, m12, strlen_c_string _ _ (c_str_take_no_nul _ _)]
      all_goals simp only [List.length_take, NTP_SERVER_MAX_LEN]; omega
    · rw [h, m13]; exact hz
    · rw [h, m14]; exact hz
    · rw [h, m15]; exact hz

/-! ## Records that come back byte for byte -/

theorem le32_rd32 (l : List Nat) (o : Nat) (h : ∀ b ∈ l, b < 256) :
    le32 (rd32 l o) = mem_slice l o 4 := by
  have h0 := getD_lt_256 l o h
  have h1 := getD_lt_256 l (o + 1) h
  have h2 := getD_lt_256 l (o + 2) h
  have h3 := getD_lt_256 l (o + 3) h
  show _ = [l.getD o 0, l.getD (o + 1) 0, l.getD (o + 2) 0, l.getD (o + 3) 0]
  unfold le32 rd32
  congr 1
  · omega
  · congr 1
    · omega
    · congr 1
      · omega
      · congr 1
        omega

theorem set_crc32_self (x : settings_t) (h : ∀ b ∈ x.bytes, b < 256) :
    x.set_crc32 x.crc32 = x := by
  unfold settings_t.set_crc32 settings_t.crc32
  rw [le32_rd32 _ _ h, mem_write_mem_slice_self]

theorem set_wifi_pass_self (x : settings_t) : x.set_wifi_pass x.wifi_pass = x := by
  unfold settings_t.set_wifi_pass settings_t.wifi_pass
  rw [mem_write_mem_slice_self]

/-- Saving and loading a valid record whose checksum member is current and whose password
the filter leaves as it is: the record loaded is the record saved. -/
theorem settings_save_load_exact (B : Build) (dev : FlashDevice) (R cfg : settings_t)
    (flash_offset : Nat) (flash : Flash) (hsec : sizeof_settings_t ≤ B.FLASH_SECTOR_SIZE)
    (hdev : FaultFree B dev) (hal : flash_offset % B.FLASH_SECTOR_SIZE = 0)
    (hin : flash_offset < B.PICO_FLASH_SIZE_BYTES) (hwf : R.WF)
    (hval : settings_save_checks R = true)
    (hcrc : R.crc32 = calculate_crc32 (some R.bytes) (sizeof_settings_t - 4))
    (hid : xor_wifi_pass B R.wifi_pass WIFI_PASS_MAX_LEN = R.wifi_pass) :
    settings_load B cfg flash_offset (settings_save B dev R flash_offset flash).2
      = (true, R) := by
  obtain ⟨_, _, hl⟩ := settings_save_load B dev R cfg flash_offset flash hsec hdev hal hin
    hwf hval
  have hP : ∀ x : settings_t, xor_wifi_pass B x.wifi_pass WIFI_PASS_MAX_LEN = x.wifi_pass →
      (if x.flags &&& FLAG_SETTINGS_ENCRYPTED ≠ 0 then
        x.set_wifi_pass (xor_wifi_pass B x.wifi_pass WIFI_PASS_MAX_LEN) else x) = x := by
    intro x hx
    split
    · rw [hx, set_wifi_pass_self]
    · rfl
  have hT : settings_save_temp B R = R := by
    unfold settings_save_temp
    simp only []
    rw [hP R hid, ← hcrc, set_crc32_self R hwf.2]
  rw [hl, hT, hP R hid]

theorem xor_wifi_pass_disabled (B : Build) (p : List Nat) (len : Nat)
    (hB : B.ENCRYPT_WIFI_PASS = false) : xor_wifi_pass B p len = p := by
  simp [xor_wifi_pass, hB]

theorem getD_wifi_pass (x : settings_t) (i : Nat) (h1 : 40 ≤ i) (h2 : i < 104) :
    x.bytes.getD i 0 = x.wifi_pass.getD (i - 40) 0 := by
  have e := getD_mem_slice x.bytes 40 64 (i - 40)
  rw [if_pos (by omega), show 40 + (i - 40) = i by omega] at e
  exact e.symm

/-- The payload of the record loaded after a save is the payload of the record saved when
the password came back. -/
theorem settings_save_load_payload (B : Build) (dev : FlashDevice) (R cfg : settings_t)
    (flash_offset : Nat) (flash : Flash) (hsec : sizeof_settings_t ≤ B.FLASH_SECTOR_SIZE)
    (hdev : FaultFree B dev) (hal : flash_offset % B.FLASH_SECTOR_SIZE = 0)
    (hin : flash_offset < B.PICO_FLASH_SIZE_BYTES) (hwf : R.WF)
    (hval : settings_save_checks R = true)
    (hpass : (settings_load B cfg flash_offset
        (settings_save B dev R flash_offset flash).2).2.wifi_pass = R.wifi_pass) :
    mem_read (settings_load B cfg flash_offset
        (settings_save B dev R flash_offset flash).2).2.bytes 370
      = mem_read R.bytes 370 := by
  obtain ⟨_, _, hl⟩ := settings_save_load B dev R cfg flash_offset flash hsec hdev hal hin
    hwf hval
  obtain ⟨_, hsame, _, _⟩ := settings_save_temp_props B R hwf
  have hflags : (settings_save_temp B R).flags = R.flags := hsame.2.2.2.2.2.1
  rw [hl] at hpass ⊢
  simp only [] at hpass ⊢
  unfold mem_read
  apply List.map_congr_left
  intro i hi
  have hi' : i < 370 := List.mem_range.mp hi
  by_cases hmid : 40 ≤ i ∧ i < 104
  · rw [getD_wifi_pass _ i hmid.1 hmid.2, getD_wifi_pass R i hmid.1 hmid.2, hpass]
  · rw [← getD_settings_save_temp B R i hi' (by omega)]
    split
    · have hl2 : (xor_wifi_pass B (settings_save_temp B R).wifi_pass WIFI_PASS_MAX_LEN).length
          = 64 := by
        rw [length_xor_wifi_pass, length_wifi_pass]; rfl
      simp only [settings_t.set_wifi_pass]
      apply getD_mem_write_disjoint
      rw [hl2]
      show i < 40 ∨ 40 + 64 ≤ i
      omega
    · rfl

/-! ## The sector writer on a device that erases to ones and clears bits -/

theorem nor_flash_NorDevice : NorDevice nor_flash :=
  ⟨fun _ _ _ _ => rfl, fun _ _ _ _ _ => rfl⟩

theorem NorDevice_fault_free (B : Build) (dev : FlashDevice) (h : NorDevice dev) :
    FaultFree B dev := by
  intro offset data flash hlen hb i hi
  rw [h.2, h.1]
  rw [if_pos ⟨by omega, by omega⟩, if_pos ⟨by omega, by omega⟩, Nat.add_sub_cancel_left]
  have hl : i < data.length := by omega
  have e : data.getD i 0xFF = data.getD i 0 := by
    simp [List.getD_eq_getElem?_getD, List.getElem?_eq_getElem hl]
  rw [e, Nat.and_comm]
  have hd : data.getD i 0 < 256 := getD_lt_256 data i hb
  have h255 : (255 : Nat) = 2 ^ 8 - 1 := by norm_num
  rw [h255, Nat.and_pow_two_sub_one_eq_mod]
  omega

/-- The flash after `write_flash_sector` passed its two guards. -/
theorem write_flash_sector_snd (B : Build) (dev : FlashDevice) (offset : Nat)
    (data : List Nat) (len : Nat) (flash : Flash)
    (hal : offset % B.FLASH_SECTOR_SIZE = 0) (hin : offset < B.PICO_FLASH_SIZE_BYTES)
    (hlen : len ≤ B.FLASH_SECTOR_SIZE) :
    (write_flash_sector B dev offset data len flash).2
      = dev.flash_range_program offset data B.FLASH_SECTOR_SIZE
          (dev.flash_range_erase offset B.FLASH_SECTOR_SIZE flash) := by
  unfold write_flash_sector
  rw [if_neg (by omega), if_neg (by omega)]
  simp only []
  split <;> rfl

/-- Writing a sector-sized buffer of bytes through a device without faults, for every
length up to the sector size. -/
theorem write_flash_sector_fault_free_len (B : Build) (dev : FlashDevice) (offset : Nat)
    (data : List Nat) (len : Nat) (flash : Flash) (hdev : FaultFree B dev)
    (hal : offset % B.FLASH_SECTOR_SIZE = 0) (hin : offset < B.PICO_FLASH_SIZE_BYTES)
    (hlen : len ≤ B.FLASH_SECTOR_SIZE)
    (hdata : data.length = B.FLASH_SECTOR_SIZE) (hb : ∀ b ∈ data, b < 256) :
    (write_flash_sector B dev offset data len flash).1 = true
      ∧ flash_read (write_flash_sector B dev offset data len flash).2 offset
          B.FLASH_SECTOR_SIZE = data := by
  have hread : ∀ n, n ≤ B.FLASH_SECTOR_SIZE →
      flash_read (dev.flash_range_program offset data B.FLASH_SECTOR_SIZE
        (dev.flash_range_erase offset B.FLASH_SECTOR_SIZE flash)) offset n
      = mem_read data n := by
    intro n hn
    unfold flash_read mem_read
    apply List.map_congr_left
    intro i hi
    exact hdev offset data flash hdata hb i (by have := List.mem_range.mp hi; omega)
  refine ⟨?_, ?_⟩
  · unfold write_flash_sector
    rw [if_neg (by omega), if_neg (by omega)]
    simp only [hread len hlen, ne_eq, not_true_eq_false, if_false]
  · rw [write_flash_sector_snd B dev offset data len flash hal hin hlen,
      hread _ (Nat.le_refl _), ← hdata, mem_read_self]

theorem write_flash_sector_NorDevice_outside (B : Build) (dev : FlashDevice) (offset : Nat)
    (data : List Nat) (len : Nat) (flash : Flash) (hdev : NorDevice dev) (a : Nat)
    (ha : a < offset ∨ offset + B.FLASH_SECTOR_SIZE ≤ a) :
    (write_flash_sector B dev offset data len flash).2 a = flash a := by
  unfold write_flash_sector
  split
  · rfl
  · split
    · rfl
    · have e : dev.flash_range_program offset data B.FLASH_SECTOR_SIZE
          (dev.flash_range_erase offset B.FLASH_SECTOR_SIZE flash) a = flash a := by
        rw [hdev.2, hdev.1, if_neg (by omega), if_neg (by omega)]
      simp only []
      split <;> exact e

/-! ## Records with the same payload -/

theorem set_crc32_congr (x y : settings_t) (hx : x.bytes.length = 374)
    (hy : y.bytes.length = 374) (h : ∀ i, i < 370 → x.bytes.getD i 0 = y.bytes.getD i 0)
    (v : Nat) : x.set_crc32 v = y.set_crc32 v := by
  have hb : (x.set_crc32 v).bytes = (y.set_crc32 v).bytes := by
    apply list_ext_getD
    · simp only [settings_t.set_crc32, length_mem_write, hx, hy]
    · intro i hi
      simp only [settings_t.set_crc32, length_mem_write, hx] at hi
      simp only [settings_t.set_crc32]
      rw [getD_mem_write, getD_mem_write, hx, hy]
      by_cases hc : 370 ≤ i
      · have e : settings_t.off_crc32 = 370 := rfl
        rw [e, if_pos ⟨hc, by rw [length_le32]; omega, hi⟩,
          if_pos ⟨hc, by rw [length_le32]; omega, hi⟩]
      · have e : settings_t.off_crc32 = 370 := rfl
        rw [e, if_neg (by omega), if_neg (by omega)]
        exact h i (by omega)
  cases x; cases y
  simp only [settings_t.set_crc32] at hb ⊢
  rw [hb]

theorem getD_set_crc32 (x : settings_t) (v i : Nat) (hi : i < 370) :
    (x.set_crc32 v).bytes.getD i 0 = x.bytes.getD i 0 :=
  getD_mem_write_of_lt x.bytes 370 (le32 v) i hi

theorem set_wifi_pass_congr (x y : settings_t) (hx : x.bytes.length = 374)
    (hy : y.bytes.length = 374) (h : ∀ i, i < 370 → x.bytes.getD i 0 = y.bytes.getD i 0)
    (q : List Nat) (i : Nat) (hi : i < 370) :
    (x.set_wifi_pass q).bytes.getD i 0 = (y.set_wifi_pass q).bytes.getD i 0 := by
  simp only [settings_t.set_wifi_pass]
  rw [getD_mem_write, getD_mem_write, hx, hy, h i hi]

/-- The record staged by `settings_save` depends on the first 370 bytes of the caller's
record only. -/
theorem settings_save_temp_congr (B : Build) (x y : settings_t) (hx : x.bytes.length = 374)
    (hy : y.bytes.length = 374) (h : ∀ i, i < 370 → x.bytes.getD i 0 = y.bytes.getD i 0) :
    settings_save_temp B x = settings_save_temp B y := by
  have hflags : x.flags = y.flags := h 105 (by decide)
  have hpass : x.wifi_pass = y.wifi_pass := by
    unfold settings_t.wifi_pass mem_slice
    apply List.map_congr_left
    intro i hi
    have hi' : i < 64 := List.mem_range.mp hi
    exact h _ (by show 40 + i < 370; omega)
  have hP : ∀ i, i < 370 →
      (if x.flags &&& FLAG_SETTINGS_ENCRYPTED ≠ 0 then
        x.set_wifi_pass (xor_wifi_pass B x.wifi_pass WIFI_PASS_MAX_LEN) else x).bytes.getD i 0
      = (if y.flags &&& FLAG_SETTINGS_ENCRYPTED ≠ 0 then
        y.set_wifi_pass (xor_wifi_pass B y.wifi_pass WIFI_PASS_MAX_LEN) else y).bytes.getD i 0 := by
    intro i hi
    rw [hflags, hpass]
    split
    · exact set_wifi_pass_congr x y hx hy h _ i hi
    · exact h i hi
  have hlen : ∀ z : settings_t, z.bytes.length = 374 →
      (if z.flags &&& FLAG_SETTINGS_ENCRYPTED ≠ 0 then
        z.set_wifi_pass (xor_wifi_pass B z.wifi_pass WIFI_PASS_MAX_LEN) else z).bytes.length
      = 374 := by
    intro z hz
    split
    · simp only [settings_t.set_wifi_pass, length_mem_write]; exact hz
    · exact hz
  have hcrc : calculate_crc32
      (some (if x.flags &&& FLAG_SETTINGS_ENCRYPTED ≠ 0 then
        x.set_wifi_pass (xor_wifi_pass B x.wifi_pass WIFI_PASS_MAX_LEN) else x).bytes)
      (sizeof_settings_t - 4)
      = calculate_crc32
      (some (if y.flags &&& FLAG_SETTINGS_ENCRYPTED ≠ 0 then
        y.set_wifi_pass (xor_wifi_pass B y.wifi_pass WIFI_PASS_MAX_LEN) else y).bytes)
      (sizeof_settings_t - 4) := by
    apply calculate_crc32_congr
    unfold mem_read
    apply List.map_congr_left
    intro i hi
    exact hP i (List.mem_range.mp hi)
  unfold settings_save_temp
  simp only []
  rw [hcrc]
  exact set_crc32_congr _ _ (hlen x hx) (hlen y hy) hP _

/-! ## Evaluation of the concrete inputs -/

theorem default_record_length : default_record.bytes.length = 374 := by decide!

theorem default_record_crc :
    calculate_crc32 (some default_record.bytes) 370 = 0x4157F8E9 := by
  rw [calculate_crc32_eq_take _ _ (by decide) (by decide!)]
  decide!

theorem default_flash_read : flash_read default_flash FLASH_OFFSET 374 = default_record.bytes := by
  have h := flash_read_flash_put blank_flash FLASH_OFFSET default_record.bytes
  rw [default_record_length] at h
  exact h

theorem default_flash_accepted :
      (FLASH_OFFSET % (pico_build true).FLASH_SECTOR_SIZE = 0
        ∧ FLASH_OFFSET < (pico_build true).PICO_FLASH_SIZE_BYTES
        ∧ ¬ (∀ i, i < 374 → default_flash (FLASH_OFFSET + i) = 0xFF)
        ∧ rd32 (flash_read default_flash FLASH_OFFSET 374) 0 = 0xCAFE0000
        ∧ rd16 (flash_read default_flash FLASH_OFFSET 374) 4 = 0x0100
        ∧ rd16 (flash_read default_flash FLASH_OFFSET 374) 6 = 374
        ∧ rd32 (flash_read default_flash FLASH_OFFSET 374) 370
            = calculate_crc32 (some (flash_read default_flash FLASH_OFFSET 374)) 370) := by
  rw [default_flash_read, default_record_crc]
  exact ⟨by decide, by decide, fun h => absurd (h 0 (by decide)) (by decide!), by decide!,
    by decide!, by decide!, by decide!⟩


theorem default_record_WF : default_record.WF := by decide!

theorem default_flash_byte (a : Nat) : default_flash a < 256 := by
  unfold default_flash flash_put
  split
  · exact getD_lt_256 _ _ default_record_WF.2
  · simp [blank_flash]

theorem default_flash_loads (cfg : settings_t) :
    (settings_load (pico_build true) cfg FLASH_OFFSET default_flash).1 = true := by
  rw [settings_load_fst_iff]
  have hsz : sizeof_settings_t = 374 := rfl
  rw [hsz, default_flash_read, show (374 - 4 : Nat) = 370 from rfl, default_record_crc]
  exact ⟨by decide, by decide, by decide!, by decide!, by decide!, by decide!, by decide!⟩

theorem record_edge_case_WF : record_edge_case.WF := by decide!

theorem record_edge_case_checks : settings_save_checks record_edge_case = true := by decide!

theorem record_edge_case_plain_crc :
    calculate_crc32 (some record_edge_case.bytes) 370 = 0xF2CE79B1 := by
  rw [calculate_crc32_eq_take _ _ (by decide) (by decide!)]
  decide!

theorem record_edge_case_payload :
    calculate_crc32
      (some (if record_edge_case.flags &&& FLAG_SETTINGS_ENCRYPTED ≠ 0 then
        record_edge_case.set_wifi_pass
          (xor_wifi_pass (pico_build true) record_edge_case.wifi_pass WIFI_PASS_MAX_LEN)
        else record_edge_case).bytes) 370 = 0xBB2D6B07 := by
  rw [if_pos (by decide!), calculate_crc32_eq_take _ _ (by decide) (by decide!)]
  decide!

theorem record_stale_crc_WF : record_stale_crc.WF := by decide!

theorem record_stale_crc_checks : settings_save_checks record_stale_crc = true := by decide!

theorem record_stale_crc_payload :
    calculate_crc32
      (some (if record_stale_crc.flags &&& FLAG_SETTINGS_ENCRYPTED ≠ 0 then
        record_stale_crc.set_wifi_pass
          (xor_wifi_pass (pico_build false) record_stale_crc.wifi_pass WIFI_PASS_MAX_LEN)
        else record_stale_crc).bytes) 370 = 0x4A0CAFCC := by
  rw [if_neg (by decide!), calculate_crc32_eq_take _ _ (by decide) (by decide!)]
  decide!

theorem settings_init_default_pico :
    settings_init_default (pico_build true) = default_record := by
  have h := settings_init_default_fields (pico_build true)
  rw [settings_init_default_crc_arg, settings_init_default_crc_value] at h
  have e1 : (c_str (pico_build true).DEFAULT_SSID).take 31 = ascii_VFDClock := by decide
  have e2 : (c_str (pico_build true).DEFAULT_PASS).take 63 = ascii_password := by decide
  have e3 : (c_str (pico_build true).DEFAULT_NTP_SERVER).take 63 = ascii_pool_ntp_org := by
    decide
  rw [e1, e2, e3] at h
  have hc : calculate_crc32
      (some (settings_t.of_fields SETTINGS_MAGIC SETTINGS_VERSION 374 ascii_VFDClock
        ascii_password 50 (if (pico_build true).ENCRYPT_WIFI_PASS = true then 4 else 0)
        22 6 0 5 ascii_pool_ntp_org [] [] [] 60 0).bytes) 370 = 0x4157F8E9 := by
    rw [calculate_crc32_eq_take _ _ (by decide) (by decide!)]
    decide!
  rw [hc] at h
  exact h

theorem settings_init_default_pico_plain :
    settings_init_default (pico_build false) = default_record_plain := by
  have h := settings_init_default_fields (pico_build false)
  rw [settings_init_default_crc_arg, settings_init_default_crc_value] at h
  have e1 : (c_str (pico_build false).DEFAULT_SSID).take 31 = ascii_VFDClock := by decide
  have e2 : (c_str (pico_build false).DEFAULT_PASS).take 63 = ascii_password := by decide
  have e3 : (c_str (pico_build false).DEFAULT_NTP_SERVER).take 63 = ascii_pool_ntp_org := by
    decide
  rw [e1, e2, e3] at h
  have hc : calculate_crc32
      (some (settings_t.of_fields SETTINGS_MAGIC SETTINGS_VERSION 374 ascii_VFDClock
        ascii_password 50 (if (pico_build false).ENCRYPT_WIFI_PASS = true then 4 else 0)
        22 6 0 5 ascii_pool_ntp_org [] [] [] 60 0).bytes) 370 = 0x57B2C62B := by
    rw [calculate_crc32_eq_take _ _ (by decide) (by decide!)]
    decide!
  rw [hc] at h
  exact h

theorem settings_init_default_secret :
    settings_init_default secret_build = default_record_secret := by
  have h := settings_init_default_fields secret_build
  rw [settings_init_default_crc_arg, settings_init_default_crc_value] at h
  have e1 : (c_str secret_build.DEFAULT_SSID).take 31 = ascii_VFDClock := by decide
  have e2 : (c_str secret_build.DEFAULT_PASS).take 63 = ascii_SecretPass123 := by decide
  have e3 : (c_str secret_build.DEFAULT_NTP_SERVER).take 63 = ascii_pool_ntp_org := by
    decide
  rw [e1, e2, e3] at h
  have hc : calculate_crc32
      (some (settings_t.of_fields SETTINGS_MAGIC SETTINGS_VERSION 374 ascii_VFDClock
        ascii_SecretPass123 50 (if secret_build.ENCRYPT_WIFI_PASS = true then 4 else 0)
        22 6 0 5 ascii_pool_ntp_org [] [] [] 60 0).bytes) 370 = 0xD1710AB0 := by
    rw [calculate_crc32_eq_take _ _ (by decide) (by decide!)]
    decide!
  rw [hc] at h
  exact h

theorem default_record_secret_payload :
    calculate_crc32
      (some (if default_record_secret.flags &&& FLAG_SETTINGS_ENCRYPTED ≠ 0 then
        default_record_secret.set_wifi_pass
          (xor_wifi_pass secret_build default_record_secret.wifi_pass WIFI_PASS_MAX_LEN)
        else default_record_secret).bytes) 370 = 0x55E401DF := by
  rw [if_pos (by decide!), calculate_crc32_eq_take _ _ (by decide) (by decide!)]
  decide!

theorem default_record_secret_WF : default_record_secret.WF := by decide!

theorem default_record_secret_checks : settings_save_checks default_record_secret = true := by
  decide!

theorem default_record_secret_crc :
    calculate_crc32 (some default_record_secret.bytes) 370 = 0xD1710AB0 := by
  rw [calculate_crc32_eq_take _ _ (by decide) (by decide!)]
  decide!

/-! ## Claims -/

/-- The checksum member of the record loaded after a save: the checksum of the staged
payload, in which the password is filtered when the flag is set. -/
theorem settings_save_load_crc32 (B : Build) (dev : FlashDevice) (R cfg : settings_t)
    (flash_offset : Nat) (flash : Flash) (hsec : sizeof_settings_t ≤ B.FLASH_SECTOR_SIZE)
    (hdev : FaultFree B dev) (hal : flash_offset % B.FLASH_SECTOR_SIZE = 0)
    (hin : flash_offset < B.PICO_FLASH_SIZE_BYTES) (hwf : R.WF)
    (hval : settings_save_checks R = true) :
    (settings_load B cfg flash_offset (settings_save B dev R flash_offset flash).2).2.crc32
      = calculate_crc32
          (some (if R.flags &&& FLAG_SETTINGS_ENCRYPTED ≠ 0 then
            R.set_wifi_pass (xor_wifi_pass B R.wifi_pass WIFI_PASS_MAX_LEN) else R).bytes) 370 := by
  obtain ⟨_, hread, _⟩ := settings_save_load B dev R cfg flash_offset flash hsec hdev hal hin
    hwf hval
  obtain ⟨_, _, _, hcrc, _⟩ := settings_save_load_fields B dev R cfg flash_offset flash hsec hdev
    hal hin hwf hval
  rw [hcrc, hread]
  exact calculate_crc32_congr _ _ _ (mem_read_set_crc32 _ _)

/-- C1 (amended): on a device without faults and at an aligned offset inside the flash,
`settings_save` of a record that passes its checks followed by `settings_load` returns true
twice, and the record loaded equals the record saved in magic, version, size, wifi_ssid,
brightness, flags, night_off_hour, night_on_hour, anim_flags, anim_lags_period_s, the four
ntp_servers and ntp_sync_period_minutes.  Its crc32 is the checksum of the 370 payload
bytes now in the flash.  Its wifi_pass equals the one saved, byte for byte, when the filter
is disabled, or the flag FLAG_SETTINGS_ENCRYPTED is clear, or no character of the password
is its own key byte. -/
theorem settings_save_load_round_trip (B : Build) (dev : FlashDevice) (R cfg : settings_t)
    (flash_offset : Nat) (flash : Flash) (hsec : sizeof_settings_t ≤ B.FLASH_SECTOR_SIZE)
    (hdev : FaultFree B dev) (hal : flash_offset % B.FLASH_SECTOR_SIZE = 0)
    (hin : flash_offset < B.PICO_FLASH_SIZE_BYTES) (hwf : R.WF)
    (hval : settings_save_checks R = true) :
    (settings_save B dev R flash_offset flash).1 = true
      ∧ (settings_load B cfg flash_offset (settings_save B dev R flash_offset flash).2).1 = true
      ∧ (settings_load B cfg flash_offset (settings_save B dev R flash_offset flash).2).2.magic
          = R.magic
      ∧ (settings_load B cfg flash_offset (settings_save B dev R flash_offset flash).2).2.version
          = R.version
      ∧ (settings_load B cfg flash_offset (settings_save B dev R flash_offset flash).2).2.size
          = R.size
      ∧ (settings_load B cfg flash_offset (settings_save B dev R flash_offset flash).2).2.wifi_ssid
          = R.wifi_ssid
      ∧ (settings_load B cfg flash_offset (settings_save B dev R flash_offset flash).2).2.brightness
          = R.brightness
      ∧ (settings_load B cfg flash_offset (settings_save B dev R flash_offset flash).2).2.flags
          = R.flags
      ∧ (settings_load B cfg flash_offset (settings_save B dev R flash_offset flash).2).2.night_off_hour
          = R.night_off_hour
      ∧ (settings_load B cfg flash_offset (settings_save B dev R flash_offset flash).2).2.night_on_hour
          = R.night_on_hour
      ∧ (settings_load B cfg flash_offset (settings_save B dev R flash_offset flash).2).2.anim_flags
          = R.anim_flags
      ∧ (settings_load B cfg flash_offset (settings_save B dev R flash_offset flash).2).2.anim_lags_period_s
          = R.anim_lags_period_s
      ∧ (∀ i, i < 4 →
          (settings_load B cfg flash_offset (settings_save B dev R flash_offset flash).2).2.ntp_servers i
            = R.ntp_servers i)
      ∧ (settings_load B cfg flash_offset (settings_save B dev R flash_offset flash).2).2.ntp_sync_period_minutes
          = R.ntp_sync_period_minutes
      ∧ (settings_load B cfg flash_offset (settings_save B dev R flash_offset flash).2).2.crc32
          = calculate_crc32
              (some (flash_read (settings_save B dev R flash_offset flash).2 flash_offset 374))
              370
      ∧ ((B.ENCRYPT_WIFI_PASS = false ∨ R.flags &&& FLAG_SETTINGS_ENCRYPTED = 0
            ∨ ∀ i, i < strlen R.wifi_pass → R.wifi_pass.getD i 0 ≠ xor_key i) →
          (settings_load B cfg flash_offset (settings_save B dev R flash_offset flash).2).2.wifi_pass
            = R.wifi_pass) := by
  obtain ⟨hs, hl, hsame, hcrc, hpass⟩ := settings_save_load_fields B dev R cfg flash_offset flash
    hsec hdev hal hin hwf hval
  obtain ⟨h1, h2, h3, h4, h5, h6, h7, h8, h9, h10, h11, h12⟩ := hsame
  refine ⟨hs, hl, h1, h2, h3, h4, h5, h6, h7, h8, h9, h10, h11, h12, hcrc, ?_⟩
  intro hcase
  rw [hpass]
  by_cases hf : R.flags &&& FLAG_SETTINGS_ENCRYPTED = 0
  · rw [if_neg (by simpa using hf)]
  · rw [if_pos hf]
    rcases hcase with hB | hz | hnc
    · simp [xor_wifi_pass, hB]
    · exact absurd hz hf
    · have hstr : strlen R.wifi_pass < WIFI_PASS_MAX_LEN :=
        ((settings_save_checks_iff R hwf.1).mp hval).2.2.2.2.2.2.2.1
      exact xor_wifi_pass_twice B R.wifi_pass (length_wifi_pass R)
        (mem_mem_slice_lt _ _ _ hwf.2) hstr hnc

/-- Witness of C1: the record of test 2 in a build with the filter, saved to an erased NOR
flash; none of the 63 characters of its password is its own key byte. -/
theorem settings_save_load_round_trip_witness :
    record_edge_case.WF ∧ settings_save_checks record_edge_case = true
      ∧ (settings_save (pico_build true) nor_flash record_edge_case FLASH_OFFSET blank_flash).1
          = true
      ∧ (settings_load (pico_build true) default_record FLASH_OFFSET
          (settings_save (pico_build true) nor_flash record_edge_case FLASH_OFFSET blank_flash).2).1 = true
      ∧ (settings_load (pico_build true) default_record FLASH_OFFSET
          (settings_save (pico_build true) nor_flash record_edge_case FLASH_OFFSET blank_flash).2).2.wifi_pass
          = record_edge_case.wifi_pass :=
  have h := settings_save_load_round_trip (pico_build true) nor_flash record_edge_case
    default_record FLASH_OFFSET blank_flash (by decide) (nor_flash_fault_free _) (by decide)
    (by decide) record_edge_case_WF record_edge_case_checks
  ⟨record_edge_case_WF, record_edge_case_checks, h.1, h.2.1,
    h.2.2.2.2.2.2.2.2.2.2.2.2.2.2.2 (Or.inr (Or.inr (by decide!)))⟩

/-- Counterexample to C1 as stated: the crc32 member does not come back.  With the filter
disabled, a record whose crc32 is stale is saved and loaded with success and comes back with
another crc32; with the filter enabled, the record of test 2, whose crc32 the caller
computed over the record in memory, comes back with the checksum of the filtered
payload. -/
theorem settings_save_load_round_trip_counterexample :
    (record_stale_crc.WF ∧ settings_save_checks record_stale_crc = true
      ∧ (settings_save (pico_build false) nor_flash record_stale_crc FLASH_OFFSET
          blank_flash).1 = true
      ∧ (settings_load (pico_build false) default_record FLASH_OFFSET
          (settings_save (pico_build false) nor_flash record_stale_crc FLASH_OFFSET blank_flash).2).1 = true
      ∧ (settings_load (pico_build false) default_record FLASH_OFFSET
          (settings_save (pico_build false) nor_flash record_stale_crc FLASH_OFFSET blank_flash).2).2.crc32
          ≠ record_stale_crc.crc32)
    ∧ (record_edge_case.WF ∧ settings_save_checks record_edge_case = true
      ∧ record_edge_case.crc32 = calculate_crc32 (some record_edge_case.bytes) 370
      ∧ (settings_save (pico_build true) nor_flash record_edge_case FLASH_OFFSET
          blank_flash).1 = true
      ∧ (settings_load (pico_build true) default_record FLASH_OFFSET
          (settings_save (pico_build true) nor_flash record_edge_case FLASH_OFFSET blank_flash).2).1 = true
      ∧ (settings_load (pico_build true) default_record FLASH_OFFSET
          (settings_save (pico_build true) nor_flash record_edge_case FLASH_OFFSET blank_flash).2).2.crc32
          ≠ record_edge_case.crc32) := by
  have h1 := settings_save_load_fields (pico_build false) nor_flash record_stale_crc
    default_record FLASH_OFFSET blank_flash (by decide) (nor_flash_fault_free _) (by decide)
    (by decide) record_stale_crc_WF record_stale_crc_checks
  have c1 := settings_save_load_crc32 (pico_build false) nor_flash record_stale_crc
    default_record FLASH_OFFSET blank_flash (by decide) (nor_flash_fault_free _) (by decide)
    (by decide) record_stale_crc_WF record_stale_crc_checks
  have h2 := settings_save_load_fields (pico_build true) nor_flash record_edge_case
    default_record FLASH_OFFSET blank_flash (by decide) (nor_flash_fault_free _) (by decide)
    (by decide) record_edge_case_WF record_edge_case_checks
  have c2 := settings_save_load_crc32 (pico_build true) nor_flash record_edge_case
    default_record FLASH_OFFSET blank_flash (by decide) (nor_flash_fault_free _) (by decide)
    (by decide) record_edge_case_WF record_edge_case_checks
  refine ⟨⟨record_stale_crc_WF, record_stale_crc_checks, h1.1, h1.2.1, ?_⟩,
    ⟨record_edge_case_WF, record_edge_case_checks, ?_, h2.1, h2.2.1, ?_⟩⟩
  · rw [c1, record_stale_crc_payload]
    decide!
  · rw [record_edge_case_plain_crc]
    decide!
  · rw [c2, record_edge_case_payload]
    decide!

/-- C2, the code at a failing input: with the filter enabled and the flag set, the valid
record whose password is "MyHomeNetworkPassphrase-Secret2024" is saved and loaded with
success, and the password loaded is the string of the first 25 characters only.  The
character at index 25 equals its key byte, so the stored byte is NUL and `strnlen` in
`settings_load` ends the filtered range there. -/
theorem settings_password_round_trip_fails :
    record_passphrase.WF ∧ settings_save_checks record_passphrase = true
      ∧ record_passphrase.flags &&& FLAG_SETTINGS_ENCRYPTED ≠ 0
      ∧ c_str record_passphrase.wifi_pass = ascii_passphrase
      ∧ (∀ c ∈ ascii_passphrase, c ≠ 0) ∧ ascii_passphrase.length = 34
      ∧ (settings_save (pico_build true) nor_flash record_passphrase FLASH_OFFSET
          blank_flash).1 = true
      ∧ (settings_load (pico_build true) default_record FLASH_OFFSET
          (settings_save (pico_build true) nor_flash record_passphrase FLASH_OFFSET blank_flash).2).1 = true
      ∧ c_str (settings_load (pico_build true) default_record FLASH_OFFSET
          (settings_save (pico_build true) nor_flash record_passphrase FLASH_OFFSET blank_flash).2).2.wifi_pass
          = ascii_passphrase.take 25
      ∧ c_str (settings_load (pico_build true) default_record FLASH_OFFSET
          (settings_save (pico_build true) nor_flash record_passphrase FLASH_OFFSET blank_flash).2).2.wifi_pass
          ≠ c_str record_passphrase.wifi_pass := by
  have h := settings_save_load_fields (pico_build true) nor_flash record_passphrase
    default_record FLASH_OFFSET blank_flash (by decide) (nor_flash_fault_free _) (by decide)
    (by decide) (by decide!) (by decide!)
  obtain ⟨hs, hl, _, _, hpass⟩ := h
  rw [hpass, if_pos (by decide!)]
  exact ⟨by decide!, by decide!, by decide!, by decide!, by decide, by decide, hs, hl,
    by decide!, by decide!⟩

/-- C3: when `settings_load` accepts a sector, it rejects the sector obtained by changing one
of its first 370 bytes with a non-zero XOR mask (a single flipped bit, the mask 0xFF of
test 4, or any other). -/
theorem settings_load_rejects_changed_byte (B : Build) (cfg cfg' : settings_t)
    (flash_offset : Nat) (flash : Flash) (k mask : Nat)
    (hbytes : ∀ i, i < 374 → flash (flash_offset + i) < 256)
    (hacc : (settings_load B cfg flash_offset flash).1 = true)
    (hk : k < 370) (hmask : 0 < mask) (hmask' : mask < 256) :
    (settings_load B cfg' flash_offset (flash_xor_byte flash (flash_offset + k) mask)).1
      = false := by
  cases hacc' : (settings_load B cfg' flash_offset
      (flash_xor_byte flash (flash_offset + k) mask)).1 with
  | false => rfl
  | true =>
    exfalso
    rw [settings_load_fst_iff] at hacc hacc'
    obtain ⟨_, _, _, _, _, _, hcrc⟩ := hacc
    obtain ⟨_, _, _, _, _, _, hcrc'⟩ := hacc'
    have hsz : sizeof_settings_t = 374 := rfl
    rw [hsz, show (374 - 4 : Nat) = 370 from rfl] at hcrc hcrc'
    -- the stored trailer is the same in both sectors
    have hstored : rd32 (flash_read (flash_xor_byte flash (flash_offset + k) mask)
        flash_offset 374) 370 = rd32 (flash_read flash flash_offset 374) 370 := by
      rw [rd32_flash_read _ _ _ _ (by omega), rd32_flash_read _ _ _ _ (by omega)]
      simp only [flash_xor_byte]
      rw [if_neg (by omega), if_neg (by omega), if_neg (by omega), if_neg (by omega)]
    rw [hstored, ← hcrc, calculate_crc32_eq _ _ (by decide), calculate_crc32_eq _ _ (by decide),
      mem_read_flash_read _ _ _ _ (by omega), mem_read_flash_read _ _ _ _ (by omega)] at hcrc'
    have hfold := Nat.xor_left_injective hcrc'
    -- both messages split at the changed byte
    have h370 : 370 = k + (1 + (369 - k)) := by omega
    rw [h370, flash_read_split, flash_read_split] at hfold
    have hpre : flash_read (flash_xor_byte flash (flash_offset + k) mask) flash_offset k
        = flash_read flash flash_offset k := by
      apply flash_read_congr
      intro i hi
      simp only [flash_xor_byte]
      rw [if_neg (by omega)]
    have hpost : flash_read (flash_xor_byte flash (flash_offset + k) mask) (flash_offset + k + 1)
        (369 - k) = flash_read flash (flash_offset + k + 1) (369 - k) := by
      apply flash_read_congr
      intro i hi
      simp only [flash_xor_byte]
      rw [if_neg (by omega)]
    have hmid : flash_xor_byte flash (flash_offset + k) mask (flash_offset + k)
        = flash (flash_offset + k) ^^^ mask := by
      simp [flash_xor_byte]
    rw [hpre, hpost, hmid] at hfold
    have hb : flash (flash_offset + k) < 256 := hbytes k (by omega)
    refine crc32_fold_sensitive _ _ (flash (flash_offset + k) ^^^ mask) (flash (flash_offset + k))
      0xFFFFFFFF (by norm_num) ?_ ?_ ?_ hb ?_ hfold
    · exact mem_flash_read_lt _ _ _ (fun i hi => hbytes i (by omega))
    · apply mem_flash_read_lt
      intro i hi
      have := hbytes (k + 1 + i) (by omega)
      rwa [← Nat.add_assoc, ← Nat.add_assoc] at this
    · exact Nat.xor_lt_two_pow (n := 8) hb hmask'
    · exact (xor_mask_ne _ _ hmask).symm

/-- Witness of C3 (test 4): the sector that holds the default record, its byte 10 inverted. -/
theorem settings_load_rejects_changed_byte_witness :
    (settings_load (pico_build true) default_record FLASH_OFFSET default_flash).1 = true
      ∧ (settings_load (pico_build true) default_record FLASH_OFFSET
          (flash_xor_byte default_flash (FLASH_OFFSET + 10) 0xFF)).1 = false :=
  ⟨default_flash_loads default_record,
    settings_load_rejects_changed_byte (pico_build true) default_record default_record
      FLASH_OFFSET default_flash 10 0xFF (fun i _ => default_flash_byte (FLASH_OFFSET + i))
      (default_flash_loads default_record) (by decide) (by decide) (by decide)⟩

/-- C4: when the first `sizeof(settings_t)` bytes of the sector are all 0xFF, `settings_load`
returns false and the caller's record is what it was before the call; this holds at every
offset. -/
theorem settings_load_blank_sector (B : Build) (cfg : settings_t) (flash_offset : Nat)
    (flash : Flash)
    (hblank : ∀ i, i < sizeof_settings_t → flash (flash_offset + i) = 0xFF) :
    settings_load B cfg flash_offset flash = (false, cfg) := by
  unfold settings_load
  split
  · rfl
  · simp only [flash_read_blank flash flash_offset sizeof_settings_t hblank, if_true]

/-- Witness of C4: an erased flash, read at the offset of the test program into the default
record. -/
theorem settings_load_blank_sector_witness :
    (∀ i, i < sizeof_settings_t → blank_flash (FLASH_OFFSET + i) = 0xFF)
      ∧ settings_load (pico_build true) default_record FLASH_OFFSET blank_flash
          = (false, default_record) :=
  ⟨fun _ _ => rfl,
    settings_load_blank_sector (pico_build true) default_record FLASH_OFFSET blank_flash
      (fun _ _ => rfl)⟩

/-- C5: `settings_load` returns true exactly when the offset is a multiple of
FLASH_SECTOR_SIZE below PICO_FLASH_SIZE_BYTES, the first 374 bytes of the sector are not all
0xFF, the stored magic is 0xCAFE0000, the stored version 0x0100, the stored size 374, and
the little-endian word at bytes 370..373 is `calculate_crc32` of bytes 0..369; and the
image with its trailer overwritten by a 32-bit value other than that checksum is
rejected. -/
theorem settings_load_accepts_iff (B : Build) (cfg : settings_t) (flash_offset : Nat)
    (flash : Flash) :
    ((settings_load B cfg flash_offset flash).1 = true ↔
      (flash_offset % B.FLASH_SECTOR_SIZE = 0 ∧ flash_offset < B.PICO_FLASH_SIZE_BYTES
        ∧ ¬ (∀ i, i < 374 → flash (flash_offset + i) = 0xFF)
        ∧ rd32 (flash_read flash flash_offset 374) 0 = 0xCAFE0000
        ∧ rd16 (flash_read flash flash_offset 374) 4 = 0x0100
        ∧ rd16 (flash_read flash flash_offset 374) 6 = 374
        ∧ rd32 (flash_read flash flash_offset 374) 370
            = calculate_crc32 (some (flash_read flash flash_offset 374)) 370))
    ∧ ∀ v, v < 2 ^ 32 → v ≠ calculate_crc32 (some (flash_read flash flash_offset 374)) 370 →
        (settings_load B cfg
          flash_offset (flash_put flash (flash_offset + 370) (le32 v))).1 = false := by
  constructor
  · rw [settings_load_fst_iff]
    simp only [ne_eq, flash_read_blank_iff, sizeof_settings_t, settings_t.off_crc32, settings_t.off_ntp_sync_period_minutes,
      settings_t.off_ntp_servers, settings_t.off_anim_lags_period_s, settings_t.off_anim_flags,
      settings_t.off_night_on_hour, settings_t.off_night_off_hour, settings_t.off_flags,
      settings_t.off_brightness, settings_t.off_wifi_pass, settings_t.off_wifi_ssid,
      settings_t.off_size, settings_t.off_version, settings_t.off_magic, NTP_MAX_SERVERS,
      NTP_SERVER_MAX_LEN, WIFI_PASS_MAX_LEN, WIFI_SSID_MAX_LEN, SETTINGS_MAGIC,
      SETTINGS_VERSION]
    constructor
    · rintro ⟨h1, h2, h3, h4, h5, h6, h7⟩
      exact ⟨h1, h2, h3, h4, h5, h6, h7.symm⟩
    · rintro ⟨h1, h2, h3, h4, h5, h6, h7⟩
      exact ⟨h1, h2, h3, h4, h5, h6, h7.symm⟩
  · intro v hv hne
    cases hacc : (settings_load B cfg flash_offset
        (flash_put flash (flash_offset + 370) (le32 v))).1 with
    | false => rfl
    | true =>
      exfalso
      rw [settings_load_fst_iff] at hacc
      obtain ⟨_, _, _, _, _, _, hcrc⟩ := hacc
      have hsz : sizeof_settings_t = 374 := rfl
      rw [hsz] at hcrc
      have hread : mem_read (flash_read (flash_put flash (flash_offset + 370) (le32 v))
          flash_offset 374) 370 = mem_read (flash_read flash flash_offset 374) 370 := by
        rw [mem_read_flash_read _ _ _ _ (by omega), mem_read_flash_read _ _ _ _ (by omega)]
        apply flash_read_congr
        intro i hi
        simp only [flash_put]
        rw [if_neg (by omega)]
      have hstored : rd32 (flash_read (flash_put flash (flash_offset + 370) (le32 v))
          flash_offset 374) 370 = v := by
        rw [rd32_flash_read _ _ _ _ (by omega)]
        simp only [flash_put, le32, List.length_cons, List.length_nil]
        rw [if_pos (by omega), if_pos (by omega), if_pos (by omega), if_pos (by omega)]
        have e0 : flash_offset + 370 - (flash_offset + 370) = 0 := by omega
        have e1 : flash_offset + (370 + 1) - (flash_offset + 370) = 1 := by omega
        have e2 : flash_offset + (370 + 2) - (flash_offset + 370) = 2 := by omega
        have e3 : flash_offset + (370 + 3) - (flash_offset + 370) = 3 := by omega
        rw [e0, e1, e2, e3]
        simp only [List.getD_cons_zero, List.getD_cons_succ]
        omega
      rw [show (374 - 4 : Nat) = 370 from rfl, calculate_crc32_congr _ _ _ hread, hstored] at hcrc
      exact hne hcrc.symm

theorem trailer_DEADBEEF_differs :
    0xDEADBEEF ≠ calculate_crc32 (some (flash_read default_flash FLASH_OFFSET 374)) 370 := by
  rw [default_flash_read, default_record_crc]
  decide

/-- Witness of C5 (test 3): the sector that holds the default record is accepted, and
rejected once its trailer is overwritten with 0xDEADBEEF. -/
theorem settings_load_accepts_iff_witness :
    (settings_load (pico_build true) default_record_plain FLASH_OFFSET default_flash).1 = true
      ∧ 0xDEADBEEF ≠ calculate_crc32 (some (flash_read default_flash FLASH_OFFSET 374)) 370
      ∧ (settings_load (pico_build true) default_record_plain FLASH_OFFSET
          (flash_put default_flash (FLASH_OFFSET + 370) (le32 0xDEADBEEF))).1 = false :=
  ⟨(settings_load_accepts_iff (pico_build true) default_record_plain FLASH_OFFSET
      default_flash).1.mpr default_flash_accepted,
    trailer_DEADBEEF_differs,
    (settings_load_accepts_iff (pico_build true) default_record_plain FLASH_OFFSET
      default_flash).2 0xDEADBEEF (by decide) trailer_DEADBEEF_differs⟩

/-- C6: a record gets past the checks of `settings_save` exactly when its magic is
0xCAFE0000, its version 0x0100, its size 374, its brightness at most 100, both hours at
most 23, and each of wifi_ssid, wifi_pass and the four ntp_servers holds a string shorter
than its array; then `settings_save` does what `write_flash_sector` does with the staged
buffer, and in every other case it returns false with the flash untouched. -/
theorem settings_save_validation_iff (B : Build) (dev : FlashDevice) (cfg : settings_t)
    (flash_offset : Nat) (flash : Flash) (hlen : cfg.bytes.length = 374) :
    (settings_save_checks cfg = true ↔
      (cfg.magic = 0xCAFE0000 ∧ cfg.version = 0x0100 ∧ cfg.size = 374
        ∧ cfg.brightness ≤ 100 ∧ cfg.night_off_hour ≤ 23 ∧ cfg.night_on_hour ≤ 23
        ∧ strlen cfg.wifi_ssid < 32 ∧ strlen cfg.wifi_pass < 64
        ∧ ∀ i, i < 4 → strlen (cfg.ntp_servers i) < 64))
    ∧ (settings_save_checks cfg = true →
        settings_save B dev cfg flash_offset flash
          = write_flash_sector B dev flash_offset (settings_save_buffer B cfg)
              B.FLASH_SECTOR_SIZE flash)
    ∧ (settings_save_checks cfg = false →
        settings_save B dev cfg flash_offset flash = (false, flash)) := by
  refine ⟨settings_save_checks_iff cfg hlen, ?_, ?_⟩
  · intro h
    rw [settings_save_eq, if_pos h]
  · intro h
    rw [settings_save_eq, if_neg (by simp [h])]

/-- Witness of C6: the default record gets past the checks, the record of test 5 does not. -/
theorem settings_save_validation_iff_witness :
    default_record.bytes.length = 374 ∧ settings_save_checks default_record = true
      ∧ settings_save_checks record_ssid_overflow = false :=
  ⟨default_record_length,
    (settings_save_validation_iff (pico_build true) nor_flash default_record FLASH_OFFSET
      blank_flash default_record_length).1.mpr
      ⟨by decide!, by decide!, by decide!, by decide!, by decide!, by decide!, by decide!,
        by decide!, by decide!⟩,
    by decide!⟩

/-- C7: a record whose other members are valid and whose wifi_ssid holds 31 non-NUL
characters and a terminator gets past the checks of `settings_save`; a record whose 32
wifi_ssid bytes are all non-NUL makes `settings_save` return false, whatever its other
bytes are. -/
theorem settings_save_ssid_boundary (B : Build) (dev : FlashDevice) (cfg : settings_t)
    (flash_offset : Nat) (flash : Flash) (hlen : cfg.bytes.length = 374) :
    ((cfg.magic = 0xCAFE0000 ∧ cfg.version = 0x0100 ∧ cfg.size = 374
        ∧ cfg.brightness ≤ 100 ∧ cfg.night_off_hour ≤ 23 ∧ cfg.night_on_hour ≤ 23
        ∧ strlen cfg.wifi_pass < 64 ∧ ∀ i, i < 4 → strlen (cfg.ntp_servers i) < 64) →
      ∀ s : List Nat, s.length = 31 → (∀ c ∈ s, c ≠ 0) → cfg.wifi_ssid = s ++ [0] →
        settings_save B dev cfg flash_offset flash
          = write_flash_sector B dev flash_offset (settings_save_buffer B cfg)
              B.FLASH_SECTOR_SIZE flash)
    ∧ ((∀ c ∈ cfg.wifi_ssid, c ≠ 0) →
        settings_save B dev cfg flash_offset flash = (false, flash)) := by
  constructor
  · rintro ⟨h1, h2, h3, h4, h5, h6, h7, h8⟩ s hs hnz hssid
    have hstr : strlen cfg.wifi_ssid < 32 := by
      rw [hssid, strlen_append_nul s [] hnz, hs]
      decide
    have hc : settings_save_checks cfg = true :=
      (settings_save_checks_iff cfg hlen).mpr ⟨h1, h2, h3, h4, h5, h6, hstr, h7, h8⟩
    rw [settings_save_eq, if_pos hc]
  · intro hnz
    have hstr : ¬ strlen cfg.wifi_ssid < 32 := by
      rw [strlen_no_nul _ hnz]
      simp [settings_t.wifi_ssid, mem_slice, WIFI_SSID_MAX_LEN]
    have hc : settings_save_checks cfg = false := by
      cases h : settings_save_checks cfg with
      | false => rfl
      | true => exact absurd ((settings_save_checks_iff cfg hlen).mp h).2.2.2.2.2.2.1 hstr
    rw [settings_save_eq, if_neg (by simp [hc])]

/-- Witness of C7: the 31-character SSID of test 2 is written, the overflowed SSID of test 5
is refused. -/
theorem settings_save_ssid_boundary_witness :
    settings_save (pico_build true) nor_flash record_ssid31 FLASH_OFFSET blank_flash
        = write_flash_sector (pico_build true) nor_flash FLASH_OFFSET
            (settings_save_buffer (pico_build true) record_ssid31) 4096 blank_flash
      ∧ settings_save (pico_build true) nor_flash record_ssid_overflow FLASH_OFFSET blank_flash
        = (false, blank_flash) :=
  ⟨(settings_save_ssid_boundary (pico_build true) nor_flash record_ssid31 FLASH_OFFSET
      blank_flash (by decide!)).1
      ⟨by decide!, by decide!, by decide!, by decide!, by decide!, by decide!, by decide!,
        by decide!⟩ ascii_long_ssid (by decide) (by decide) (by decide!),
    (settings_save_ssid_boundary (pico_build true) nor_flash record_ssid_overflow FLASH_OFFSET
      blank_flash (by decide!)).2 (by decide!)⟩

/-- C8: a record with brightness above 100 or an hour above 23 makes `settings_save` return
false, and the flash contents after the call are the contents before it, whatever the
device does when it is called. -/
theorem settings_save_range_rejection (B : Build) (dev : FlashDevice) (cfg : settings_t)
    (flash_offset : Nat) (flash : Flash)
    (h : cfg.brightness > 100 ∨ cfg.night_off_hour > 23 ∨ cfg.night_on_hour > 23) :
    settings_save B dev cfg flash_offset flash = (false, flash) := by
  have hc : settings_save_checks cfg = false := by
    unfold settings_save_checks
    simp only [BRIGHTNESS_MAX, HOUR_MAX]
    split_ifs
    all_goals first | rfl | omega
  rw [settings_save_eq, if_neg (by simp [hc])]

/-- Witness of C8: the default record with brightness 101, saved through a device that would
destroy the flash if it were called. -/
theorem settings_save_range_rejection_witness :
    (default_record.set_brightness 101).brightness > 100
      ∧ settings_save (pico_build true) wiping_device (default_record.set_brightness 101)
          FLASH_OFFSET blank_flash = (false, blank_flash) :=
  ⟨by decide!,
    settings_save_range_rejection (pico_build true) wiping_device
      (default_record.set_brightness 101) FLASH_OFFSET blank_flash (Or.inl (by decide!))⟩

/-- C9: for every non-empty sequence of bytes `calculate_crc32` returns the reference
CRC-32 (reflected polynomial 0xEDB88320, initial value and final XOR 0xFFFFFFFF, bit by
bit with the least significant bit first), and the nine bytes "123456789" give
0xCBF43926. -/
theorem calculate_crc32_is_reference (msg : List Nat) (hne : msg ≠ [])
    (hbytes : ∀ b ∈ msg, b < 256) :
    calculate_crc32 (some msg) msg.length = crc32_reference msg
      ∧ calculate_crc32 (some ascii_digits) 9 = 0xCBF43926 := by
  constructor
  · have hlen : msg.length ≠ 0 := fun h => hne (List.length_eq_zero.mp h)
    rw [calculate_crc32_eq msg msg.length hlen, mem_read_self, crc32_reference,
      crc32_fold_eq_reference msg _ hbytes]
  · decide!

/-- Witness of C9 at the two bytes 0x12, 0x34. -/
theorem calculate_crc32_is_reference_witness :
    calculate_crc32 (some [0x12, 0x34]) 2 = crc32_reference [0x12, 0x34]
      ∧ calculate_crc32 (some ascii_digits) 9 = 0xCBF43926 :=
  calculate_crc32_is_reference [0x12, 0x34] (by decide) (by decide)

/-- C10: on a null pointer or a zero length `calculate_crc32` returns CRC32_ERROR, which is
0xFFFFFFFF, and the checksum computed for the four bytes FF FF FF FF is the same
value. -/
theorem crc32_error_is_a_checksum :
    (∀ len, calculate_crc32 none len = CRC32_ERROR)
      ∧ (∀ data, calculate_crc32 (some data) 0 = CRC32_ERROR)
      ∧ CRC32_ERROR = 0xFFFFFFFF
      ∧ ∃ msg : List Nat, msg ≠ [] ∧ (∀ b ∈ msg, b < 256)
          ∧ calculate_crc32 (some msg) msg.length = CRC32_ERROR
          ∧ crc32_reference msg = CRC32_ERROR :=
  ⟨fun _ => rfl, fun _ => rfl, rfl, [0xFF, 0xFF, 0xFF, 0xFF], by decide, by decide,
    by decide!, by decide!⟩

/-- C11: for every default ssid, password and NTP server string of bytes,
`settings_init_default` leaves the record that is the concatenation of these members:
magic 0xCAFE0000, version 0x0100, size 374; wifi_ssid, wifi_pass and ntp_servers[0] holding
the characters of the default string cut to 31, 63 and 63 of them, NUL bytes after;
brightness 50; flags FLAG_SETTINGS_ENCRYPTED with the filter enabled and 0 without;
night_off_hour 22, night_on_hour 6, anim_flags 0, anim_lags_period_s 5; ntp_servers[1..3]
all NUL bytes; ntp_sync_period_minutes 60; crc32 the value of `calculate_crc32` on the first
370 bytes of the record.  The members read through the accessors have these values. -/
theorem settings_init_default_record (B : Build) (hs : ∀ b ∈ B.DEFAULT_SSID, b < 256)
    (hp : ∀ b ∈ B.DEFAULT_PASS, b < 256) (hn : ∀ b ∈ B.DEFAULT_NTP_SERVER, b < 256) :
    settings_init_default B
        = settings_t.of_fields 0xCAFE0000 0x0100 374
            ((c_str B.DEFAULT_SSID).take (WIFI_SSID_MAX_LEN - 1))
            ((c_str B.DEFAULT_PASS).take (WIFI_PASS_MAX_LEN - 1)) 50
            (if B.ENCRYPT_WIFI_PASS = true then FLAG_SETTINGS_ENCRYPTED else 0) 22 6 0 5
            ((c_str B.DEFAULT_NTP_SERVER).take (NTP_SERVER_MAX_LEN - 1)) [] [] [] 60
            (calculate_crc32 (some (settings_init_default B).bytes) (sizeof_settings_t - 4))
      ∧ (settings_init_default B).crc32
          = calculate_crc32 (some (settings_init_default B).bytes) (sizeof_settings_t - 4)
      ∧ (settings_init_default B).magic = 0xCAFE0000
      ∧ (settings_init_default B).version = 0x0100
      ∧ (settings_init_default B).size = 374
      ∧ (settings_init_default B).wifi_ssid
          = c_string WIFI_SSID_MAX_LEN ((c_str B.DEFAULT_SSID).take (WIFI_SSID_MAX_LEN - 1))
      ∧ (settings_init_default B).wifi_pass
          = c_string WIFI_PASS_MAX_LEN ((c_str B.DEFAULT_PASS).take (WIFI_PASS_MAX_LEN - 1))
      ∧ (settings_init_default B).brightness = 50
      ∧ (settings_init_default B).flags
          = (if B.ENCRYPT_WIFI_PASS = true then FLAG_SETTINGS_ENCRYPTED else 0)
      ∧ (settings_init_default B).night_off_hour = 22
      ∧ (settings_init_default B).night_on_hour = 6
      ∧ (settings_init_default B).anim_flags = 0
      ∧ (settings_init_default B).anim_lags_period_s = 5
      ∧ (settings_init_default B).ntp_servers 0
          = c_string NTP_SERVER_MAX_LEN
              ((c_str B.DEFAULT_NTP_SERVER).take (NTP_SERVER_MAX_LEN - 1))
      ∧ (settings_init_default B).ntp_servers 1 = List.replicate NTP_SERVER_MAX_LEN 0
      ∧ (settings_init_default B).ntp_servers 2 = List.replicate NTP_SERVER_MAX_LEN 0
      ∧ (settings_init_default B).ntp_servers 3 = List.replicate NTP_SERVER_MAX_LEN 0
      ∧ (settings_init_default B).ntp_sync_period_minutes = 60 := by
  refine ⟨?_, settings_init_default_crc32 B hs hp hn, settings_init_default_members B⟩
  have h := settings_init_default_fields B
  rw [settings_init_default_crc_arg] at h
  exact h

/-- Witness of C11: the build with the default strings "VFDClock", "password" and
"pool.ntp.org" and the filter enabled. -/
theorem settings_init_default_record_witness :
    (∀ b ∈ (pico_build true).DEFAULT_SSID, b < 256)
      ∧ (∀ b ∈ (pico_build true).DEFAULT_PASS, b < 256)
      ∧ (∀ b ∈ (pico_build true).DEFAULT_NTP_SERVER, b < 256)
      ∧ (settings_init_default (pico_build true)).crc32
          = calculate_crc32 (some (settings_init_default (pico_build true)).bytes) 370
      ∧ (settings_init_default (pico_build true)).flags = FLAG_SETTINGS_ENCRYPTED
      ∧ (settings_init_default (pico_build true)).wifi_ssid
          = c_string 32 ascii_VFDClock :=
  have h := settings_init_default_record (pico_build true) (by decide) (by decide) (by decide)
  ⟨by decide, by decide, by decide, h.2.1, h.2.2.2.2.2.2.2.2.1, h.2.2.2.2.2.1⟩

/-- C12 (amended): for the record D of `settings_init_default`, for every default strings of
bytes and either setting of the filter, on a device without faults and at an aligned offset
inside the flash, `settings_save` of D followed by `settings_load` returns true twice, and
the record loaded equals D in every member other than wifi_pass and crc32.  Its crc32 is
the checksum of the 370 payload bytes now in the flash.  Its wifi_pass equals the one of D
when no character of the default password is its own key byte.  When the filter is disabled,
or leaves the default password as it is, the record loaded is D byte for byte, and its crc32
equals the crc32 of D and the value of `calculate_crc32` on its own first 370 bytes. -/
theorem settings_init_default_round_trip (B : Build) (dev : FlashDevice) (cfg : settings_t)
    (flash_offset : Nat) (flash : Flash) (hsec : sizeof_settings_t ≤ B.FLASH_SECTOR_SIZE)
    (hdev : FaultFree B dev) (hal : flash_offset % B.FLASH_SECTOR_SIZE = 0)
    (hin : flash_offset < B.PICO_FLASH_SIZE_BYTES) (hs : ∀ b ∈ B.DEFAULT_SSID, b < 256)
    (hp : ∀ b ∈ B.DEFAULT_PASS, b < 256) (hn : ∀ b ∈ B.DEFAULT_NTP_SERVER, b < 256) :
    (settings_save B dev (settings_init_default B) flash_offset flash).1 = true
      ∧ (settings_load B cfg flash_offset
          (settings_save B dev (settings_init_default B) flash_offset flash).2).1 = true
      ∧ (settings_load B cfg flash_offset
          (settings_save B dev (settings_init_default B) flash_offset flash).2).2.same_other_fields
            (settings_init_default B)
      ∧ (settings_load B cfg flash_offset
          (settings_save B dev (settings_init_default B) flash_offset flash).2).2.crc32
          = calculate_crc32
              (some (flash_read (settings_save B dev (settings_init_default B) flash_offset
                flash).2 flash_offset 374)) 370
      ∧ ((∀ i, i < strlen (settings_init_default B).wifi_pass →
            (settings_init_default B).wifi_pass.getD i 0 ≠ xor_key i) →
          (settings_load B cfg flash_offset
            (settings_save B dev (settings_init_default B) flash_offset flash).2).2.wifi_pass
            = (settings_init_default B).wifi_pass)
      ∧ ((B.ENCRYPT_WIFI_PASS = false
            ∨ xor_wifi_pass B (settings_init_default B).wifi_pass WIFI_PASS_MAX_LEN
                = (settings_init_default B).wifi_pass) →
          settings_load B cfg flash_offset
              (settings_save B dev (settings_init_default B) flash_offset flash).2
            = (true, settings_init_default B)
          ∧ (settings_load B cfg flash_offset
              (settings_save B dev (settings_init_default B) flash_offset flash).2).2.crc32
            = (settings_init_default B).crc32
          ∧ (settings_load B cfg flash_offset
              (settings_save B dev (settings_init_default B) flash_offset flash).2).2.crc32
            = calculate_crc32
                (some (settings_load B cfg flash_offset
                  (settings_save B dev (settings_init_default B) flash_offset
                    flash).2).2.bytes) 370) := by
  have hwf := settings_init_default_WF B hs hp hn
  have hval := settings_init_default_checks B
  have hcrc := settings_init_default_crc32 B hs hp hn
  obtain ⟨h1, h2, hsame, hc, hpass⟩ := settings_save_load_fields B dev (settings_init_default B)
    cfg flash_offset flash hsec hdev hal hin hwf hval
  refine ⟨h1, h2, hsame, hc, ?_, ?_⟩
  · intro hnc
    rw [hpass]
    split
    · have hstr : strlen (settings_init_default B).wifi_pass < WIFI_PASS_MAX_LEN :=
        ((settings_save_checks_iff _ hwf.1).mp hval).2.2.2.2.2.2.2.1
      exact xor_wifi_pass_twice B _ (length_wifi_pass _) (mem_mem_slice_lt _ _ _ hwf.2) hstr hnc
    · rfl
  · intro hcase
    have hid : xor_wifi_pass B (settings_init_default B).wifi_pass WIFI_PASS_MAX_LEN
        = (settings_init_default B).wifi_pass := by
      rcases hcase with hB | hx
      · exact xor_wifi_pass_disabled B _ _ hB
      · exact hx
    have hl := settings_save_load_exact B dev (settings_init_default B) cfg flash_offset flash
      hsec hdev hal hin hwf hval hcrc hid
    rw [hl]
    exact ⟨rfl, rfl, hcrc⟩

/-- Witness of C12: the build with the default password "password" and the filter enabled,
on an erased NOR flash; the filter leaves the eight characters as they are and the record
comes back byte for byte. -/
theorem settings_init_default_round_trip_witness :
    sizeof_settings_t ≤ (pico_build true).FLASH_SECTOR_SIZE
      ∧ FaultFree (pico_build true) nor_flash
      ∧ FLASH_OFFSET % (pico_build true).FLASH_SECTOR_SIZE = 0
      ∧ FLASH_OFFSET < (pico_build true).PICO_FLASH_SIZE_BYTES
      ∧ (∀ b ∈ (pico_build true).DEFAULT_SSID, b < 256)
      ∧ (∀ b ∈ (pico_build true).DEFAULT_PASS, b < 256)
      ∧ (∀ b ∈ (pico_build true).DEFAULT_NTP_SERVER, b < 256)
      ∧ settings_load (pico_build true) record_edge_case FLASH_OFFSET
          (settings_save (pico_build true) nor_flash (settings_init_default (pico_build true))
            FLASH_OFFSET blank_flash).2
        = (true, settings_init_default (pico_build true)) :=
  have h := settings_init_default_round_trip (pico_build true) nor_flash record_edge_case
    FLASH_OFFSET blank_flash (by decide) (nor_flash_fault_free _) (by decide) (by decide)
    (by decide) (by decide) (by decide)
  ⟨by decide, nor_flash_fault_free _, by decide, by decide, by decide, by decide, by decide,
    (h.2.2.2.2.2 (Or.inr (by rw [settings_init_default_pico]; decide!))).1⟩

/-- Counterexample to C12 as stated: in a build with the filter enabled and the default
password "SecretPass123", the default record is saved and loaded with success on an erased
NOR flash and its password comes back, but the crc32 loaded is the checksum of the filtered
payload: it differs from the crc32 of the record saved and from the value of
`calculate_crc32` on the first 370 bytes of the record loaded. -/
theorem settings_init_default_round_trip_counterexample :
    (settings_save secret_build nor_flash (settings_init_default secret_build) FLASH_OFFSET
        blank_flash).1 = true
      ∧ (settings_load secret_build record_edge_case FLASH_OFFSET
          (settings_save secret_build nor_flash (settings_init_default secret_build)
            FLASH_OFFSET blank_flash).2).1 = true
      ∧ (settings_load secret_build record_edge_case FLASH_OFFSET
          (settings_save secret_build nor_flash (settings_init_default secret_build)
            FLASH_OFFSET blank_flash).2).2.wifi_pass
          = (settings_init_default secret_build).wifi_pass
      ∧ (settings_load secret_build record_edge_case FLASH_OFFSET
          (settings_save secret_build nor_flash (settings_init_default secret_build)
            FLASH_OFFSET blank_flash).2).2.crc32
          ≠ (settings_init_default secret_build).crc32
      ∧ (settings_load secret_build record_edge_case FLASH_OFFSET
          (settings_save secret_build nor_flash (settings_init_default secret_build)
            FLASH_OFFSET blank_flash).2).2.crc32
          ≠ calculate_crc32
              (some (settings_load secret_build record_edge_case FLASH_OFFSET
                (settings_save secret_build nor_flash (settings_init_default secret_build)
                  FLASH_OFFSET blank_flash).2).2.bytes) 370 := by
  have hwf := default_record_secret_WF
  have hval := default_record_secret_checks
  rw [settings_init_default_secret]
  obtain ⟨h1, h2, _, _, hpass⟩ := settings_save_load_fields secret_build nor_flash
    default_record_secret record_edge_case FLASH_OFFSET blank_flash (by decide)
    (nor_flash_fault_free _) (by decide) (by decide) hwf hval
  have hc := settings_save_load_crc32 secret_build nor_flash default_record_secret
    record_edge_case FLASH_OFFSET blank_flash (by decide) (nor_flash_fault_free _) (by decide)
    (by decide) hwf hval
  have hp : (settings_load secret_build record_edge_case FLASH_OFFSET
      (settings_save secret_build nor_flash default_record_secret FLASH_OFFSET
        blank_flash).2).2.wifi_pass = default_record_secret.wifi_pass := by
    rw [hpass, if_pos (by decide!)]
    exact xor_wifi_pass_twice secret_build _ (length_wifi_pass _)
      (mem_mem_slice_lt _ _ _ hwf.2) (by decide!) (by decide!)
  have hown := calculate_crc32_congr _ _ 370
    (settings_save_load_payload secret_build nor_flash default_record_secret record_edge_case
      FLASH_OFFSET blank_flash (by decide) (nor_flash_fault_free _) (by decide) (by decide)
      hwf hval hp)
  rw [default_record_secret_crc] at hown
  refine ⟨h1, h2, hp, ?_, ?_⟩
  · rw [hc, default_record_secret_payload]
    decide!
  · rw [hown, hc, default_record_secret_payload]
    decide

/-- C13: `write_flash_sector` returns false and leaves the flash as it was, whatever the
device would do, when the offset is not a multiple of FLASH_SECTOR_SIZE, or is not below
PICO_FLASH_SIZE_BYTES, or the length exceeds FLASH_SECTOR_SIZE. -/
theorem write_flash_sector_precondition (B : Build) (dev : FlashDevice) (offset : Nat)
    (data : List Nat) (len : Nat) (flash : Flash)
    (h : offset % B.FLASH_SECTOR_SIZE ≠ 0 ∨ offset ≥ B.PICO_FLASH_SIZE_BYTES
      ∨ len > B.FLASH_SECTOR_SIZE) :
    write_flash_sector B dev offset data len flash = (false, flash) := by
  unfold write_flash_sector
  rcases h with h | h | h
  · rw [if_pos (Or.inl h)]
  · rw [if_pos (Or.inr h)]
  · by_cases h1 : offset % B.FLASH_SECTOR_SIZE ≠ 0 ∨ offset ≥ B.PICO_FLASH_SIZE_BYTES
    · rw [if_pos h1]
    · rw [if_neg h1, if_pos h]

/-- Witness of C13: an unaligned offset, an offset at the end of the flash and a length of
4097 bytes, on a device that would destroy the flash if it were called. -/
theorem write_flash_sector_precondition_witness :
    write_flash_sector (pico_build true) wiping_device 100 [1, 2, 3] 3 blank_flash
        = (false, blank_flash)
      ∧ write_flash_sector (pico_build true) wiping_device 2097152 [1, 2, 3] 3 blank_flash
        = (false, blank_flash)
      ∧ write_flash_sector (pico_build true) wiping_device FLASH_OFFSET [1, 2, 3] 4097 blank_flash
        = (false, blank_flash) :=
  ⟨write_flash_sector_precondition (pico_build true) wiping_device 100 [1, 2, 3] 3 blank_flash
      (Or.inl (by decide)),
    write_flash_sector_precondition (pico_build true) wiping_device 2097152 [1, 2, 3] 3
      blank_flash (Or.inr (Or.inl (by decide))),
    write_flash_sector_precondition (pico_build true) wiping_device FLASH_OFFSET [1, 2, 3] 4097
      blank_flash (Or.inr (Or.inr (by decide)))⟩

/-- C14: for every device, faulty or not, `write_flash_sector` with an aligned offset inside
the flash and a length of at most one sector leaves the flash as the erase and the program
left it, and returns true exactly when the first `len` bytes read back from the sector
equal the first `len` bytes of the data. -/
theorem write_flash_sector_verifies (B : Build) (dev : FlashDevice) (offset : Nat)
    (data : List Nat) (len : Nat) (flash : Flash)
    (hal : offset % B.FLASH_SECTOR_SIZE = 0) (hin : offset < B.PICO_FLASH_SIZE_BYTES)
    (hlen : len ≤ B.FLASH_SECTOR_SIZE) :
    (write_flash_sector B dev offset data len flash).2
        = dev.flash_range_program offset data B.FLASH_SECTOR_SIZE
            (dev.flash_range_erase offset B.FLASH_SECTOR_SIZE flash)
      ∧ ((write_flash_sector B dev offset data len flash).1 = true ↔
          flash_read (dev.flash_range_program offset data B.FLASH_SECTOR_SIZE
            (dev.flash_range_erase offset B.FLASH_SECTOR_SIZE flash)) offset len
            = mem_read data len) := by
  unfold write_flash_sector
  rw [if_neg (by omega), if_neg (by omega)]
  by_cases h : flash_read (dev.flash_range_program offset data B.FLASH_SECTOR_SIZE
      (dev.flash_range_erase offset B.FLASH_SECTOR_SIZE flash)) offset len = mem_read data len
  · simp [h]
  · simp [h]

/-- Witness of C14: a device that leaves zeros where 1, 2, 3 were to be written; the call
returns false. -/
theorem write_flash_sector_verifies_witness :
    FLASH_OFFSET % (pico_build true).FLASH_SECTOR_SIZE = 0
      ∧ FLASH_OFFSET < (pico_build true).PICO_FLASH_SIZE_BYTES
      ∧ 3 ≤ (pico_build true).FLASH_SECTOR_SIZE
      ∧ (write_flash_sector (pico_build true) wiping_device FLASH_OFFSET [1, 2, 3] 3
          blank_flash).1 = false :=
  ⟨by decide, by decide, by decide,
    Bool.eq_false_iff.mpr (fun h =>
      absurd ((write_flash_sector_verifies (pico_build true) wiping_device FLASH_OFFSET
        [1, 2, 3] 3 blank_flash (by decide) (by decide) (by decide)).2.mp h) (by decide))⟩

/-- C15, the code at a failing input: with the filter enabled, the array of 64 bytes that
holds "MyHomeNetworkPassphrase-Secret2024" is not reproduced by two calls of
`xor_wifi_pass`.  The first call turns the byte at index 25 into NUL, so the second call
filters the first 25 bytes only: the result holds NUL at index 25 and the filtered bytes
from index 26 to 33. -/
theorem xor_wifi_pass_twice_fails :
    record_passphrase.wifi_pass.length = 64
      ∧ (∀ b ∈ record_passphrase.wifi_pass, b < 256)
      ∧ record_passphrase.wifi_pass.getD 25 0 = xor_key 25
      ∧ (xor_wifi_pass (pico_build true) record_passphrase.wifi_pass 64).getD 25 0 = 0
      ∧ strnlen (xor_wifi_pass (pico_build true) record_passphrase.wifi_pass 64) 64 = 25
      ∧ xor_wifi_pass (pico_build true)
          (xor_wifi_pass (pico_build true) record_passphrase.wifi_pass 64) 64
        ≠ record_passphrase.wifi_pass :=
  ⟨by decide!, by decide!, by decide!, by decide!, by decide!, by decide!⟩

/-- C16, the code at a failing input: with the filter enabled and the flag set, the default
record, whose password is "password", is saved with success and the 64 bytes of wifi_pass
in the flash are the bytes of the record, the eight characters in the clear.  The key
bytes `(0xCAFE0000 >> i) & 0xFF` are zero for `i = 0 .. 9`, so a password of at most ten
characters is stored as it is. -/
theorem settings_save_stores_password_in_clear :
    default_record.WF ∧ settings_save_checks default_record = true
      ∧ (pico_build true).ENCRYPT_WIFI_PASS = true
      ∧ default_record.flags &&& FLAG_SETTINGS_ENCRYPTED ≠ 0
      ∧ c_str default_record.wifi_pass = ascii_password
      ∧ (∀ i, i < 10 → xor_key i = 0)
      ∧ (settings_save (pico_build true) nor_flash default_record FLASH_OFFSET blank_flash).1
          = true
      ∧ flash_read
          (settings_save (pico_build true) nor_flash default_record FLASH_OFFSET blank_flash).2
          (FLASH_OFFSET + 40) 64 = default_record.wifi_pass := by
  have hs := settings_save_fault_free (pico_build true) nor_flash default_record FLASH_OFFSET
    blank_flash (by decide) (nor_flash_fault_free _) (by decide) (by decide) default_record_WF
    (by decide!)
  obtain ⟨_, _, _, hpass⟩ := settings_save_temp_props (pico_build true) default_record
    default_record_WF
  have hstored : flash_read
      (settings_save (pico_build true) nor_flash default_record FLASH_OFFSET blank_flash).2
      (FLASH_OFFSET + 40) 64 = (settings_save_temp (pico_build true) default_record).wifi_pass := by
    have h2 : flash_read
        (settings_save (pico_build true) nor_flash default_record FLASH_OFFSET blank_flash).2
        FLASH_OFFSET 374 = (settings_save_temp (pico_build true) default_record).bytes := hs.2
    rw [← mem_slice_flash_read _ FLASH_OFFSET 374 40 64 (by decide), h2]
    rfl
  rw [hstored, hpass, if_pos (by decide!)]
  exact ⟨default_record_WF, by decide!, rfl, by decide!, by decide!, by decide, hs.1, by decide!⟩

/-- C17 (amended): in a build without the filter, a sector that holds a record with correct
magic, version, size and checksum makes `settings_load` return true, whether or not the
flag FLAG_SETTINGS_ENCRYPTED is set in it, and the record handed back is the stored record
byte for byte: wifi_pass holds the stored bytes. -/
theorem settings_load_filter_disabled (B : Build) (cfg : settings_t) (flash_offset : Nat)
    (flash : Flash) (hB : B.ENCRYPT_WIFI_PASS = false)
    (hal : flash_offset % B.FLASH_SECTOR_SIZE = 0)
    (hin : flash_offset < B.PICO_FLASH_SIZE_BYTES)
    (hmagic : rd32 (flash_read flash flash_offset 374) 0 = 0xCAFE0000)
    (hver : rd16 (flash_read flash flash_offset 374) 4 = 0x0100)
    (hsize : rd16 (flash_read flash flash_offset 374) 6 = 374)
    (hcrc : rd32 (flash_read flash flash_offset 374) 370
      = calculate_crc32 (some (flash_read flash flash_offset 374)) 370) :
    settings_load B cfg flash_offset flash = (true, ⟨flash_read flash flash_offset 374⟩)
      ∧ (settings_load B cfg flash_offset flash).2.wifi_pass
          = flash_read flash (flash_offset + 40) 64 := by
  have h := settings_load_of_sector B cfg ⟨flash_read flash flash_offset 374⟩ flash_offset
    flash hal hin rfl hmagic hver hsize hcrc.symm
  have hid : xor_wifi_pass B (settings_t.wifi_pass ⟨flash_read flash flash_offset 374⟩)
      WIFI_PASS_MAX_LEN = settings_t.wifi_pass ⟨flash_read flash flash_offset 374⟩ := by
    simp [xor_wifi_pass, hB]
  have hset : settings_t.set_wifi_pass ⟨flash_read flash flash_offset 374⟩
      (settings_t.wifi_pass ⟨flash_read flash flash_offset 374⟩)
      = ⟨flash_read flash flash_offset 374⟩ := by
    unfold settings_t.set_wifi_pass settings_t.wifi_pass
    rw [mem_write_mem_slice_self]
  have hl : settings_load B cfg flash_offset flash
      = (true, ⟨flash_read flash flash_offset 374⟩) := by
    rw [h, hid, hset]
    split <;> rfl
  refine ⟨hl, ?_⟩
  rw [hl]
  exact mem_slice_flash_read flash flash_offset 374 40 64 (by decide)

/-- Witness of C17: the sector that holds the default record, whose flag is set, read by a
build without the filter. -/
theorem settings_load_filter_disabled_witness :
    rd32 (flash_read default_flash FLASH_OFFSET 374) 370
        = calculate_crc32 (some (flash_read default_flash FLASH_OFFSET 374)) 370
      ∧ (flash_read default_flash FLASH_OFFSET 374).getD 105 0 &&& FLAG_SETTINGS_ENCRYPTED ≠ 0
      ∧ settings_load (pico_build false) default_record_plain FLASH_OFFSET default_flash
          = (true, ⟨flash_read default_flash FLASH_OFFSET 374⟩) :=
  ⟨default_flash_accepted.2.2.2.2.2.2,
    by rw [default_flash_read]; decide!,
    (settings_load_filter_disabled (pico_build false) default_record_plain FLASH_OFFSET
      default_flash rfl default_flash_accepted.1 default_flash_accepted.2.1
      default_flash_accepted.2.2.2.1
      default_flash_accepted.2.2.2.2.1 default_flash_accepted.2.2.2.2.2.1
      default_flash_accepted.2.2.2.2.2.2).1⟩

/-- Counterexample to C17 as stated: the record of test 2 is saved by a build with the
filter; the sector then holds a record with correct magic, version, size and checksum
whose flag is set.  A build without the filter loads it with success, and the wifi_pass it
hands back is the filtered array, not the password. -/
theorem settings_load_filter_disabled_counterexample :
    (settings_t.flags ⟨flash_read
        (settings_save (pico_build true) nor_flash record_edge_case FLASH_OFFSET blank_flash).2
        FLASH_OFFSET 374⟩) &&& FLAG_SETTINGS_ENCRYPTED ≠ 0
      ∧ (settings_load (pico_build false) default_record_plain FLASH_OFFSET
          (settings_save (pico_build true) nor_flash record_edge_case FLASH_OFFSET
            blank_flash).2).1 = true
      ∧ (settings_load (pico_build false) default_record_plain FLASH_OFFSET
          (settings_save (pico_build true) nor_flash record_edge_case FLASH_OFFSET
            blank_flash).2).2.wifi_pass
          = xor_wifi_pass (pico_build true) record_edge_case.wifi_pass 64
      ∧ (settings_load (pico_build false) default_record_plain FLASH_OFFSET
          (settings_save (pico_build true) nor_flash record_edge_case FLASH_OFFSET
            blank_flash).2).2.wifi_pass
          ≠ record_edge_case.wifi_pass := by
  obtain ⟨_, hread, _⟩ := settings_save_load (pico_build true) nor_flash record_edge_case
    default_record_plain FLASH_OFFSET blank_flash (by decide) (nor_flash_fault_free _)
    (by decide) (by decide) record_edge_case_WF record_edge_case_checks
  obtain ⟨hT, hsame, hcrc, hpass⟩ := settings_save_temp_props (pico_build true) record_edge_case
    record_edge_case_WF
  obtain ⟨hm, hv, hz, _⟩ := (settings_save_checks_iff record_edge_case
    record_edge_case_WF.1).mp record_edge_case_checks
  have hflags : (settings_save_temp (pico_build true) record_edge_case).flags
      = record_edge_case.flags := hsame.2.2.2.2.2.1
  have hset : (settings_save_temp (pico_build true) record_edge_case).flags
      &&& FLAG_SETTINGS_ENCRYPTED ≠ 0 := by
    rw [hflags]
    decide!
  have hl := settings_load_of_sector (pico_build false) default_record_plain
    (settings_save_temp (pico_build true) record_edge_case) FLASH_OFFSET _ (by decide)
    (by decide) hread (hsame.1.trans hm) (hsame.2.1.trans hv) (hsame.2.2.1.trans hz) hcrc.symm
  have hid : xor_wifi_pass (pico_build false)
      (settings_save_temp (pico_build true) record_edge_case).wifi_pass WIFI_PASS_MAX_LEN
      = (settings_save_temp (pico_build true) record_edge_case).wifi_pass := by
    simp [xor_wifi_pass, pico_build]
  have hsz : sizeof_settings_t = 374 := rfl
  have h64 : WIFI_PASS_MAX_LEN = 64 := rfl
  rw [hl, if_pos hset, hid, ← hsz, hread, settings_t_eta]
  refine ⟨hset, rfl, ?_, ?_⟩
  · rw [wifi_pass_set_wifi_pass _ _ hT.1 (length_wifi_pass _), hpass, if_pos (by decide!), h64]
  · rw [wifi_pass_set_wifi_pass _ _ hT.1 (length_wifi_pass _), hpass, if_pos (by decide!), h64]
    decide!

/-- C18: for every record that passes the checks, `settings_save` hands to
`write_flash_sector` a buffer of exactly FLASH_SECTOR_SIZE bytes whose bytes from 374 on
are all 0xFF and whose bytes 370..373 hold, little-endian, `calculate_crc32` of the bytes
0..369 of that same buffer, in which the password is already filtered. -/
theorem settings_save_buffer_shape (B : Build) (R : settings_t) (hwf : R.WF)
    (hsec : sizeof_settings_t ≤ B.FLASH_SECTOR_SIZE) (hval : settings_save_checks R = true) :
    (∀ (dev : FlashDevice) (flash_offset : Nat) (flash : Flash),
        settings_save B dev R flash_offset flash
          = write_flash_sector B dev flash_offset (settings_save_buffer B R)
              B.FLASH_SECTOR_SIZE flash)
      ∧ (settings_save_buffer B R).length = B.FLASH_SECTOR_SIZE
      ∧ (∀ i, 374 ≤ i → i < B.FLASH_SECTOR_SIZE → (settings_save_buffer B R).getD i 0 = 0xFF)
      ∧ rd32 (settings_save_buffer B R) 370
          = calculate_crc32 (some (settings_save_buffer B R)) 370
      ∧ mem_slice (settings_save_buffer B R) 40 64
          = (if R.flags &&& FLAG_SETTINGS_ENCRYPTED ≠ 0 then xor_wifi_pass B R.wifi_pass 64
              else R.wifi_pass) := by
  obtain ⟨hlen, _, hpre⟩ := settings_save_buffer_props B R hwf hsec
  obtain ⟨hT, _, hcrc, hpass⟩ := settings_save_temp_props B R hwf
  have hsz : sizeof_settings_t = 374 := rfl
  rw [hsz] at hpre
  have hTlen : (settings_save_temp B R).bytes.length = 374 := hT.1
  refine ⟨?_, hlen, ?_, ?_, ?_⟩
  · intro dev flash_offset flash
    rw [settings_save_eq, if_pos hval]
  · intro i h1 h2
    unfold settings_save_buffer
    rw [getD_mem_write_of_ge _ _ _ _ (by rw [hTlen]; omega)]
    simp [List.getD_eq_getElem?_getD, List.getElem?_replicate, h2]
  · have h1 : rd32 (settings_save_buffer B R) 370 = (settings_save_temp B R).crc32 := by
      rw [← rd32_mem_read _ 374 370 (by decide), hpre]
      rfl
    have h2 : mem_read (settings_save_buffer B R) 370
        = mem_read (settings_save_temp B R).bytes 370 := by
      rw [← hpre, mem_read_mem_read _ _ _ (by decide)]
    rw [h1, hcrc, calculate_crc32_congr _ _ _ h2]
    rfl
  · have h3 : mem_slice (settings_save_buffer B R) 40 64
        = (settings_save_temp B R).wifi_pass := by
      unfold settings_t.wifi_pass mem_slice
      apply List.map_congr_left
      intro i hi
      have hi' : i < 64 := List.mem_range.mp hi
      exact getD_settings_save_buffer B R hwf hsec _ (by show 40 + i < 374; omega)
    rw [h3, hpass]
    rfl

/-- Witness of C18: the record of test 2 in a build with the filter. -/
theorem settings_save_buffer_shape_witness :
    record_edge_case.WF ∧ settings_save_checks record_edge_case = true
      ∧ (settings_save_buffer (pico_build true) record_edge_case).length = 4096
      ∧ rd32 (settings_save_buffer (pico_build true) record_edge_case) 370
          = calculate_crc32 (some (settings_save_buffer (pico_build true) record_edge_case)) 370 :=
  have h := settings_save_buffer_shape (pico_build true) record_edge_case record_edge_case_WF
    (by decide) record_edge_case_checks
  ⟨record_edge_case_WF, record_edge_case_checks, h.2.1, h.2.2.2.1⟩

/-- C19: in the buffer that `settings_save` stages, every byte 0..369 outside the array
wifi_pass (offsets 40..103) is the byte of the caller's record, and so is every byte inside
that array when FLAG_SETTINGS_ENCRYPTED is clear.  The caller's record is an argument of
`settings_save` (a pointer to const) and no result of it: the function returns the status
and the flash only. -/
theorem settings_save_buffer_frame (B : Build) (R : settings_t) (hwf : R.WF)
    (hsec : sizeof_settings_t ≤ B.FLASH_SECTOR_SIZE) (hval : settings_save_checks R = true) :
    (∀ (dev : FlashDevice) (flash_offset : Nat) (flash : Flash),
        settings_save B dev R flash_offset flash
          = write_flash_sector B dev flash_offset (settings_save_buffer B R)
              B.FLASH_SECTOR_SIZE flash)
      ∧ (∀ i, i < 370 → (i < 40 ∨ 104 ≤ i) →
          (settings_save_buffer B R).getD i 0 = R.bytes.getD i 0)
      ∧ (R.flags &&& FLAG_SETTINGS_ENCRYPTED = 0 →
          ∀ i, i < 370 → (settings_save_buffer B R).getD i 0 = R.bytes.getD i 0) := by
  refine ⟨?_, ?_, ?_⟩
  · intro dev flash_offset flash
    rw [settings_save_eq, if_pos hval]
  · intro i hi hout
    rw [getD_settings_save_buffer B R hwf hsec i (by omega),
      getD_settings_save_temp B R i hi (by omega)]
  · intro hf i hi
    rw [getD_settings_save_buffer B R hwf hsec i (by omega),
      getD_settings_save_temp B R i hi (Or.inr (Or.inr hf))]

/-- Witness of C19: the record of test 2 in a build with the filter; byte 104 of the buffer
is the brightness 100 of the record. -/
theorem settings_save_buffer_frame_witness :
    record_edge_case.WF ∧ settings_save_checks record_edge_case = true
      ∧ (settings_save_buffer (pico_build true) record_edge_case).getD 104 0
          = record_edge_case.bytes.getD 104 0
      ∧ record_edge_case.bytes.getD 104 0 = 100 :=
  have h := settings_save_buffer_frame (pico_build true) record_edge_case record_edge_case_WF
    (by decide) record_edge_case_checks
  ⟨record_edge_case_WF, record_edge_case_checks, h.2.1 104 (by decide) (Or.inr (by decide)),
    by decide!⟩

/-- C20: with the filter enabled the key is the fixed table of 32 bytes
`(0xCAFE0000 >> j) & 0xFF`, and for every array of 64 bytes `p` with `n = strnlen(p, 64)`
the array after `xor_wifi_pass(p, 64)` holds `p[i] XOR k[i mod 32]` at every `i < n` and
`p[i]` at every index from `n` to 63. -/
theorem xor_wifi_pass_key_selection (B : Build) (p : List Nat)
    (hB : B.ENCRYPT_WIFI_PASS = true) (hlen : p.length = 64) (hb : ∀ b ∈ p, b < 256) :
    xor_key_table.length = 32
      ∧ (∀ j, j < 32 → xor_key_table.getD j 0 = (0xCAFE0000 >>> j) &&& 0xFF)
      ∧ (xor_wifi_pass B p 64).length = 64
      ∧ (∀ i, i < strnlen p 64 →
          (xor_wifi_pass B p 64).getD i 0 = p.getD i 0 ^^^ xor_key_table.getD (i % 32) 0)
      ∧ (∀ i, strnlen p 64 ≤ i → i < 64 → (xor_wifi_pass B p 64).getD i 0 = p.getD i 0) := by
  have hk : ∀ j, j < 32 → xor_key_table.getD j 0 = (0xCAFE0000 >>> j) &&& 0xFF := by
    intro j hj
    unfold xor_key_table
    rw [getD_map_range, if_pos hj]
    rfl
  have hn : strnlen p 64 ≤ 64 := by
    have := strlen_le_length (p.take 64)
    have h2 : (p.take 64).length ≤ 64 := by simp
    unfold strnlen
    omega
  refine ⟨by simp [xor_key_table], hk, by rw [length_xor_wifi_pass, hlen], ?_, ?_⟩
  · intro i hi
    have h64 : i < WIFI_PASS_MAX_LEN := by
      show i < 64
      omega
    rw [getD_xor_wifi_pass, if_pos ⟨hB, hi, h64⟩, hk (i % 32) (Nat.mod_lt _ (by decide)),
      xor_byte_mod _ _ (getD_lt_256 p i hb) (xor_key_lt i)]
    have hm : i % 32 % 32 = i % 32 := Nat.mod_mod _ _
    simp only [xor_key, SETTINGS_MAGIC, hm]
  · intro i hi _
    rw [getD_xor_wifi_pass, if_neg (fun h => by omega)]

/-- Witness of C20: the array that holds the password of test 2. -/
theorem xor_wifi_pass_key_selection_witness :
    (pico_build true).ENCRYPT_WIFI_PASS = true ∧ record_edge_case.wifi_pass.length = 64
      ∧ (∀ i, i < strnlen record_edge_case.wifi_pass 64 →
          (xor_wifi_pass (pico_build true) record_edge_case.wifi_pass 64).getD i 0
            = record_edge_case.wifi_pass.getD i 0 ^^^ xor_key_table.getD (i % 32) 0) :=
  ⟨rfl, length_wifi_pass _,
    (xor_wifi_pass_key_selection (pico_build true) record_edge_case.wifi_pass rfl
      (length_wifi_pass _) (mem_mem_slice_lt _ _ _ record_edge_case_WF.2)).2.2.2.1⟩

/-- C21: on a device whose erase sets every byte of the sector to 0xFF and whose program
can only clear bits (the new byte is the old byte AND the data byte), for every flash
contents before the call, every aligned offset inside the flash, every buffer of
FLASH_SECTOR_SIZE bytes and every length up to FLASH_SECTOR_SIZE, `write_flash_sector`
returns true, the sector then reads as the buffer in all its FLASH_SECTOR_SIZE bytes, and
every byte outside the sector is as it was.  `erase_flash_sector` returns true, leaves the
sector all 0xFF and every byte outside it as it was. -/
theorem write_flash_sector_erase_before_program (B : Build) (dev : FlashDevice)
    (offset : Nat) (data : List Nat) (len : Nat) (flash : Flash) (hdev : NorDevice dev)
    (hal : offset % B.FLASH_SECTOR_SIZE = 0) (hin : offset < B.PICO_FLASH_SIZE_BYTES)
    (hlen : len ≤ B.FLASH_SECTOR_SIZE) (hdata : data.length = B.FLASH_SECTOR_SIZE)
    (hb : ∀ b ∈ data, b < 256) :
    (write_flash_sector B dev offset data len flash).1 = true
      ∧ flash_read (write_flash_sector B dev offset data len flash).2 offset
          B.FLASH_SECTOR_SIZE = data
      ∧ (∀ a, a < offset ∨ offset + B.FLASH_SECTOR_SIZE ≤ a →
          (write_flash_sector B dev offset data len flash).2 a = flash a)
      ∧ (erase_flash_sector B dev offset flash).1 = true
      ∧ (∀ a, offset ≤ a → a < offset + B.FLASH_SECTOR_SIZE →
          (erase_flash_sector B dev offset flash).2 a = 0xFF)
      ∧ (∀ a, a < offset ∨ offset + B.FLASH_SECTOR_SIZE ≤ a →
          (erase_flash_sector B dev offset flash).2 a = flash a) := by
  obtain ⟨hw1, hw2⟩ := write_flash_sector_fault_free_len B dev offset data len flash
    (NorDevice_fault_free B dev hdev) hal hin hlen hdata hb
  have hfill : ∀ b ∈ List.replicate B.FLASH_SECTOR_SIZE 0xFF, b < 256 := by
    intro b hb'
    rw [List.eq_of_mem_replicate hb']
    decide
  obtain ⟨he1, he2⟩ := write_flash_sector_fault_free_len B dev offset
    (List.replicate B.FLASH_SECTOR_SIZE 0xFF) B.FLASH_SECTOR_SIZE flash
    (NorDevice_fault_free B dev hdev) hal hin (Nat.le_refl _) (List.length_replicate _ _) hfill
  refine ⟨hw1, hw2, ?_, he1, ?_, ?_⟩
  · intro a ha
    exact write_flash_sector_NorDevice_outside B dev offset data len flash hdev a ha
  · intro a h1 h2
    have hg := congrArg (fun l => l.getD (a - offset) 0) he2
    simp only [] at hg
    rw [getD_flash_read, if_pos (by omega), show offset + (a - offset) = a by omega] at hg
    rw [show erase_flash_sector B dev offset flash
      = write_flash_sector B dev offset (List.replicate B.FLASH_SECTOR_SIZE 0xFF)
          B.FLASH_SECTOR_SIZE flash from rfl, hg]
    rw [List.getD_eq_getElem?_getD, List.getElem?_replicate, if_pos (by omega)]
    rfl
  · intro a ha
    exact write_flash_sector_NorDevice_outside B dev offset _ _ flash hdev a ha

/-- Witness of C21: the NOR flash of the specification, the sector at `FLASH_OFFSET` of
a flash that holds the default record there, a buffer of 4096 bytes 0x5A and the length
374. -/
theorem write_flash_sector_erase_before_program_witness :
    NorDevice nor_flash
      ∧ FLASH_OFFSET % (pico_build true).FLASH_SECTOR_SIZE = 0
      ∧ FLASH_OFFSET < (pico_build true).PICO_FLASH_SIZE_BYTES
      ∧ 374 ≤ (pico_build true).FLASH_SECTOR_SIZE
      ∧ (List.replicate 4096 0x5A).length = (pico_build true).FLASH_SECTOR_SIZE
      ∧ (write_flash_sector (pico_build true) nor_flash FLASH_OFFSET
          (List.replicate 4096 0x5A) 374 default_flash).1 = true
      ∧ flash_read (write_flash_sector (pico_build true) nor_flash FLASH_OFFSET
          (List.replicate 4096 0x5A) 374 default_flash).2 FLASH_OFFSET 4096
          = List.replicate 4096 0x5A
      ∧ (erase_flash_sector (pico_build true) nor_flash FLASH_OFFSET default_flash).1 = true :=
  have h := write_flash_sector_erase_before_program (pico_build true) nor_flash FLASH_OFFSET
    (List.replicate 4096 0x5A) 374 default_flash nor_flash_NorDevice (by decide) (by decide)
    (by decide) (List.length_replicate _ _)
    (fun b hb => by rw [List.eq_of_mem_replicate hb]; decide)
  ⟨nor_flash_NorDevice, by decide, by decide, by decide, List.length_replicate _ _, h.1, h.2.1,
    h.2.2.2.1⟩

/-- C22: for every record of bytes R that passes the checks of `settings_save` and has
FLAG_SETTINGS_ENCRYPTED clear, on a device without faults and at an aligned offset inside
the flash, `settings_save` followed by `settings_load` returns true twice; the record
loaded is R with its crc32 member replaced by `calculate_crc32` of the first 370 bytes of
R, so its first 370 bytes are those of R, one by one, and its crc32 is that checksum. -/
theorem settings_save_load_flag_clear (B : Build) (dev : FlashDevice) (R cfg : settings_t)
    (flash_offset : Nat) (flash : Flash) (hsec : sizeof_settings_t ≤ B.FLASH_SECTOR_SIZE)
    (hdev : FaultFree B dev) (hal : flash_offset % B.FLASH_SECTOR_SIZE = 0)
    (hin : flash_offset < B.PICO_FLASH_SIZE_BYTES) (hwf : R.WF)
    (hval : settings_save_checks R = true)
    (hflag : R.flags &&& FLAG_SETTINGS_ENCRYPTED = 0) :
    (settings_save B dev R flash_offset flash).1 = true
      ∧ settings_load B cfg flash_offset (settings_save B dev R flash_offset flash).2
          = (true, R.set_crc32 (calculate_crc32 (some R.bytes) 370))
      ∧ (settings_load B cfg flash_offset
          (settings_save B dev R flash_offset flash).2).2.bytes.length = 374
      ∧ (∀ i, i < 370 →
          (settings_load B cfg flash_offset
            (settings_save B dev R flash_offset flash).2).2.bytes.getD i 0 = R.bytes.getD i 0)
      ∧ (settings_load B cfg flash_offset (settings_save B dev R flash_offset flash).2).2.crc32
          = calculate_crc32 (some R.bytes) 370 := by
  obtain ⟨hs, _, hl⟩ := settings_save_load B dev R cfg flash_offset flash hsec hdev hal hin
    hwf hval
  have hT : settings_save_temp B R = R.set_crc32 (calculate_crc32 (some R.bytes) 370) := by
    unfold settings_save_temp
    simp only []
    rw [if_neg (by simpa using hflag)]
    rfl
  have hTf : (R.set_crc32 (calculate_crc32 (some R.bytes) 370)).flags
      &&& FLAG_SETTINGS_ENCRYPTED = 0 := by
    have h := (same_other_fields_set_crc32 R (calculate_crc32 (some R.bytes) 370)).2.2.2.2.2.1
    rw [h]
    exact hflag
  have hL : settings_load B cfg flash_offset (settings_save B dev R flash_offset flash).2
      = (true, R.set_crc32 (calculate_crc32 (some R.bytes) 370)) := by
    rw [hl, hT, if_neg (by simpa using hTf)]
  rw [hL]
  refine ⟨hs, rfl, ?_, ?_, ?_⟩
  · simp only [settings_t.set_crc32, length_mem_write]
    exact hwf.1
  · intro i hi
    exact getD_mem_write_of_lt _ _ _ _ (by show i < 370; exact hi)
  · exact crc32_set_crc32 R _ hwf.1 (calculate_crc32_lt _ _ hwf.2)

/-- Witness of C22: the record whose brightness the application set to 80 and whose crc32
is stale, flag clear, saved by a build with the filter to an erased NOR flash. -/
theorem settings_save_load_flag_clear_witness :
    sizeof_settings_t ≤ (pico_build true).FLASH_SECTOR_SIZE
      ∧ FaultFree (pico_build true) nor_flash
      ∧ FLASH_OFFSET % (pico_build true).FLASH_SECTOR_SIZE = 0
      ∧ FLASH_OFFSET < (pico_build true).PICO_FLASH_SIZE_BYTES
      ∧ record_stale_crc.WF ∧ settings_save_checks record_stale_crc = true
      ∧ record_stale_crc.flags &&& FLAG_SETTINGS_ENCRYPTED = 0
      ∧ settings_load (pico_build true) default_record FLASH_OFFSET
          (settings_save (pico_build true) nor_flash record_stale_crc FLASH_OFFSET
            blank_flash).2
        = (true, record_stale_crc.set_crc32 (calculate_crc32 (some record_stale_crc.bytes) 370)) :=
  have h := settings_save_load_flag_clear (pico_build true) nor_flash record_stale_crc
    default_record FLASH_OFFSET blank_flash (by decide) (nor_flash_fault_free _) (by decide)
    (by decide) record_stale_crc_WF record_stale_crc_checks (by decide!)
  ⟨by decide, nor_flash_fault_free _, by decide, by decide, record_stale_crc_WF,
    record_stale_crc_checks, by decide!, h.2.1⟩

/-- C23: `settings_load` runs none of the checks of `settings_save`.  For every record of
bytes R with the magic, version and size of the schema and a member that `settings_save`
rejects (brightness above 100, an hour above 23, a wifi_ssid or an NTP server with no
terminator), there is a flash whose sector holds R with the checksum of its payload as
trailer, so that magic, version, size and checksum are correct, for which `settings_load`
returns true, and `settings_save` of the record loaded returns false and leaves the flash
as it is, on every device. -/
theorem settings_load_runs_no_checks (B : Build) (cfg R : settings_t) (flash_offset : Nat)
    (hal : flash_offset % B.FLASH_SECTOR_SIZE = 0)
    (hin : flash_offset < B.PICO_FLASH_SIZE_BYTES) (hwf : R.WF)
    (hmagic : R.magic = SETTINGS_MAGIC) (hver : R.version = SETTINGS_VERSION)
    (hsize : R.size = sizeof_settings_t)
    (hbad : R.brightness > BRIGHTNESS_MAX ∨ R.night_off_hour > HOUR_MAX
      ∨ R.night_on_hour > HOUR_MAX ∨ strlen R.wifi_ssid ≥ WIFI_SSID_MAX_LEN
      ∨ ∃ i, i < NTP_MAX_SERVERS ∧ strlen (R.ntp_servers i) ≥ NTP_SERVER_MAX_LEN) :
    ∃ flash : Flash,
      flash_read flash flash_offset 374
          = (R.set_crc32 (calculate_crc32 (some R.bytes) 370)).bytes
        ∧ rd32 (flash_read flash flash_offset 374) 0 = 0xCAFE0000
        ∧ rd16 (flash_read flash flash_offset 374) 4 = 0x0100
        ∧ rd16 (flash_read flash flash_offset 374) 6 = 374
        ∧ rd32 (flash_read flash flash_offset 374) 370
            = calculate_crc32 (some (flash_read flash flash_offset 374)) 370
        ∧ (settings_load B cfg flash_offset flash).1 = true
        ∧ (settings_load B cfg flash_offset flash).2.brightness = R.brightness
        ∧ (settings_load B cfg flash_offset flash).2.night_off_hour = R.night_off_hour
        ∧ (settings_load B cfg flash_offset flash).2.night_on_hour = R.night_on_hour
        ∧ (settings_load B cfg flash_offset flash).2.wifi_ssid = R.wifi_ssid
        ∧ (∀ i, i < NTP_MAX_SERVERS →
            (settings_load B cfg flash_offset flash).2.ntp_servers i = R.ntp_servers i)
        ∧ ∀ (dev : FlashDevice) (flash' : Flash),
            settings_save B dev (settings_load B cfg flash_offset flash).2 flash_offset flash'
              = (false, flash') := by
  have hc : calculate_crc32 (some R.bytes) 370 < 2 ^ 32 := calculate_crc32_lt _ _ hwf.2
  have hTlen : (R.set_crc32 (calculate_crc32 (some R.bytes) 370)).bytes.length = 374 := by
    simp only [settings_t.set_crc32, length_mem_write]
    exact hwf.1
  have hTwf : (R.set_crc32 (calculate_crc32 (some R.bytes) 370)).WF :=
    ⟨hTlen, mem_mem_write_lt _ _ _ hwf.2 (mem_le32_lt _)⟩
  have hsame := same_other_fields_set_crc32 R (calculate_crc32 (some R.bytes) 370)
  have hTcrc : calculate_crc32 (some (R.set_crc32 (calculate_crc32 (some R.bytes) 370)).bytes)
      (sizeof_settings_t - 4) = (R.set_crc32 (calculate_crc32 (some R.bytes) 370)).crc32 := by
    rw [crc32_set_crc32 R _ hwf.1 hc]
    exact calculate_crc32_congr _ _ 370 (mem_read_set_crc32 _ _)
  have hread : flash_read (flash_put blank_flash flash_offset
      (R.set_crc32 (calculate_crc32 (some R.bytes) 370)).bytes) flash_offset 374
      = (R.set_crc32 (calculate_crc32 (some R.bytes) 370)).bytes := by
    have h := flash_read_flash_put blank_flash flash_offset
      (R.set_crc32 (calculate_crc32 (some R.bytes) 370)).bytes
    rw [hTlen] at h
    exact h
  have hl := settings_load_of_sector B cfg (R.set_crc32 (calculate_crc32 (some R.bytes) 370))
    flash_offset _ hal hin hread (hsame.1.trans hmagic) (hsame.2.1.trans hver)
    (hsame.2.2.1.trans hsize) hTcrc
  obtain ⟨hLwf, hLsame, _, _⟩ := filtered_props B
    (R.set_crc32 (calculate_crc32 (some R.bytes) 370)) hTwf
  have hLR := same_other_fields_trans _ _ _ hLsame hsame
  refine ⟨flash_put blank_flash flash_offset
    (R.set_crc32 (calculate_crc32 (some R.bytes) 370)).bytes, hread, ?_, ?_, ?_, ?_, ?_⟩
  · rw [hread]; exact hsame.1.trans hmagic
  · rw [hread]; exact hsame.2.1.trans hver
  · rw [hread]; exact hsame.2.2.1.trans hsize
  · rw [hread]; exact hTcrc.symm
  · rw [hl]
    refine ⟨rfl, hLR.2.2.2.2.1, hLR.2.2.2.2.2.2.1, hLR.2.2.2.2.2.2.2.1, hLR.2.2.2.1,
      hLR.2.2.2.2.2.2.2.2.2.2.1, ?_⟩
    intro dev flash'
    rw [settings_save_eq, if_neg]
    intro hchk
    obtain ⟨_, _, _, hb, ho, hn, hss, _, hntp⟩ := (settings_save_checks_iff _ hLwf.1).mp hchk
    rw [hLR.2.2.2.2.1] at hb
    rw [hLR.2.2.2.2.2.2.1] at ho
    rw [hLR.2.2.2.2.2.2.2.1] at hn
    rw [hLR.2.2.2.1] at hss
    rcases hbad with h | h | h | h | ⟨i, hi, h⟩
    · omega
    · omega
    · omega
    · omega
    · have := hntp i hi
      rw [hLR.2.2.2.2.2.2.2.2.2.2.1 i hi] at this
      omega

/-- Witness of C23: the default record with brightness 255 in a build with the filter. -/
theorem settings_load_runs_no_checks_witness :
    FLASH_OFFSET % (pico_build true).FLASH_SECTOR_SIZE = 0
      ∧ FLASH_OFFSET < (pico_build true).PICO_FLASH_SIZE_BYTES
      ∧ record_brightness_255.WF
      ∧ record_brightness_255.magic = SETTINGS_MAGIC
      ∧ record_brightness_255.version = SETTINGS_VERSION
      ∧ record_brightness_255.size = sizeof_settings_t
      ∧ record_brightness_255.brightness = 255
      ∧ ∃ flash : Flash,
          (settings_load (pico_build true) default_record FLASH_OFFSET flash).1 = true
          ∧ (settings_load (pico_build true) default_record FLASH_OFFSET flash).2.brightness
              = 255
          ∧ ∀ (dev : FlashDevice) (flash' : Flash),
            settings_save (pico_build true) dev
                (settings_load (pico_build true) default_record FLASH_OFFSET flash).2
                FLASH_OFFSET flash'
              = (false, flash') :=
  have hb : record_brightness_255.brightness = 255 := by decide!
  have h := settings_load_runs_no_checks (pico_build true) default_record
    record_brightness_255 FLASH_OFFSET (by decide) (by decide) (by decide!) (by decide!)
    (by decide!) (by decide!) (Or.inl (by decide!))
  ⟨by decide, by decide, by decide!, by decide!, by decide!, by decide!, hb,
    h.elim fun flash hf =>
      ⟨flash, hf.2.2.2.2.2.1, hf.2.2.2.2.2.2.1.trans hb, hf.2.2.2.2.2.2.2.2.2.2.2⟩⟩

/-- C24: for every two records of 374 bytes that pass the checks of `settings_save` and
have the same first 370 bytes, so that they differ in the member crc32 at most, the buffer
that `settings_save` stages is the same, and so are the result and the flash after the
call, on every device, at every offset and for every flash contents before the call. -/
theorem settings_save_ignores_crc32 (B : Build) (R1 R2 : settings_t)
    (hlen1 : R1.bytes.length = 374) (hlen2 : R2.bytes.length = 374)
    (hval1 : settings_save_checks R1 = true) (hval2 : settings_save_checks R2 = true)
    (heq : ∀ i, i < 370 → R1.bytes.getD i 0 = R2.bytes.getD i 0) :
    settings_save_buffer B R1 = settings_save_buffer B R2
      ∧ ∀ (dev : FlashDevice) (flash_offset : Nat) (flash : Flash),
          settings_save B dev R1 flash_offset flash
            = settings_save B dev R2 flash_offset flash := by
  have hT := settings_save_temp_congr B R1 R2 hlen1 hlen2 heq
  have hbuf : settings_save_buffer B R1 = settings_save_buffer B R2 := by
    unfold settings_save_buffer
    rw [hT]
  refine ⟨hbuf, ?_⟩
  intro dev flash_offset flash
  rw [settings_save_eq, settings_save_eq, if_pos hval1, if_pos hval2, hbuf]

/-- Witness of C24: the default record and the same record with 0xDEADBEEF as crc32. -/
theorem settings_save_ignores_crc32_witness :
    default_record.bytes.length = 374
      ∧ (default_record.set_crc32 0xDEADBEEF).bytes.length = 374
      ∧ settings_save_checks default_record = true
      ∧ settings_save_checks (default_record.set_crc32 0xDEADBEEF) = true
      ∧ default_record.crc32 ≠ (default_record.set_crc32 0xDEADBEEF).crc32
      ∧ settings_save_buffer (pico_build true) default_record
          = settings_save_buffer (pico_build true) (default_record.set_crc32 0xDEADBEEF) :=
  have h := settings_save_ignores_crc32 (pico_build true) default_record
    (default_record.set_crc32 0xDEADBEEF) default_record_length (by decide!) (by decide!)
    (by decide!) (fun i hi => (getD_set_crc32 default_record 0xDEADBEEF i hi).symm)
  ⟨default_record_length, by decide!, by decide!, by decide!, by decide!, h.1⟩

end VFDVault
